import Mathlib

/-!
Verification of the artifact-synthesis pipeline of the multiagent-ai-update
repository.  The development is a shallow embedding of
`src/core/packager.py` and `src/core/validation.py`: Python strings become
`List Char` / `String`, the small regular expressions used by the code are
embedded as explicit backtracking matchers that follow Python `re`
backtracking priority (greedy pieces try the longest alternative first,
lazy pieces the shortest; on failure the scan position advances by one
character), and functions that can raise return `Except String`.
All definitions are executable.
-/

namespace MultiAgent

/-- ASCII whitespace, as matched by Python's `\s` and `str.strip` on the
ASCII texts this pipeline handles. -/
def isWs (c : Char) : Bool :=
  c == ' ' || c == '\t' || c == '\n' || c == '\r' || c == '\x0b' || c == '\x0c'

/-- Python `str.strip()` (whitespace from both ends). -/
def pyStrip (l : List Char) : List Char :=
  ((l.dropWhile isWs).reverse.dropWhile isWs).reverse

/-- Worker for `splitlines`: Python `str.splitlines()` on texts using the
`\n`, `\r\n` and `\r` line terminators. -/
def splitlinesGo : List Char → List Char → List (List Char)
  | [], acc => if acc.isEmpty then [] else [acc.reverse]
  | '\r' :: '\n' :: rest, acc => acc.reverse :: splitlinesGo rest []
  | '\r' :: rest, acc => acc.reverse :: splitlinesGo rest []
  | '\n' :: rest, acc => acc.reverse :: splitlinesGo rest []
  | c :: rest, acc => splitlinesGo rest (c :: acc)

/-- Python `str.splitlines()`. -/
def splitlines (l : List Char) : List (List Char) := splitlinesGo l []

/-- Python `"\n".join(lines)`. -/
def joinNL (ls : List (List Char)) : List Char := List.intercalate ['\n'] ls

/-- The list `[n, n-1, ..., 1, 0]`: the order in which a greedy `*` or `+`
regex piece tries the number of characters it consumes. -/
def downFrom (n : Nat) : List Nat := (List.range (n + 1)).reverse

/-- Length of the longest whitespace prefix. -/
def wsRun (l : List Char) : Nat := (l.takeWhile isWs).length

/-- Worker for `countSub`: `skip` counts characters still to consume after
a match before scanning resumes, and the Bool argument caches whether the
pattern matches at the current position (each step is a plain pattern
match, so evaluation runs in constant stack space). -/
def countSubGo (pat : List Char) : Nat → Bool → List Char → Nat
  | _ + 1, _, [] => 0
  | 1, _, _ :: rest =>
    countSubGo pat 0 (pat.isPrefixOf rest && !pat.isEmpty) rest
  | skip + 2, _, _ :: rest => countSubGo pat (skip + 1) false rest
  | 0, true, [] => 1
  | 0, true, _ :: rest =>
    1 + countSubGo pat (pat.length - 1)
      ((pat.length == 1) && pat.isPrefixOf rest && !pat.isEmpty) rest
  | 0, false, [] => 0
  | 0, false, _ :: rest =>
    countSubGo pat 0 (pat.isPrefixOf rest && !pat.isEmpty) rest

/-- Python `str.count(sub)` for a non-empty `sub`: non-overlapping
occurrences, scanning left to right. -/
def countSub (pat l : List Char) : Nat :=
  countSubGo pat 0 (pat.isPrefixOf l && !pat.isEmpty) l

/-- Worker for `containsSub`: the Bool argument caches whether the pattern
matches at the current position. -/
def containsSubGo (pat : List Char) : Bool → List Char → Bool
  | true, _ => true
  | false, [] => false
  | false, _ :: rest => containsSubGo pat (pat.isPrefixOf rest) rest

/-- Python `sub in s`. -/
def containsSub (pat l : List Char) : Bool := containsSubGo pat (pat.isPrefixOf l) l

/-- Worker for `replaceSub`: `skip` counts characters still to drop after
a match before copying resumes. -/
def replaceSubGo (pat rep : List Char) : Nat → List Char → List Char
  | _, [] => []
  | skip + 1, _ :: rest => replaceSubGo pat rep skip rest
  | 0, c :: rest =>
    if pat.isPrefixOf (c :: rest) && !pat.isEmpty then
      rep ++ replaceSubGo pat rep (pat.length - 1) rest
    else
      c :: replaceSubGo pat rep 0 rest

/-- Python `s.replace(old, new)` for a non-empty `old`: replaces every
non-overlapping occurrence, scanning left to right. -/
def replaceSub (pat rep l : List Char) : List Char := replaceSubGo pat rep 0 l

/-- Python `str.lower()` restricted to ASCII plus the accented letters that
appear in the source's character classes. -/
def pyLowerChar (c : Char) : Char :=
  if c == 'Ç' then 'ç' else if c == 'Á' then 'á'
  else if c == 'É' then 'é' else if c == 'Í' then 'í'
  else if c == 'Ó' then 'ó' else if c == 'Ú' then 'ú'
  else if c == 'Â' then 'â' else if c == 'Ê' then 'ê'
  else if c == 'Ô' then 'ô' else if c == 'Ã' then 'ã'
  else if c == 'Õ' then 'õ' else if c == 'Ü' then 'ü'
  else c.toLower

/-- Python `str.lower()` on a character list. -/
def pyLower (l : List Char) : List Char := l.map pyLowerChar

/-- Python `str.upper()` (ASCII). -/
def pyUpper (l : List Char) : List Char := l.map Char.toUpper

/-- Characters of Python's regex word class `\w` on ASCII input. -/
def isWordChar (c : Char) : Bool := c.isAlphanum || c == '_'

/-- A Python regex word boundary `\b` between `before` (`none` at the start
of the string) and `after` (`none` at the end). -/
def wordBoundary (before after : Option Char) : Bool :=
  (before.elim false isWordChar) != (after.elim false isWordChar)

/-- Decimal digit characters used to model Python's `str(i)` / f-string
formatting of a natural number. -/
def digitChar : Nat → Char
  | 0 => '0' | 1 => '1' | 2 => '2' | 3 => '3' | 4 => '4'
  | 5 => '5' | 6 => '6' | 7 => '7' | 8 => '8' | _ => '9'

/-- Worker for `natDigits`; the fuel bounds the number of divisions and is
never exhausted when it starts at `n` itself. -/
def natDigitsGo : Nat → Nat → List Char
  | 0, n => [digitChar n]
  | fuel + 1, n =>
    if n < 10 then [digitChar n]
    else natDigitsGo fuel (n / 10) ++ [digitChar (n % 10)]

/-- Decimal digits of `n`, most significant first. -/
def natDigits (n : Nat) : List Char := natDigitsGo n n

/-- Python `str(n)` / `f"{n}"` for a natural number. -/
def pyNat (n : Nat) : String := ⟨natDigits n⟩

/-- String-level wrapper of `containsSub`. -/
def sContains (pat s : String) : Bool := containsSub pat.data s.data

/-- String-level wrapper of `countSub`. -/
def sCount (pat s : String) : Nat := countSub pat.data s.data

/-- String-level prefix test (Python `str.startswith`). -/
def sStarts (pat s : String) : Bool := pat.data.isPrefixOf s.data

/-- String-level suffix test (Python `str.endswith`). -/
def sEnds (pat s : String) : Bool := pat.data.reverse.isPrefixOf s.data.reverse

/-- Python `str.strip()` at string level. -/
def sStrip (s : String) : String := ⟨pyStrip s.data⟩

/-- Python `str.lower()` at string level. -/
def sLower (s : String) : String := ⟨pyLower s.data⟩

/-! ## The fenced-block regex of `_extract_code_blocks`

Python: `re.compile(r"```\s*([a-zA-Z0-9_+-]*)\s*\r?\n(.*?)```", re.DOTALL)`
used with `finditer`.  The header part `\s*([a-zA-Z0-9_+-]*)\s*\r?\n` is
embedded as the priority-ordered list of all the ways it can match a
prefix, exactly in `re` backtracking order; the lazy body `(.*?)` takes the
shortest stretch up to the next closing triple backtick. -/

/-- Characters of the language-tag class `[a-zA-Z0-9_+-]`. -/
def isTagChar (c : Char) : Bool := c.isAlphanum || c == '_' || c == '+' || c == '-'

/-- Length of the longest language-tag prefix. -/
def tagRun (l : List Char) : Nat := (l.takeWhile isTagChar).length

/-- All ways `\s*([a-zA-Z0-9_+-]*)\s*\r?\n` can match a prefix of `l`, as
(language tag, remainder) pairs in Python `re` backtracking priority order
(each greedy piece longest first, `\r?` with `\r` first). -/
def headerCands (l : List Char) : List (List Char × List Char) :=
  (downFrom (wsRun l)).flatMap (fun n1 =>
    let s1 := l.drop n1
    (downFrom (tagRun s1)).flatMap (fun n2 =>
      let lang := s1.take n2
      let s2 := s1.drop n2
      (downFrom (wsRun s2)).flatMap (fun n3 =>
        let s3 := s2.drop n3
        (match s3 with
         | '\r' :: '\n' :: rest => [(lang, rest)]
         | _ => []) ++
        (match s3 with
         | '\n' :: rest => [(lang, rest)]
         | _ => []))))

/-- Split `l` at the first occurrence of a closing <triple backtick>:
returns (text before it, text after it). -/
def splitAtTriple : List Char → Option (List Char × List Char)
  | [] => none
  | c :: rest =>
    if ['`', '`', '`'].isPrefixOf (c :: rest) then
      some ([], (c :: rest).drop 3)
    else
      match splitAtTriple rest with
      | some (pre, post) => some (c :: pre, post)
      | none => none

/-- Try to match the whole fenced-block regex at the start of `l`.
Returns (language tag, body, remainder after the closing fence). -/
def matchFenceAt (l : List Char) : Option (List Char × List Char × List Char) :=
  if ['`', '`', '`'].isPrefixOf l then
    (headerCands (l.drop 3)).findSome? (fun p =>
      match splitAtTriple p.2 with
      | some (content, rest) => some (p.1, content, rest)
      | none => none)
  else none

/-! ## Filename heuristics of `_extract_code_blocks` -/

/-- Length of the longest alphanumeric prefix (`[a-zA-Z0-9]+`). -/
def alnumRun (l : List Char) : Nat := (l.takeWhile Char.isAlphanum).length

/-- Indices of `'.'` in `l`, rightmost first: the order in which the greedy
`.+` of `(.+\.[a-zA-Z0-9]+)` tries the dot consumed by `\.`. -/
def dotPositions (l : List Char) : List Nat :=
  ((List.range l.length).filter (fun i => (l.drop i).headD ' ' == '.')).reverse

/-- Match `(.+\.[a-zA-Z0-9]+)` at the start of `l`, optionally followed by
`\s*` and a closing literal (`trail`), not anchored at the end; returns the
capture group.  Follows `re` priority: rightmost feasible dot first. -/
def matchDotName (l : List Char) (trail : Option (List Char)) : Option (List Char) :=
  (dotPositions l).findSome? (fun d =>
    if d == 0 then none
    else
      let afterDot := l.drop (d + 1)
      let a := alnumRun afterDot
      if a == 0 then none
      else
        match trail with
        | none => some (l.take (d + 1 + a))
        | some suf =>
          let rest := afterDot.drop a
          if suf.isPrefixOf (rest.drop (wsRun rest)) then
            some (l.take (d + 1 + a))
          else none)

/-- Match one of the comment-wrapped filename patterns
(`<open>\s*(.+\.[a-zA-Z0-9]+)` with optional `\s*<close>`) against a
stripped line via `re.match`. -/
def matchCommentName (openLit : List Char) (closeLit : Option (List Char))
    (l : List Char) : Option (List Char) :=
  if openLit.isPrefixOf l then
    let r := l.drop openLit.length
    (downFrom (wsRun r)).findSome? (fun w => matchDotName (r.drop w) closeLit)
  else none

/-- Heuristic 1 of `_extract_code_blocks` applied to one stripped line: the
four comment patterns (HTML, `//`, `/* */`, `#`) tried in source order. -/
def heur1Line (l : List Char) : Option (List Char) :=
  (matchCommentName "<!--".data (some "-->".data) l).orElse (fun _ =>
  (matchCommentName "//".data none l).orElse (fun _ =>
  (matchCommentName "/*".data (some "*/".data) l).orElse (fun _ =>
  (matchCommentName "#".data none l))))

/-- Heuristic 1: a comment-wrapped filename on one of the first 5 lines of
the block body. -/
def heur1 (content : List Char) : Option (List Char) :=
  ((splitlines content).take 5).findSome? (fun line => heur1Line (pyStrip line))

/-- Characters of the bare-path class `[A-Za-z0-9_./\\-]`. -/
def isPathChar (c : Char) : Bool :=
  c.isAlphanum || c == '_' || c == '.' || c == '/' || c == '\\' || c == '-'

/-- Length of the longest bare-path prefix. -/
def pathRun (l : List Char) : Nat := (l.takeWhile isPathChar).length

/-- Match `^([A-Za-z0-9_./\\-]+\.[A-Za-z0-9]+)\s*$` against a whole line,
with `re` backtracking priority (greedy `+` longest first). -/
def matchBarePath (l : List Char) : Option (List Char) :=
  ((downFrom (pathRun l)).filter (fun n => decide (0 < n))).findSome? (fun n =>
    match l.drop n with
    | '.' :: r2 =>
      let a := alnumRun r2
      if a == 0 then none
      else if (r2.drop a).dropWhile isWs == [] then some (l.take (n + 1 + a))
      else none
    | _ => none)

/-- Characters of the leading-junk class `[#>*\-\s]` of heuristic 2. -/
def isJunkChar (c : Char) : Bool :=
  c == '#' || c == '>' || c == '*' || c == '-' || isWs c

/-- Match `^[#>*\-\s]*([A-Za-z0-9_./\\-]+\.[A-Za-z0-9]+)\s*$` against a
whole (stripped) line. -/
def matchJunkPath (l : List Char) : Option (List Char) :=
  (downFrom ((l.takeWhile isJunkChar).length)).findSome? (fun j =>
    matchBarePath (l.drop j))

/-- The up-to-two lines looked at by heuristic 2, in the order the source
iterates them: the second-to-last line of the preceding text first, then
the last one, each stripped. -/
def lookBack (ls : List (List Char)) : List (List Char) :=
  match ls.reverse with
  | [] => []
  | [l1] => [pyStrip l1]
  | l1 :: l2 :: _ => [pyStrip l2, pyStrip l1]

/-- Heuristic 2: a bare path on one of the two lines immediately preceding
the fence in the source text. -/
def heur2 (pre : List Char) : Option (List Char) :=
  (lookBack (splitlines pre)).findSome? matchJunkPath

/-- Heuristic 3: a bare path with no comment markers on one of the first 5
lines inside the block. -/
def heur3 (content : List Char) : Option (List Char) :=
  ((splitlines content).take 5).findSome? (fun line => matchBarePath (pyStrip line))

/-- The `CodeBlock` record produced per fenced region:
`{language, content, filename}`. -/
structure CodeBlock where
  language : String
  content : String
  filename : Option String
deriving Repr, DecidableEq

/-- Build one `CodeBlock` from a match: filename heuristics tried in the
source's priority order (in-block comment, then preceding line, then bare
in-block path). -/
def mkBlock (pre lang content : List Char) : CodeBlock :=
  let fn := (heur1 content).orElse (fun _ =>
    (heur2 pre).orElse (fun _ => heur3 content))
  ⟨⟨lang⟩, ⟨content⟩, fn.map (fun l => (⟨l⟩ : String))⟩

/-- Scanner for `_extract_code_blocks`: mirrors `finditer` (advance one
character when the pattern does not match at the current position, continue
after the match end otherwise) while tracking the text already consumed,
which heuristic 2 inspects.  `fuel` bounds the recursion; every step
consumes at least one character, so `s.length + 1` is always enough. -/
def extractGo : Nat → List Char → List Char → List CodeBlock
  | 0, _, _ => []
  | fuel + 1, pre, s =>
    match matchFenceAt s with
    | some (lang, content, rest) =>
      mkBlock pre lang content ::
        extractGo fuel (pre ++ s.take (s.length - rest.length)) rest
    | none =>
      match s with
      | [] => []
      | c :: rest => extractGo fuel (pre ++ [c]) rest

/-- Embedding of `_extract_code_blocks` (packager.py, lines 9-71). -/
def extractCodeBlocks (text : String) : List CodeBlock :=
  extractGo (text.data.length + 1) [] text.data

/-- The source tolerates a falsy `text` (`text or ""`); `none` models
Python `None`. -/
def extractCodeBlocksOpt (text : Option String) : List CodeBlock :=
  extractCodeBlocks (text.getD "")

/-- Following the spec's words (sections 4.1 and 8): the list of well-formed
triple-backtick fenced regions of a text, in source order, each with its
optional language tag and inner text.  Written as its own recursion so the
extractor can be compared against it. -/
def specRegionsGo : Nat → List Char → List (String × String)
  | 0, _ => []
  | fuel + 1, s =>
    match matchFenceAt s with
    | some (lang, content, rest) => (⟨lang⟩, ⟨content⟩) :: specRegionsGo fuel rest
    | none =>
      match s with
      | [] => []
      | _ :: rest => specRegionsGo fuel rest

/-- The spec-side list of fenced regions of a text. -/
def specFencedRegions (text : String) : List (String × String) :=
  specRegionsGo (text.data.length + 1) text.data

/-! ## JSON values (the loosely-typed dicts that flow through validation.py
and the `contract` parameter of the packager) -/

/-- A Python JSON-ish value. Objects keep insertion order, like Python
dicts. -/
inductive Json where
  | null
  | jbool (b : Bool)
  | jnum (n : Int)
  | jstr (s : String)
  | jarr (elems : List Json)
  | jobj (fields : List (String × Json))

/-- Python `d.get(k)` (`None` when the key is absent or the value is not a
dict). -/
def Json.get? : Json → String → Option Json
  | .jobj kvs, k => (kvs.find? (fun kv => kv.1 == k)).map (fun kv => kv.2)
  | _, _ => none

/-- Python truthiness of a JSON value (for `x or default`). -/
def Json.falsy : Json → Bool
  | .null => true
  | .jbool b => !b
  | .jnum n => n == 0
  | .jstr s => s.isEmpty
  | .jarr xs => xs.isEmpty
  | .jobj kvs => kvs.isEmpty

/-- Key presence test, Python `k in d` for a dict. -/
def jsonHasKey (kvs : List (String × Json)) (k : String) : Bool :=
  (kvs.find? (fun kv => kv.1 == k)).isSome

/-! ## validation.py: `validate_contract_minimal` -/

/-- Conformance of one endpoint item to the `items` subschema of
`API_CONTRACT_SCHEMA`: an object with required string `path` and `method`,
and optional object `request` / `response`. -/
def endpointItemOk : Json → Bool
  | .jobj kvs =>
    (match (Json.jobj kvs).get? "path" with
     | some (.jstr _) => true | _ => false) &&
    (match (Json.jobj kvs).get? "method" with
     | some (.jstr _) => true | _ => false) &&
    (match (Json.jobj kvs).get? "request" with
     | some (.jobj _) => true | none => true | _ => false) &&
    (match (Json.jobj kvs).get? "response" with
     | some (.jobj _) => true | none => true | _ => false)
  | _ => false

/-- Conformance to `API_CONTRACT_SCHEMA` (what `jsonschema.validate`
checks): object, required `base_url` and `endpoints`, typed properties. -/
def contractSchemaOk : Json → Bool
  | .jobj kvs =>
    jsonHasKey kvs "base_url" &&
    jsonHasKey kvs "endpoints" &&
    (match (Json.jobj kvs).get? "base_url" with
     | some (.jstr _) => true | none => true | _ => false) &&
    (match (Json.jobj kvs).get? "endpoints" with
     | some (.jarr es) => es.all endpointItemOk
     | none => true | _ => false)
  | _ => false

/-- Embedding of `validate_contract_minimal` (validation.py, lines 34-46).
The `jsonschemaAvailable` flag selects between the two branches of the
source (`jsonschema` importable or not); in the available branch the
exception text of `jsonschema.ValidationError` is not reproduced, only the
fact that a message is attached. -/
def validateContractMinimal (jsonschemaAvailable : Bool) (contract : Json) :
    Bool × Option String :=
  if jsonschemaAvailable then
    if contractSchemaOk contract then (true, none)
    else (false, some "Contract validation error: <jsonschema.ValidationError>")
  else
    match contract with
    | .jobj kvs =>
      if jsonHasKey kvs "base_url" && jsonHasKey kvs "endpoints" then (true, none)
      else (false, some "Missing base_url or endpoints")
    | _ => (false, some "Contract must be a dict")

/-! ## validation.py: `_extract_fetch_calls` and `check_front_vs_contract`

The fetch regex is
`fetch\(\s*(['"])(?P<url>[^'"]+)\1\s*(?:,\s*\{(?P<opts>.*?)\})?\s*\)` with
DOTALL; the options method regex is
`method\s*:\s*(['"])(?P<m>[^'"]+)\1` with IGNORECASE, via `re.search`. -/

/-- Quote characters of the `(['"])` class. -/
def isQuote (c : Char) : Bool := c == '\'' || c == '"'

/-- All splits of `l` at an occurrence of `ch`, leftmost first: the order a
lazy `(.*?)` before a literal `ch` tries them. -/
def splitsAtChar (ch : Char) : List Char → List (List Char × List Char)
  | [] => []
  | c :: rest =>
    (if c == ch then [(([] : List Char), rest)] else []) ++
    (splitsAtChar ch rest).map (fun p => (c :: p.1, p.2))

/-- Try the fetch regex at the start of `l`; returns ((url, opts group if
present), remainder after the match). -/
def matchFetchAt (l : List Char) : Option ((List Char × Option (List Char)) × List Char) :=
  if "fetch(".data.isPrefixOf l then
    let r := l.drop 6
    match r.drop (wsRun r) with
    | q :: r2 =>
      if isQuote q then
        let url := r2.takeWhile (fun c => !isQuote c)
        if url.isEmpty then none
        else
          match r2.drop url.length with
          | q2 :: r3 =>
            if q2 == q then
              let r4 := r3.drop (wsRun r3)
              let withOpts : Option ((List Char × Option (List Char)) × List Char) :=
                match r4 with
                | ',' :: r5 =>
                  (match r5.drop (wsRun r5) with
                   | '{' :: r7 =>
                     (splitsAtChar '}' r7).findSome? (fun p =>
                       match p.2.drop (wsRun p.2) with
                       | ')' :: r9 => some ((url, some p.1), r9)
                       | _ => none)
                   | _ => none)
                | _ => none
              match withOpts with
              | some res => some res
              | none =>
                match r4 with
                | ')' :: r5 => some ((url, none), r5)
                | _ => none
            else none
          | [] => none
      else none
    | [] => none
  else none

/-- Try the options method regex at the start of `l`. -/
def matchMethodAt (l : List Char) : Option (List Char) :=
  if pyLower (l.take 6) == "method".data then
    let r := l.drop 6
    match r.drop (wsRun r) with
    | ':' :: r2 =>
      (match r2.drop (wsRun r2) with
       | q :: r4 =>
         if isQuote q then
           let m := r4.takeWhile (fun c => !isQuote c)
           if m.isEmpty then none
           else
             match r4.drop m.length with
             | q2 :: _ => if q2 == q then some m else none
             | [] => none
         else none
       | [] => none)
    | _ => none
  else none

/-- Leftmost occurrence search of the method regex (`re.search`). -/
def searchMethod : List Char → Option (List Char)
  | [] => none
  | c :: rest => (matchMethodAt (c :: rest)).orElse (fun _ => searchMethod rest)

/-- Scanner of `_extract_fetch_calls`: yields (method, url) pairs, method
defaulting to `GET`, in scan order. -/
def fetchScanGo : Nat → List Char → List (String × String)
  | 0, _ => []
  | fuel + 1, l =>
    match matchFetchAt l with
    | some (p, rest) =>
      let optsL := p.2.getD []
      let method : List Char :=
        match searchMethod optsL with
        | some m => pyUpper m
        | none => "GET".data
      (⟨method⟩, ⟨p.1⟩) :: fetchScanGo fuel rest
    | none =>
      match l with
      | [] => []
      | _ :: rest => fetchScanGo fuel rest

/-- Embedding of `_extract_fetch_calls` (validation.py, lines 59-79). -/
def extractFetchCalls (js : String) : List (String × String) :=
  if js.data.isEmpty then [] else fetchScanGo (js.data.length + 1) js.data

/-- The longest prefix of `l` not containing `ch`. -/
def takeUntilChar (ch : Char) (l : List Char) : List Char :=
  l.takeWhile (fun c => c != ch)

/-- Characters allowed in a URL scheme. -/
def isSchemeChar (c : Char) : Bool := c.isAlphanum || c == '+' || c == '-' || c == '.'

/-- Model of `urllib.parse.urlparse(url).path` for the ASCII URLs this
pipeline sees: strip a valid `scheme:`, a `//netloc`, then cut the path at
the first `#` or `?`. -/
def urlparsePath (raw : List Char) : List Char :=
  let afterScheme :=
    let i := (takeUntilChar ':' raw).length
    if i < raw.length && decide (0 < i) && (raw.headD ' ').isAlpha &&
        (raw.take i).all isSchemeChar then
      raw.drop (i + 1)
    else raw
  let afterNetloc :=
    if "//".data.isPrefixOf afterScheme then
      (afterScheme.drop 2).dropWhile (fun c => c != '/' && c != '?' && c != '#')
    else afterScheme
  takeUntilChar '?' (takeUntilChar '#' afterNetloc)

/-- The `path = urlparse(raw).path or raw` step of the checker. -/
def resolveCallPath (raw : String) : String :=
  let pp := urlparsePath raw.data
  if pp.isEmpty then raw else ⟨pp⟩

/-- One endpoint entry of the contract as the checker reads it:
`((e.get("method") or "GET").upper(), e.get("path") or "")`.  A non-dict
entry, or a truthy non-string method or path, makes the Python loop raise;
this is surfaced as `.error`. -/
def endpointPair : Json → Except String (String × String)
  | .jobj kvs => do
    let m : String ←
      match ((Json.jobj kvs).get? "method").getD .null with
      | .jstr s => .ok (if s.isEmpty then "GET" else ⟨pyUpper s.data⟩)
      | v => if v.falsy then .ok "GET" else .error "AttributeError: upper"
    let p : String ←
      match ((Json.jobj kvs).get? "path").getD .null with
      | .jstr s => .ok s
      | v => if v.falsy then .ok "" else .error "TypeError: path"
    .ok (m, p)
  | _ => .error "AttributeError: get"

/-- The `(method, path)` set built from `contract.get("endpoints", []) or
[]` by the first loop of `check_front_vs_contract`. -/
def contractEndpointPairs (contract : Json) : Except String (List (String × String)) :=
  let v := (contract.get? "endpoints").getD (.jarr [])
  let v := if v.falsy then Json.jarr [] else v
  match v with
  | .jarr es => es.mapM endpointPair
  | _ => .error "TypeError: iteration"

/-- Fetch calls recovered from every `.js`/`.ts` frontend file, in dict
order. -/
def usedCalls (frontFiles : List (String × String)) : List (String × String) :=
  frontFiles.flatMap (fun f =>
    let low := sLower f.1
    if sEnds ".js" low || sEnds ".ts" low then extractFetchCalls f.2 else [])

/-- Is one recovered call covered by the endpoint set, verbatim or after
stripping a leading `/api`? -/
def coveredCall (eps : List (String × String)) (call : String × String) : Bool :=
  let path := resolveCallPath call.2
  eps.contains (call.1, path) ||
    eps.contains (call.1,
      if "/api".data.isPrefixOf path.data then (⟨path.data.drop 4⟩ : String) else path)

/-- The `missing` list accumulated by the checker's second loop. -/
def missingCalls (eps : List (String × String)) (used : List (String × String)) :
    List (String × String) :=
  (used.filter (fun u => !coveredCall eps u)).map (fun u => (u.1, resolveCallPath u.2))

/-- Python `repr` of a string without quotes or backslashes in it. -/
def pyReprStr (s : String) : String := "'" ++ s ++ "'"

/-- Python `repr` of a list of string pairs, as an f-string formats it. -/
def pyReprPairList (l : List (String × String)) : String :=
  "[" ++ String.intercalate ", "
    (l.map (fun p => "(" ++ pyReprStr p.1 ++ ", " ++ pyReprStr p.2 ++ ")")) ++ "]"

/-- Embedding of `check_front_vs_contract` (validation.py, lines 94-129). -/
def checkFrontVsContract (frontFiles : List (String × String)) (contract : Json) :
    Except String (Bool × Option String) := do
  let eps ← contractEndpointPairs contract
  let used := usedCalls frontFiles
  if used.isEmpty then
    return (true, none)
  else
    let missing := missingCalls eps used
    if missing.isEmpty then
      return (true, none)
    else
      return (false,
        some ("Frontend fetch usage not covered by contract: " ++ pyReprPairList missing))

/-! ## packager.py: `_infer_resource` -/

/-- Characters of the resource-name class `[a-zA-Z0-9_-]`. -/
def isResChar (c : Char) : Bool := c.isAlphanum || c == '_' || c == '-'

/-- Try `/(?:api/)?([a-zA-Z][a-zA-Z0-9_-]+)(?:/|\b)` at the start of `l`;
returns (group, remainder after the match end). -/
def matchPathAt (l : List Char) : Option (List Char × List Char) :=
  match l with
  | '/' :: r1 =>
    let attempt : List Char → Option (List Char × List Char) := fun s =>
      match s with
      | c0 :: rest =>
        if c0.isAlpha then
          let run := rest.takeWhile isResChar
          ((downFrom run.length).filter (fun n => decide (0 < n))).findSome? (fun n =>
            let g := c0 :: run.take n
            let after := rest.drop n
            match after with
            | '/' :: r2 => some (g, r2)
            | _ =>
              if wordBoundary (some ((run.take n).getLastD c0)) after.head? then
                some (g, after)
              else none)
        else none
      | [] => none
    match (if "api/".data.isPrefixOf r1 then attempt (r1.drop 4) else none) with
    | some res => some res
    | none => attempt r1
  | _ => none

/-- `finditer` scan for the path regex. -/
def pathScanGo : Nat → List Char → List (List Char)
  | 0, _ => []
  | fuel + 1, l =>
    match matchPathAt l with
    | some (g, rest) => g :: pathScanGo fuel rest
    | none =>
      match l with
      | [] => []
      | _ :: rest => pathScanGo fuel rest

/-- Try `"path"\s*:\s*"/(?:api/)?([a-zA-Z0-9_-]+)"` at the start of `l`. -/
def matchJsonPathAt (l : List Char) : Option (List Char × List Char) :=
  if "\"path\"".data.isPrefixOf l then
    let r := l.drop 6
    match r.drop (wsRun r) with
    | ':' :: r2 =>
      (match r2.drop (wsRun r2) with
       | '"' :: '/' :: r4 =>
         let attempt : List Char → Option (List Char × List Char) := fun s =>
           let run := s.takeWhile isResChar
           if run.isEmpty then none
           else
             match s.drop run.length with
             | '"' :: r5 => some (run, r5)
             | _ => none
         (match (if "api/".data.isPrefixOf r4 then attempt (r4.drop 4) else none) with
          | some res => some res
          | none => attempt r4)
       | _ => none)
    | _ => none
  else none

/-- `finditer` scan for the JSON contract path regex. -/
def jsonPathScanGo : Nat → List Char → List (List Char)
  | 0, _ => []
  | fuel + 1, l =>
    match matchJsonPathAt l with
    | some (g, rest) => g :: jsonPathScanGo fuel rest
    | none =>
      match l with
      | [] => []
      | _ :: rest => jsonPathScanGo fuel rest

/-- Characters of `[a-zA-Zçáéíóúâêôãõü]` under IGNORECASE. -/
def isM1Char (c : Char) : Bool :=
  c.isAlpha || "çáéíóúâêôãõüÇÁÉÍÓÚÂÊÔÃÕÜ".data.contains c

/-- Try `crud\s+<mid>\s+(<cls>+)` (IGNORECASE) at the start of `l`. -/
def matchCrudAt (mid : List Char) (cls : Char → Bool) (l : List Char) : Option (List Char) :=
  if pyLower (l.take 4) == "crud".data && decide (4 ≤ l.length) then
    let r := l.drop 4
    let w1 := wsRun r
    if w1 == 0 then none
    else
      let r1 := r.drop w1
      if pyLower (r1.take mid.length) == mid && decide (mid.length ≤ r1.length) then
        let r2 := r1.drop mid.length
        let w2 := wsRun r2
        if w2 == 0 then none
        else
          let run := (r2.drop w2).takeWhile cls
          if run.isEmpty then none else some run
      else none
  else none

/-- `re.search` for the CRUD-idiom regex. -/
def searchCrud (mid : List Char) (cls : Char → Bool) : List Char → Option (List Char)
  | [] => none
  | c :: rest => (matchCrudAt mid cls (c :: rest)).orElse (fun _ => searchCrud mid cls rest)

/-- Candidate resource names contributed by one text blob, in the source's
append order: path fragments (minus `health`), JSON `path` fields, the
Portuguese then the English CRUD idiom, all lowercased. -/
def textCandidates (t : List Char) : List (List Char) :=
  let paths := (pathScanGo (t.length + 1) t).filterMap (fun g =>
    let gl := pyLower g
    if gl == "health".data then none else some gl)
  let jsons := (jsonPathScanGo (t.length + 1) t).map pyLower
  let m1 := ((searchCrud "de".data isM1Char t).map pyLower).toList
  let m2 := ((searchCrud "of".data (fun c => c.isAlpha) t).map pyLower).toList
  paths ++ jsons ++ m1 ++ m2

/-- Multiplicity of `x` in `l`. -/
def countIn (l : List (List Char)) (x : List Char) : Nat :=
  (l.filter (fun y => y == x)).length

/-- Order-preserving first occurrences (the insertion order of a
`collections.Counter`). -/
def firstOcc (l : List (List Char)) : List (List Char) :=
  l.foldl (fun acc x => if acc.contains x then acc else acc ++ [x]) []

/-- `Counter(l).most_common(1)[0][0]`: the maximal-count element, ties
broken by first appearance. -/
def mostCommonIn (l : List (List Char)) : Option (List Char) :=
  match firstOcc l with
  | [] => none
  | u :: us => some (us.foldl (fun b x => if countIn l x > countIn l b then x else b) u)

/-- Python `s.endswith(suf)` on character lists. -/
def lEnds (suf l : List Char) : Bool := suf.reverse.isPrefixOf l.reverse

/-- Prefix of `l` before the first occurrence of `pat`
(`s.split(pat)[0]`). -/
def beforeFirst (pat : List Char) : List Char → List Char
  | [] => []
  | c :: rest =>
    if pat.isPrefixOf (c :: rest) && !pat.isEmpty then []
    else c :: beforeFirst pat rest

/-- Characters kept by the final `re.sub(r"[^a-z0-9_-]", "", ...)`. -/
def isCleanChar (c : Char) : Bool :=
  ('a' ≤ c && c ≤ 'z') || c.isDigit || c == '_' || c == '-'

/-- The pluralization step of `_infer_resource`. -/
def pluralizeRes (resource : List Char) : List Char :=
  if lEnds "s".data resource then resource
  else if lEnds "m".data resource then resource.dropLast ++ "ns".data
  else if lEnds "y".data resource then resource.dropLast ++ "ies".data
  else resource ++ "s".data

/-- The tallied winner of `_infer_resource` after the `/:` and `:id`
stripping steps (`users` when there is no signal at all). -/
def inferWinner (task : String) (front back qa : Option String) : List Char :=
  let texts := [task.data, (front.getD "").data, (back.getD "").data, (qa.getD "").data]
  let candidates := texts.flatMap textCandidates
  let resource :=
    match mostCommonIn candidates with
    | some r => r
    | none => "users".data
  let resource := if lEnds "/:".data resource then beforeFirst "/:".data resource else resource
  if lEnds ":id".data resource then resource.take (resource.length - 3) else resource

/-- Embedding of `_infer_resource` (packager.py, lines 181-222). -/
def inferResource (task : String) (front back qa : Option String) : String :=
  ⟨(pluralizeRes (inferWinner task front back qa)).filter isCleanChar⟩

/-! ## packager.py: `_looks_like_java` and the sanitizers -/

/-- Try `\bpublic\s+class\b` at the start of `l` with `prev` the preceding
character. -/
def matchPublicClassAt (prev : Option Char) (l : List Char) : Bool :=
  !(prev.elim false isWordChar) &&
  "public".data.isPrefixOf l &&
  (let r := l.drop 6
   let w := wsRun r
   decide (0 < w) && "class".data.isPrefixOf (r.drop w) &&
   !isWordChar (((r.drop w).drop 5).headD ' '))

/-- Search for `\bpublic\s+class\b`. -/
def searchPublicClass : Option Char → List Char → Bool
  | _, [] => false
  | prev, c :: rest =>
    matchPublicClassAt prev (c :: rest) || searchPublicClass (some c) rest

/-- Try `\bclass\s+([A-Za-z0-9_]+)` at the start of `l`; returns the
capture group.  The trailing `\b` of `_looks_like_java`'s variant always
holds after a maximal word run. -/
def matchClassNameAt (prev : Option Char) (l : List Char) : Option (List Char) :=
  if prev.elim false isWordChar then none
  else if "class".data.isPrefixOf l then
    let r := l.drop 5
    let w := wsRun r
    if w == 0 then none
    else
      let run := (r.drop w).takeWhile isWordChar
      if run.isEmpty then none else some run
  else none

/-- Leftmost search for `\bclass\s+([A-Za-z0-9_]+)`. -/
def searchClassName : Option Char → List Char → Option (List Char)
  | _, [] => none
  | prev, c :: rest =>
    (matchClassNameAt prev (c :: rest)).orElse (fun _ => searchClassName (some c) rest)

/-- Does `^\s*import\s+[A-Za-z0-9_.]+;` (MULTILINE) match at this anchored
position? -/
def importStmtAt (l : List Char) : Bool :=
  let r := l.dropWhile isWs
  "import".data.isPrefixOf r &&
  (let r2 := r.drop 6
   decide (0 < wsRun r2) &&
   (let r3 := r2.dropWhile isWs
    let run := r3.takeWhile (fun c => c.isAlphanum || c == '_' || c == '.')
    !run.isEmpty && (r3.drop run.length).headD ' ' == ';'))

/-- Positions after newlines, for MULTILINE `^`. -/
def searchImportAfterNL : List Char → Bool
  | [] => false
  | '\n' :: rest => importStmtAt rest || searchImportAfterNL rest
  | _ :: rest => searchImportAfterNL rest

/-- MULTILINE search for the Java import-statement pattern. -/
def searchImportStmt (l : List Char) : Bool :=
  importStmtAt l || searchImportAfterNL l

/-- Embedding of `_looks_like_java` (packager.py, lines 74-88). -/
def looksLikeJava (content : String) : Bool :=
  let s := content.data
  searchPublicClass none s ||
  (searchClassName none s).isSome ||
  searchImportStmt s ||
  containsSub "@SpringBootApplication".data s ||
  containsSub "@RestController".data s ||
  containsSub "@RequestMapping".data s

/-- Try `\bapp\s*\.\s*run\s*\(` at the start of `l`. -/
def matchAppRunAt (prev : Option Char) (l : List Char) : Bool :=
  !(prev.elim false isWordChar) &&
  "app".data.isPrefixOf l &&
  (match (l.drop 3).dropWhile isWs with
   | '.' :: r2 =>
     let r3 := r2.dropWhile isWs
     "run".data.isPrefixOf r3 &&
     ((r3.drop 3).dropWhile isWs).head? == some '('
   | _ => false)

/-- Search for `\bapp\s*\.\s*run\s*\(`. -/
def searchAppRun : Option Char → List Char → Bool
  | _, [] => false
  | prev, c :: rest =>
    matchAppRunAt prev (c :: rest) || searchAppRun (some c) rest

/-- Full-line match of `^app\s*=\s*Flask\(\s*__name__\s*\)\s*$`. -/
def isAppFlaskLine (l : List Char) : Bool :=
  "app".data.isPrefixOf l &&
  (match (l.drop 3).dropWhile isWs with
   | '=' :: r2 =>
     let r3 := r2.dropWhile isWs
     "Flask(".data.isPrefixOf r3 &&
     (let r4 := (r3.drop 6).dropWhile isWs
      "__name__".data.isPrefixOf r4 &&
      (match (r4.drop 8).dropWhile isWs with
       | ')' :: r6 => r6.dropWhile isWs == []
       | _ => false))
   | _ => false)

/-- The line filter of `_sanitize_flask_python`: drops `if __name__`
blocks, `app.run(...)` lines and the local `app = Flask(__name__)`. -/
def sanitizeFlaskGo : List (List Char) → Bool → List (List Char)
  | [], _ => []
  | ln :: rest, skip =>
    let l := pyStrip ln
    if skip then
      if l == [] || (!(ln.head? == some ' ') && !(ln.head? == some '\t')) then
        sanitizeFlaskGo rest false
      else
        sanitizeFlaskGo rest true
    else if "if __name__ == '__main__':".data.isPrefixOf l ||
        "if __name__ == \"__main__\":".data.isPrefixOf l then
      sanitizeFlaskGo rest true
    else if searchAppRun none l then
      sanitizeFlaskGo rest false
    else if isAppFlaskLine l then
      sanitizeFlaskGo rest false
    else
      ln :: sanitizeFlaskGo rest false

/-- Try `@\s*app\s*\.\s*route\s*\(` at the start of `l`. -/
def matchAppRouteAt (l : List Char) : Bool :=
  match l with
  | '@' :: r =>
    let r1 := r.dropWhile isWs
    "app".data.isPrefixOf r1 &&
    (match (r1.drop 3).dropWhile isWs with
     | '.' :: r2 =>
       let r3 := r2.dropWhile isWs
       "route".data.isPrefixOf r3 &&
       ((r3.drop 5).dropWhile isWs).head? == some '('
     | _ => false)
  | _ => false

/-- Search for `@\s*app\s*\.\s*route\s*\(`. -/
def searchAppRoute : List Char → Bool
  | [] => false
  | c :: rest => matchAppRouteAt (c :: rest) || searchAppRoute rest

/-- Search for `\b<word>\s*\(` (used for `Blueprint` and `Flask`). -/
def matchWordParenAt (w : List Char) (prev : Option Char) (l : List Char) : Bool :=
  !(prev.elim false isWordChar) && w.isPrefixOf l &&
  ((l.drop w.length).dropWhile isWs).head? == some '('

/-- Scanner for `matchWordParenAt`. -/
def searchWordParen (w : List Char) : Option Char → List Char → Bool
  | _, [] => false
  | prev, c :: rest =>
    matchWordParenAt w prev (c :: rest) || searchWordParen w (some c) rest

/-- Length of a `^(?:from\s+\S+\s+import\s+\S+|import\s+\S+)` match at an
anchored position (alternatives in source order). -/
def importMatchLen (l : List Char) : Option Nat :=
  (if "from".data.isPrefixOf l then
     let r := l.drop 4
     let w1 := wsRun r
     if w1 == 0 then none
     else
       let r1 := r.drop w1
       let t1 := r1.takeWhile (fun c => !isWs c)
       if t1.isEmpty then none
       else
         let r2 := r1.drop t1.length
         let w2 := wsRun r2
         if w2 == 0 then none
         else
           let r3 := r2.drop w2
           if "import".data.isPrefixOf r3 then
             let r4 := r3.drop 6
             let w3 := wsRun r4
             if w3 == 0 then none
             else
               let t2 := (r4.drop w3).takeWhile (fun c => !isWs c)
               if t2.isEmpty then none
               else some (4 + w1 + t1.length + w2 + 6 + w3 + t2.length)
           else none
   else none).orElse (fun _ =>
   if "import".data.isPrefixOf l then
     let r := l.drop 6
     let w := wsRun r
     if w == 0 then none
     else
       let t := (r.drop w).takeWhile (fun c => !isWs c)
       if t.isEmpty then none else some (6 + w + t.length)
   else none)

/-- The positions where MULTILINE `^` holds. -/
def lineStartPositions (l : List Char) : List Nat :=
  0 :: ((List.range l.length).filter (fun i => (l.drop i).head? == some '\n')).map (· + 1)

/-- Embedding of `_sanitize_flask_python` (packager.py, lines 91-133). -/
def sanitizeFlaskPython (content : String) : String :=
  let sanitized := joinNL (sanitizeFlaskGo (splitlines content.data) false)
  let usesRoutes := searchAppRoute sanitized
  let definesBp := searchWordParen "Blueprint".data none sanitized
  let instFlask := searchWordParen "Flask".data none sanitized
  if (usesRoutes || instFlask) && !definesBp then
    if containsSub "from . import app".data sanitized then ⟨sanitized⟩
    else
      let ends := (lineStartPositions sanitized).filterMap (fun p =>
        (importMatchLen (sanitized.drop p)).map (fun n => p + n))
      match ends.getLast? with
      | some idx =>
        ⟨sanitized.take idx ++ "\nfrom . import app\n".data ++ sanitized.drop idx⟩
      | none => ⟨"from . import app\n".data ++ sanitized⟩
  else ⟨sanitized⟩

/-- Try `\b(app|server)\s*\.\s*listen\s*\(` at the start of `l`. -/
def matchListenAt (prev : Option Char) (l : List Char) : Bool :=
  !(prev.elim false isWordChar) &&
  (let afterName : Option (List Char) :=
    if "app".data.isPrefixOf l then some (l.drop 3)
    else if "server".data.isPrefixOf l then some (l.drop 6)
    else none
   match afterName with
   | some r =>
     (match r.dropWhile isWs with
      | '.' :: r2 =>
        let r3 := r2.dropWhile isWs
        "listen".data.isPrefixOf r3 &&
        ((r3.drop 6).dropWhile isWs).head? == some '('
      | _ => false)
   | none => false)

/-- Search for the listen pattern. -/
def searchListen : Option Char → List Char → Bool
  | _, [] => false
  | prev, c :: rest =>
    matchListenAt prev (c :: rest) || searchListen (some c) rest

/-- Count of one character in a line (Python `str.count`). -/
def countChar (c : Char) (l : List Char) : Nat := (l.filter (fun x => x == c)).length

/-- The line filter of `_sanitize_express_js`. -/
def sanitizeExpressGo : List (List Char) → Bool → Int → List (List Char)
  | [], _, _ => []
  | ln :: rest, skipping, depth =>
    if skipping then
      let d := depth + (countChar '{' ln : Int) - (countChar '}' ln : Int)
      if d ≤ 0 then sanitizeExpressGo rest false d
      else sanitizeExpressGo rest true d
    else
      let l := pyStrip ln
      if containsSub "require.main === module".data l then
        sanitizeExpressGo rest true 0
      else if searchListen none l then
        sanitizeExpressGo rest false depth
      else
        ln :: sanitizeExpressGo rest false depth

/-- Python `str.rstrip()`. -/
def pyRstrip (l : List Char) : List Char := (l.reverse.dropWhile isWs).reverse

/-- The trailing closing-brace cleanup loop of `_sanitize_express_js`. -/
def trimBracesGo : Nat → List Char → List Char
  | 0, l => l
  | fuel + 1, l =>
    let r := pyRstrip l
    if lEnds "\x7d".data r && decide (countChar '\x7d' l > countChar '\x7b' l) then
      trimBracesGo fuel r.dropLast
    else l

/-- Embedding of `_sanitize_express_js` (packager.py, lines 136-166). -/
def sanitizeExpressJs (content : String) : String :=
  let sanitized := joinNL (sanitizeExpressGo (splitlines content.data) false 0)
  ⟨trimBracesGo (sanitized.length + 1) sanitized⟩

/-- Length of a `(?<!\w)users\s*\.\s*forEach\s*\(` match at the start of
`l`. -/
def matchUsersForEachAt (prev : Option Char) (l : List Char) : Option Nat :=
  if prev.elim false isWordChar then none
  else if "users".data.isPrefixOf l then
    let r := l.drop 5
    let w1 := wsRun r
    match r.drop w1 with
    | '.' :: r2 =>
      let w2 := wsRun r2
      let r3 := r2.drop w2
      if "forEach".data.isPrefixOf r3 then
        let r4 := r3.drop 7
        let w3 := wsRun r4
        match r4.drop w3 with
        | '(' :: _ => some (5 + w1 + 1 + w2 + 7 + w3 + 1)
        | _ => none
      else none
    | _ => none
  else none

/-- The safe-iteration expression substituted by `_sanitize_front_js`. -/
def safeIterStr : String :=
  "((Array.isArray(users) ? users : (users && users.content) || (users && users.items) " ++
  "|| (users && users.users) || (users && users.data) || []))"

/-- The `re.sub` scan of `_sanitize_front_js`. -/
def subUsersForEachGo : Nat → Option Char → List Char → List Char
  | 0, _, l => l
  | fuel + 1, prev, l =>
    match matchUsersForEachAt prev l with
    | some n =>
      safeIterStr.data ++ ".forEach(".data ++ subUsersForEachGo fuel (some '(') (l.drop n)
    | none =>
      match l with
      | [] => []
      | c :: rest => c :: subUsersForEachGo fuel (some c) rest

/-- Embedding of `_sanitize_front_js` (packager.py, lines 168-179). -/
def sanitizeFrontJs (content : String) : String :=
  ⟨subUsersForEachGo (content.data.length + 1) none content.data⟩

/-- The code-start tokens of `_sanitize_java`. -/
def javaStartTokens : List String :=
  ["package ", "import ", "@", "public ", "class ", "interface ", "enum ", "/*", "//"]

/-- Embedding of `_sanitize_java` (packager.py, lines 281-299). -/
def sanitizeJava (content : String) : String :=
  let lines := splitlines content.data
  let idxs := (List.range lines.length).filter (fun i =>
    let l := pyStrip (lines.getD i [])
    !l.isEmpty && javaStartTokens.any (fun t => t.data.isPrefixOf l))
  let startIdx := idxs.headD 0
  let cleaned := joinNL (lines.drop startIdx)
  let cleaned := replaceSub "javax.persistence".data "jakarta.persistence".data cleaned
  ⟨replaceSub "javax.validation".data "jakarta.validation".data cleaned⟩

/-- Length of a `@Table\s*\(\s*name\s*=\s*"user"\s*\)` match at the start
of `l`. -/
def matchTableUserAt (l : List Char) : Option Nat :=
  if "@Table".data.isPrefixOf l then
    let r := l.drop 6
    let w1 := wsRun r
    match r.drop w1 with
    | '(' :: r2 =>
      let w2 := wsRun r2
      let r3 := r2.drop w2
      if "name".data.isPrefixOf r3 then
        let r4 := r3.drop 4
        let w3 := wsRun r4
        match r4.drop w3 with
        | '=' :: r5 =>
          let w4 := wsRun r5
          let r6 := r5.drop w4
          if "\"user\"".data.isPrefixOf r6 then
            let r7 := r6.drop 6
            let w5 := wsRun r7
            match r7.drop w5 with
            | ')' :: _ => some (6 + w1 + 1 + w2 + 4 + w3 + 1 + w4 + 6 + w5 + 1)
            | _ => none
          else none
        | _ => none
      else none
    | _ => none
  else none

/-- The `re.sub` rewriting `@Table(name="user")` to `@Table(name="users")`. -/
def subTableUserGo : Nat → List Char → List Char
  | 0, l => l
  | fuel + 1, l =>
    match matchTableUserAt l with
    | some n => "@Table(name=\"users\")".data ++ subTableUserGo fuel (l.drop n)
    | none =>
      match l with
      | [] => []
      | c :: rest => c :: subTableUserGo fuel rest

/-- Insert `@Table(name = "users")` after the first `@Entity` line. -/
def insertAfterEntityGo : List (List Char) → Bool → List (List Char)
  | [], _ => []
  | ln :: rest, inserted =>
    if !inserted && "@Entity".data.isPrefixOf (pyStrip ln) then
      ln :: "@Table(name = \"users\")".data :: insertAfterEntityGo rest true
    else
      ln :: insertAfterEntityGo rest inserted

/-- Embedding of `_sanitize_java_entity_table` (packager.py, lines
302-347). -/
def sanitizeJavaEntityTable (content : String) : String :=
  let text := content.data
  if !containsSub "@Entity".data text then ⟨text⟩
  else
    let text := subTableUserGo (text.length + 1) text
    let className := (searchClassName none text).getD []
    let hasTable := containsSub "@Table(".data text
    if pyLower className == "user".data && !hasTable then
      let text := joinNL (insertAfterEntityGo (splitlines text) false)
      if !containsSub "import jakarta.persistence.Table;".data text then
        let ls := splitlines text
        let importLines := ls.filter (fun ln => "import ".data.isPrefixOf (pyStrip ln))
        let otherLines := ls.filter (fun ln => !("import ".data.isPrefixOf (pyStrip ln)))
        if !importLines.isEmpty then
          ⟨joinNL (importLines ++ ["import jakarta.persistence.Table;".data] ++ otherLines)⟩
        else
          ⟨"import jakarta.persistence.Table;\n".data ++ text⟩
      else ⟨text⟩
    else ⟨text⟩

/-! ## packager.py: filename and extension helpers -/

/-- Embedding of `_safe_ext` (packager.py, lines 350-358). -/
def safeExt (lang : String) : String :=
  let s := (pyLower lang.data).filter (fun c => ('a' ≤ c && c ≤ 'z') || c.isDigit)
  if s == [] || s == "markdown".data || s == "md".data ||
      s == "plain".data || s == "text".data then "txt"
  else ⟨s⟩

/-- Embedding of `_lang_ext` (packager.py, lines 374-387). -/
def langExt (lang : String) : String :=
  let k := sLower lang
  if k == "python" || k == "py" then "py"
  else if k == "javascript" || k == "js" then "js"
  else if k == "typescript" || k == "ts" then "ts"
  else if k == "java" then "java"
  else if k == "yaml" || k == "yml" then "yml"
  else if k == "xml" || k == "pom" then "xml"
  else if k == "json" then "json"
  else if k == "bash" || k == "sh" then "sh"
  else if k == "html" then "html"
  else if k == "css" then "css"
  else safeExt (if lang.isEmpty then "txt" else lang)

/-- Embedding of `_sanitize_java_filename` (packager.py, lines 361-371). -/
def sanitizeJavaFilename (fn : Option String) (fallbackClass : String) : String :=
  let base :=
    match fn with
    | some f =>
      if f.isEmpty || !(sEnds ".java" (sLower f)) then fallbackClass
      else ⟨f.data.take (f.data.length - 5)⟩
    | none => fallbackClass
  let b := base.data.filter isWordChar
  (if b.isEmpty then fallbackClass else (⟨b⟩ : String)) ++ ".java"

/-- Python `str.split(sep)` for a one-character separator. -/
def splitOnCharGo (sep : Char) : List Char → List Char → List (List Char)
  | [], acc => [acc.reverse]
  | c :: rest, acc =>
    if c == sep then acc.reverse :: splitOnCharGo sep rest []
    else splitOnCharGo sep rest (c :: acc)

/-- Python `str.split(sep)` (always non-empty). -/
def splitOnChar (sep : Char) (l : List Char) : List (List Char) := splitOnCharGo sep l []

/-- Embedding of `_sanitize_generic_filename` (packager.py, lines
502-524). -/
def sanitizeGenericFilename (lang : String) (fn : Option String) (fallbackBase : String)
    (forceExt : Bool) : String :=
  let nameSrc :=
    match fn with
    | some f => if f.isEmpty then fallbackBase else f
    | none => fallbackBase
  let name := pyStrip nameSrc.data
  let name := name.map (fun c => if c == '\\' then '/' else c)
  let name := (splitOnChar '/' name).getLastD []
  let name :=
    if name.head? == some '-' || !(name.any (fun c => c.isAlphanum)) then fallbackBase.data
    else name
  let baseExt :=
    if name.contains '.' then
      let parts := splitOnChar '.' name
      (List.intercalate ['.'] parts.dropLast, some (parts.getLastD []))
    else (name, (none : Option (List Char)))
  let base1 := baseExt.1.filter isWordChar
  let base : String := if base1.isEmpty then fallbackBase else ⟨base1⟩
  let ext := langExt lang
  if forceExt then base ++ "." ++ ext
  else
    match baseExt.2 with
    | some e => if pyLower e == ext.data then base ++ "." ++ (⟨e⟩ : String) else base ++ "." ++ ext
    | none => base ++ "." ++ ext

/-! ## Python `json.dumps` on the Json model -/

/-- JSON string escaping (`ensure_ascii=False`; the escapes this pipeline
can produce). -/
def jsonEscape (s : String) : String :=
  ⟨s.data.flatMap (fun c =>
    if c == '\\' then ['\\', '\\']
    else if c == '"' then ['\\', '"']
    else if c == '\n' then ['\\', 'n']
    else if c == '\r' then ['\\', 'r']
    else if c == '\t' then ['\\', 't']
    else [c])⟩

mutual

/-- Python `json.dumps(v, ensure_ascii=False)` (compact, default
separators). -/
def Json.dumpC : Json → String
  | .null => "null"
  | .jbool b => if b then "true" else "false"
  | .jnum n => toString n
  | .jstr s => "\"" ++ jsonEscape s ++ "\""
  | .jarr xs => "[" ++ String.intercalate ", " (dumpCList xs) ++ "]"
  | .jobj kvs => "\x7b" ++ String.intercalate ", " (dumpCFields kvs) ++ "\x7d"

/-- Compact dump of array elements. -/
def dumpCList : List Json → List String
  | [] => []
  | x :: rest => x.dumpC :: dumpCList rest

/-- Compact dump of object fields. -/
def dumpCFields : List (String × Json) → List String
  | [] => []
  | kv :: rest => ("\"" ++ jsonEscape kv.1 ++ "\": " ++ kv.2.dumpC) :: dumpCFields rest

end

/-- The indentation of `json.dumps(..., indent=2)` at nesting `level`. -/
def indentStr (level : Nat) : String := ⟨List.replicate (2 * level) ' '⟩

mutual

/-- Python `json.dumps(v, ensure_ascii=False, indent=2)` at nesting
`level`. -/
def Json.dumpI (level : Nat) : Json → String
  | .null => "null"
  | .jbool b => if b then "true" else "false"
  | .jnum n => toString n
  | .jstr s => "\"" ++ jsonEscape s ++ "\""
  | .jarr [] => "[]"
  | .jarr (x :: xs) =>
    "[\n" ++ String.intercalate ",\n"
      ((dumpIList (level + 1) (x :: xs)).map (fun s => indentStr (level + 1) ++ s)) ++
    "\n" ++ indentStr level ++ "]"
  | .jobj [] => "\x7b\x7d"
  | .jobj (kv :: kvs) =>
    "\x7b\n" ++ String.intercalate ",\n"
      ((dumpIFields (level + 1) (kv :: kvs)).map (fun s => indentStr (level + 1) ++ s)) ++
    "\n" ++ indentStr level ++ "\x7d"

/-- Indented dump of array elements. -/
def dumpIList (level : Nat) : List Json → List String
  | [] => []
  | x :: rest => x.dumpI level :: dumpIList level rest

/-- Indented dump of object fields. -/
def dumpIFields (level : Nat) : List (String × Json) → List String
  | [] => []
  | kv :: rest =>
    ("\"" ++ jsonEscape kv.1 ++ "\": " ++ kv.2.dumpI level) :: dumpIFields level rest

end

/-! ## packager.py: `_build_express_crud` -/

/-- Embedding of `_build_express_crud` (packager.py, lines 224-279). -/
def buildExpressCrud (resource : String) : String :=
  let r := resource
  "const express = require('express');\n" ++
  "const cors = require('cors');\n" ++
  "const app = express();\n" ++
  "const PORT = process.env.PORT || 3000;\n\n" ++
  "app.use(cors());\n" ++
  "app.use(express.json());\n\n" ++
  "// Healthcheck\n" ++
  "app.get('/health', (req,res)=>res.json(\x7bstatus:'ok'\x7d));\n\n" ++
  "// Estado em memória para '" ++ r ++ "'\n" ++
  "const records = [];\n" ++
  "let currentId = 1;\n\n" ++
  "// GET /api/" ++ r ++ " (Page-like)\n" ++
  "app.get('/api/" ++ r ++ "', (req, res) => \x7b\n" ++
  "  const name = (req.query.name || '').toString().toLowerCase();\n" ++
  "  const size = Math.max(1, parseInt(req.query.size || '10', 10));\n" ++
  "  const page = Math.max(0, parseInt(req.query.page || '0', 10));\n\n" ++
  "  const filtered = name ? records.filter(u => (u.name || '').toLowerCase().includes(name)) : records;\n" ++
  "  const start = page * size;\n" ++
  "  const end = start + size;\n" ++
  "  const content = filtered.slice(start, end);\n\n" ++
  "  res.json(\x7b content, totalElements: filtered.length, size, number: page \x7d);\n" ++
  "\x7d);\n\n" ++
  "// POST /api/" ++ r ++ "\n" ++
  "app.post('/api/" ++ r ++ "', (req, res) => \x7b\n" ++
  "  const \x7b name \x7d = req.body || \x7b\x7d;\n" ++
  "  if (!name || typeof name !== 'string') \x7b\n" ++
  "    return res.status(400).json(\x7b error: 'name é obrigatório' \x7d);\n" ++
  "  \x7d\n" ++
  "  const rec = \x7b id: currentId++, name \x7d;\n" ++
  "  records.push(rec);\n" ++
  "  res.status(201).json(rec);\n" ++
  "\x7d);\n\n" ++
  "// PUT /api/" ++ r ++ "/:id\n" ++
  "app.put('/api/" ++ r ++ "/:id', (req, res) => \x7b\n" ++
  "  const id = Number(req.params.id);\n" ++
  "  const \x7b name \x7d = req.body || \x7b\x7d;\n" ++
  "  const idx = records.findIndex(u => u.id === id);\n" ++
  "  if (idx === -1) return res.status(404).json(\x7b error: 'Registro não encontrado' \x7d);\n" ++
  "  if (!name || typeof name !== 'string') return res.status(400).json(\x7b error: 'name é obrigatório' \x7d);\n" ++
  "  records[idx].name = name;\n" ++
  "  res.json(records[idx]);\n" ++
  "\x7d);\n\n" ++
  "// DELETE /api/" ++ r ++ "/:id\n" ++
  "app.delete('/api/" ++ r ++ "/:id', (req, res) => \x7b\n" ++
  "  const id = Number(req.params.id);\n" ++
  "  const idx = records.findIndex(u => u.id === id);\n" ++
  "  if (idx === -1) return res.status(404).json(\x7b error: 'Registro não encontrado' \x7d);\n" ++
  "  records.splice(idx, 1);\n" ++
  "  res.status(204).send();\n" ++
  "\x7d);\n\n" ++
  "app.listen(PORT, ()=>console.log('Server on ' + PORT));\n"

/-! ## packager.py: `_postprocess_front_files` -/

/-- The `desired` map of the three canonical frontend files, in its fixed
key-insertion order `index.html`, `styles.css`, `script.js`. -/
structure FrontDesired where
  indexHtml : Option String
  stylesCss : Option String
  scriptJs : Option String
deriving Repr, DecidableEq

/-- The `API_BASE` bootstrap header injected by
`_postprocess_front_files`. -/
def frontHeader (defaultApiBase : String) : String :=
  "(function()\x7b\n" ++
  "  try \x7b\n" ++
  "    const qp = new URLSearchParams(window.location.search);\n" ++
  "    const override = qp.get('api');\n" ++
  "    const computed = override || window.API_BASE || window.API_BASE_URL || \"" ++ defaultApiBase ++ "\";\n" ++
  "    window.API_BASE = computed;\n" ++
  "    if (!window.API_BASE_URL || (typeof window.API_BASE_URL === 'string' && window.API_BASE_URL.startsWith('/'))) \x7b\n" ++
  "      window.API_BASE_URL = computed;\n" ++
  "    \x7d\n" ++
  "  \x7d catch (e) \x7b\n" ++
  "    const computed = window.API_BASE || window.API_BASE_URL || \"" ++ defaultApiBase ++ "\";\n" ++
  "    window.API_BASE = computed;\n" ++
  "    if (!window.API_BASE_URL || (typeof window.API_BASE_URL === 'string' && window.API_BASE_URL.startsWith('/'))) \x7b\n" ++
  "      window.API_BASE_URL = computed;\n" ++
  "    \x7d\n" ++
  "  \x7d\n" ++
  "\x7d)();\n"

/-- The `apiFetch` helper injected by `_postprocess_front_files`. -/
def frontHelper : String :=
  "async function apiFetch(path, options = \x7b\x7d) \x7b\n" ++
  "  const url = `$\x7bAPI_BASE\x7d$\x7bpath.startsWith('/') ? path : '/' + path\x7d`;\n" ++
  "  const opts = \x7b ...options \x7d;\n" ++
  "  if (opts.body && !(opts.headers && (opts.headers['Content-Type'] || opts.headers['content-type']))) \x7b\n" ++
  "    opts.headers = \x7b ...(opts.headers || \x7b\x7d), 'Content-Type': 'application/json' \x7d;\n" ++
  "  \x7d\n" ++
  "  const resp = await fetch(url, opts);\n" ++
  "  const ct = resp.headers.get('content-type') || '';\n" ++
  "  const isJson = ct.includes('application/json');\n" ++
  "  const payload = isJson ? await resp.json() : await resp.text();\n" ++
  "  if (!resp.ok) \x7b\n" ++
  "    const msg = typeof payload === 'string' ? payload : (payload.message || JSON.stringify(payload));\n" ++
  "    throw new Error(msg);\n" ++
  "  \x7d\n" ++
  "  return payload;\n" ++
  "\x7d\n"

/-- The minimal login-form script fallback of `_postprocess_front_files`. -/
def frontLoginScript (defaultApiBase : String) : String :=
  frontHeader defaultApiBase ++ frontHelper ++ "\n" ++
  "document.addEventListener('DOMContentLoaded', () => \x7b\n" ++
  "  const form = document.getElementById('loginForm');\n" ++
  "  if (!form) return;\n" ++
  "  form.addEventListener('submit', async (e) => \x7b\n" ++
  "    e.preventDefault();\n" ++
  "    const username = document.getElementById('username').value;\n" ++
  "    const password = document.getElementById('password').value;\n" ++
  "    const msg = document.getElementById('responseMessage');\n" ++
  "    try \x7b\n" ++
  "      const data = await apiFetch('/auth/login', \x7b\n" ++
  "        method: 'POST',\n" ++
  "        body: JSON.stringify(\x7b username, password \x7d)\n" ++
  "      \x7d);\n" ++
  "      msg.textContent = `Bem-vindo: $\x7bdata.username\x7d`;\n" ++
  "    \x7d catch (err) \x7b\n" ++
  "      console.error(err);\n" ++
  "      msg.textContent = `Erro de rede: $\x7berr.message\x7d`;\n" ++
  "    \x7d\n" ++
  "  \x7d);\n" ++
  "\x7d);\n"

/-- The minimal login-form page fallback of `_postprocess_front_files`. -/
def frontLoginHtml : String :=
  "<!doctype html>\n" ++
  "<html lang=\"pt-BR\">\n" ++
  "<head>\n" ++
  "  <meta charset=\"utf-8\">\n" ++
  "  <meta name=\"viewport\" content=\"width=device-width, initial-scale=1\">\n" ++
  "  <title>Login</title>\n" ++
  "  <style>body\x7bfont-family:sans-serif;display:flex;min-height:100vh;align-items:center;justify-content:center;background:#f5f5f5\x7d .card\x7bbackground:#fff; padding:24px; border-radius:8px; box-shadow:0 2px 8px rgba(0,0,0,.1); width:320px\x7d .row\x7bdisplay:flex; flex-direction:column; gap:8px\x7d input\x7bpadding:8px;border:1px solid #ddd;border-radius:4px\x7d button\x7bpadding:10px;border:none;border-radius:4px;background:#2e7d32;color:#fff;cursor:pointer\x7d #responseMessage\x7bmargin-top:10px;color:#333\x7d</style>\n" ++
  "</head>\n" ++
  "<body>\n" ++
  "  <div class=\"card\">\n" ++
  "    <h2>Login</h2>\n" ++
  "    <form id=\"loginForm\" class=\"row\">\n" ++
  "      <input id=\"username\" type=\"text\" placeholder=\"Usuário\" required />\n" ++
  "      <input id=\"password\" type=\"password\" placeholder=\"Senha\" required />\n" ++
  "      <button type=\"submit\">Entrar</button>\n" ++
  "    </form>\n" ++
  "    <div id=\"responseMessage\"></div>\n" ++
  "  </div>\n" ++
  "  <script src=\"./script.js\"></script>\n" ++
  "</body>\n" ++
  "</html>\n"

/-- Embedding of `_postprocess_front_files` (packager.py, lines 390-499). -/
def postprocessFrontFiles (desired : FrontDesired) (baseUrlHint : Option String)
    (defaultPort : Nat) : FrontDesired :=
  let defaultApiBase := "http://127.0.0.1:" ++ pyNat defaultPort ++
    (match baseUrlHint with
     | some h => if h.isEmpty then "/api" else h
     | none => "/api")
  let header := frontHeader defaultApiBase
  let newScript :=
    match desired.scriptJs with
    | none => frontLoginScript defaultApiBase
    | some s =>
      if (pyStrip s.data).isEmpty then frontLoginScript defaultApiBase
      else
        let sanitizedScript := sanitizeFrontJs s
        if !(sContains "apiFetch(" sanitizedScript) then header ++ frontHelper ++ sanitizedScript
        else header ++ sanitizedScript
  let newIndex :=
    match desired.indexHtml with
    | none => frontLoginHtml
    | some s => if (pyStrip s.data).isEmpty then frontLoginHtml else s
  ⟨some newIndex, desired.stylesCss, some newScript⟩

/-! ## packager.py: contract helpers of `build_structured_zip` -/

/-- The `(e or {}).get("path") or ""` read used by the enrichment helpers;
`.error` marks the reads on which the Python expression raises (a truthy
non-dict entry, or a later `startswith` on a truthy non-string value). -/
def epPathOrEmpty (e : Json) : Except Unit String :=
  if e.falsy then .ok ""
  else
    match e with
    | .jobj _ =>
      (match (e.get? "path").getD .null with
       | .jstr s => .ok s
       | v => if v.falsy then .ok "" else .error ())
    | _ => .error ()

/-- Worker for `_infer_resource_name_from_endpoints`. -/
def inferNameGo (base : String) : List Json → Option String
  | [] => none
  | e :: rest =>
    match epPathOrEmpty e with
    | .error _ => none
    | .ok p =>
      if sStarts (base ++ "/") p then
        let rel := (⟨p.data.drop base.data.length⟩ : String)
        let rel := if sStarts "/" rel then rel else "/" ++ rel
        let name := (splitOnChar '/' (rel.data.drop 1)).headD []
        if name.isEmpty then inferNameGo base rest else some ⟨name⟩
      else inferNameGo base rest

/-- Embedding of `_infer_resource_name_from_endpoints` (packager.py, lines
986-999): its internal `try` turns any raising entry into `None`. -/
def inferResourceNameFromEndpoints (base : String) (endpoints : List Json) : Option String :=
  inferNameGo base endpoints

/-- Python dict assignment on an insertion-ordered association list:
update in place or append. -/
def updKey (acc : List (String × String)) (k v : String) : List (String × String) :=
  if (acc.find? (fun kv => kv.1 == k)).isSome then
    acc.map (fun kv => if kv.1 == k then (k, v) else kv)
  else acc ++ [(k, v)]

/-- Python dict assignment on a Json object field list. -/
def setKey (kvs : List (String × Json)) (k : String) (v : Json) : List (String × Json) :=
  if jsonHasKey kvs k then kvs.map (fun kv => if kv.1 == k then (k, v) else kv)
  else kvs ++ [(k, v)]

/-- Python `str(t or "string")` for the body-typing values (container
values are abbreviated to their JSON dump; the enrichment never produces
them). -/
def strOfJson : Json → String
  | .jstr s => s
  | .jnum n => toString n
  | .jbool b => if b then "True" else "False"
  | .null => "None"
  | v => v.dumpC

/-- The `rel` normalization shared by the generators:
`rel = p[len(base):] or "/"` when `p` starts with `base`, then a leading
slash is forced. -/
def relOf (baseUrl p : String) : String :=
  let rel :=
    if sStarts baseUrl p then
      (if p.data.length == baseUrl.data.length then "/"
       else (⟨p.data.drop baseUrl.data.length⟩ : String))
    else p
  if sStarts "/" rel then rel else "/" ++ rel

/-- The `body_types` accumulation loop of `_derive_schema_from_contract`:
its surrounding `try ... except: pass` keeps the updates made before the
first raising entry. -/
def deriveBodyTypes (base name : String) :
    List Json → List (String × String) → List (String × String)
  | [], acc => acc
  | e :: rest, acc =>
    let step : Except Unit (List (String × String)) := do
      let m : String ←
        if e.falsy then .ok "GET"
        else match e with
          | .jobj _ =>
            (match (e.get? "method").getD .null with
             | .jstr s => .ok (if s.isEmpty then "GET" else (⟨pyUpper s.data⟩ : String))
             | v => if v.falsy then .ok "GET" else .error ())
          | _ => .error ()
      let p ← epPathOrEmpty e
      let rel := relOf base p
      if m == "POST" && rel == "/" ++ name then
        let body := if e.falsy then Json.null else (e.get? "body").getD .null
        let body := if body.falsy then Json.jobj [] else body
        match body with
        | .jobj kvs =>
          .ok (kvs.foldl (fun a kv =>
            updKey a kv.1 (if kv.2.falsy then "string" else strOfJson kv.2)) acc)
        | _ => .ok acc
      else .ok acc
    match step with
    | .ok acc' => deriveBodyTypes base name rest acc'
    | .error _ => acc

/-- Embedding of `_derive_schema_from_contract` (packager.py, lines
1001-1031).  The function never raises to its caller: the name inference
catches internally and the body-typing loop is wrapped in
`try ... except: pass`. -/
def deriveSchemaFromContract (c : Json) : List Json :=
  let baseJ := (c.get? "base_url").getD .null
  let baseOpt : Option String :=
    match (if baseJ.falsy then Json.jstr "/api" else baseJ) with
    | .jstr s => some s
    | _ => none
  let epsJ := (c.get? "endpoints").getD .null
  let epsOpt : Option (List Json) :=
    match (if epsJ.falsy then Json.jarr [] else epsJ) with
    | .jarr xs => some xs
    | _ => none
  let name :=
    match baseOpt, epsOpt with
    | some b, some es => (inferResourceNameFromEndpoints b es).getD "items"
    | _, _ => "items"
  let bodyTypes :=
    match baseOpt, epsOpt with
    | some b, some es => deriveBodyTypes b name es []
    | _, _ => []
  let schema :=
    if bodyTypes.isEmpty then
      [Json.jobj [("name", .jstr "name"), ("type", .jstr "string"), ("required", .jbool true)]]
    else
      bodyTypes.map (fun kt =>
        let tt := sLower kt.2
        let ty :=
          if tt == "int" || tt == "integer" || tt == "number" || tt == "float" || tt == "double" then
            "number"
          else if tt == "bool" || tt == "boolean" then "boolean"
          else "string"
        Json.jobj [("name", .jstr kt.1), ("type", .jstr ty), ("required", .jbool true)])
  [Json.jobj [("name", .jstr name), ("schema", .jarr schema)]]

/-- Embedding of `_fe_contract_endpoints` / `_contract_endpoints`
(packager.py, lines 1062-1070 and 1236-1244): `(method, path)` pairs with
defaulted upper-cased method and stripped non-empty path; raises on truthy
non-dict entries and truthy non-string method/path values. -/
def contractEps (c : Json) : Except String (List (String × String)) := do
  let v := (c.get? "endpoints").getD (.jarr [])
  let v := if v.falsy then Json.jarr [] else v
  match v with
  | .jarr es => do
    let pairs ← es.mapM (fun e =>
      if e.falsy then Except.ok ("GET", ("" : String))
      else
        match e with
        | .jobj kvs => do
          let m : String ←
            match ((Json.jobj kvs).get? "method").getD .null with
            | .jstr s => pure (if s.isEmpty then "GET" else (⟨pyUpper s.data⟩ : String))
            | w => if w.falsy then pure "GET" else .error "AttributeError: upper"
          let p : String ←
            match ((Json.jobj kvs).get? "path").getD .null with
            | .jstr s => pure (sStrip s)
            | w => if w.falsy then pure "" else .error "AttributeError: strip"
          pure (m, p)
        | _ => .error "AttributeError: get")
    pure (pairs.filter (fun pr => !pr.2.isEmpty))
  | _ => .error "TypeError: iteration"

/-- Embedding of `_fe_base` / `_normalize_base` (packager.py, lines
1072-1077 and 1246-1251). -/
def normalizeBase (c : Json) (default : String) : String :=
  let b :=
    match (c.get? "base_url").getD .null with
    | .jstr s => if s.isEmpty then default else s
    | _ => default
  if sStarts "/" b then b else "/" ++ b

/-- Embedding of `_discover_front_resource` (packager.py, lines
1082-1096): the first endpoint whose relative path matches
`^/([a-zA-Z0-9_-]+)(?:/.*)?$` names the frontend resource. -/
def discoverFrontResource (base : String) (feps : List (String × String)) : Option String :=
  feps.findSome? (fun e =>
    let p := sStrip e.2
    if p.isEmpty then none
    else
      let rel := relOf base p
      match rel.data with
      | '/' :: rest =>
        let run := rest.takeWhile isResChar
        if run.isEmpty then none
        else
          match rest.drop run.length with
          | [] => some (⟨run⟩ : String)
          | '/' :: _ => some (⟨run⟩ : String)
          | _ => none
      | _ => none)

/-- The resource-schema selection loop shared by the generators (first
matching resource name, else the first resource); `.error` marks a truthy
non-dict entry, which the surrounding `try` turns into an empty result. -/
def chosenSchemaGo (resourceName : String) : List Json → Json → Except Unit Json
  | [], acc => .ok acc
  | r :: rest, acc => do
    let get : String → Except Unit Json := fun key =>
      if r.falsy then .ok .null
      else
        match r with
        | .jobj _ => .ok ((r.get? key).getD .null)
        | _ => .error ()
    let nm ← get "name"
    if (match nm with | .jstr s => s == resourceName | _ => false) then
      get "schema"
    else do
      let acc' ← (match acc with | .null => get "schema" | _ => .ok acc)
      chosenSchemaGo resourceName rest acc'

/-- The raw `_required` list of the generators (name values of required
schema fields; exceptions anywhere collapse to the empty list). -/
def requiredFieldsRaw (contractE : Json) (resourceName : String) : List Json :=
  let resources :=
    match (contractE.get? "resources").getD .null with
    | .jarr xs => some xs
    | v => if v.falsy then some [] else none
  match resources with
  | none => []
  | some xs =>
    match chosenSchemaGo resourceName xs .null with
    | .error _ => []
    | .ok sch =>
      match (if sch.falsy then Json.jarr [] else sch) with
      | .jarr fs =>
        (match fs.mapM (fun f =>
          if f.falsy then Except.ok (Option.none (α := Json))
          else
            match f with
            | .jobj _ =>
              let req := (f.get? "required").getD .null
              if !req.falsy then Except.ok (some ((f.get? "name").getD .null))
              else Except.ok none
            | _ => Except.error ()) with
        | .ok opts => opts.filterMap id
        | .error _ => [])
      | _ => []

/-- The `^[A-Za-z][A-Za-z0-9_]{0,30}$` filter of the generators. -/
def validRequiredName (s : String) : Bool :=
  match s.data with
  | c :: rest =>
    c.isAlpha && rest.all (fun x => x.isAlphanum || x == '_') && decide (rest.length ≤ 30)
  | [] => false

/-- The sanitized `valid_required` list (fallback `['name']`). -/
def validRequiredOf (contractE : Json) (resourceName : String) : List String :=
  let valid := (requiredFieldsRaw contractE resourceName).filterMap (fun x =>
    match x with
    | .jstr s => if validRequiredName s then some s else none
    | _ => none)
  if valid.isEmpty then ["name"] else valid

/-- The main-resource discovery shared by the three generators: the first
endpoint path under `base_url` names the resource. -/
def discoverResourceFromEps (baseUrl fallback : String) (eps : List (String × String)) : String :=
  match eps.find? (fun e => sStarts (baseUrl ++ "/") e.2) with
  | some e =>
    let rel0 := (⟨e.2.data.drop baseUrl.data.length⟩ : String)
    let rel0 := if sStarts "/" rel0 then rel0 else "/" ++ rel0
    let n := (splitOnChar '/' (rel0.data.drop 1)).headD []
    if n.isEmpty then fallback else ⟨n⟩
  | none => fallback

/-- Python `str.capitalize()` (ASCII). -/
def pyCapitalize (s : String) : String :=
  match s.data with
  | [] => ""
  | c :: rest => ⟨c.toUpper :: pyLower rest⟩

/-- Python `str.strip(ch)` for one character. -/
def pyStripChar (c : Char) (l : List Char) : List Char :=
  ((l.dropWhile (fun x => x == c)).reverse.dropWhile (fun x => x == c)).reverse

/-- Characters kept by the handler-name `re.sub(r"[^a-z0-9]+", "_", ...)`. -/
def isLowerDigit (c : Char) : Bool := ('a' ≤ c && c ≤ 'z') || c.isDigit

/-- `re.sub(r"[^a-z0-9]+", "_", l)`: each maximal run of other characters
becomes one underscore. -/
def collapseNonLowerGo : Nat → List Char → List Char
  | 0, l => l
  | _, [] => []
  | fuel + 1, c :: rest =>
    if isLowerDigit c then c :: collapseNonLowerGo fuel rest
    else '_' :: collapseNonLowerGo fuel (rest.dropWhile (fun x => !isLowerDigit x))

/-- Wrapper of `collapseNonLowerGo` with sufficient fuel. -/
def collapseNonLower (l : List Char) : List Char :=
  collapseNonLowerGo (l.length + 1) l

/-- The generated handler name
`ep_<method>_<slug of the stripped route>` (`root` when empty). -/
def epFuncName (m relRoute : String) : String :=
  let mid := pyStripChar '_' (collapseNonLower (pyStripChar '/' relRoute.data))
  "ep_" ++ sLower m ++ "_" ++ (if mid.isEmpty then "root" else (⟨mid⟩ : String))

/-! ## packager.py: the structured back-block routing loop -/

/-- The contract-block detection of both builders (the detected blocks are
marked `_skip_write` and copied to `docs/api_contract.json`). -/
def isContractBlock (b : CodeBlock) : Bool :=
  (sLower (b.filename.getD "")) == "api_contract.json" ||
  ((sLower b.language) == "json" &&
   sContains "\"endpoints\"" b.content && sContains "\"base_url\"" b.content)

/-- `re.match(r"public\s+class\s+([A-Za-z0-9_]+)", line)`. -/
def matchPublicClassName (l : List Char) : Option (List Char) :=
  if "public".data.isPrefixOf l then
    let r := l.drop 6
    let w := wsRun r
    if w == 0 then none
    else
      let r1 := r.drop w
      if "class".data.isPrefixOf r1 then
        let r2 := r1.drop 5
        let w2 := wsRun r2
        if w2 == 0 then none
        else
          let run := (r2.drop w2).takeWhile isWordChar
          if run.isEmpty then none else some run
      else none
  else none

/-- The package/class line loop of `_java_path_and_name`. -/
def javaLineLoop : List (List Char) → String → String → Bool → String × String
  | [], pkg, cls, _ => (pkg, cls)
  | ln :: rest, pkg, cls, isMain =>
    let line := pyStrip ln
    let pkgNext :=
      if "package ".data.isPrefixOf line && lEnds ";".data line && !isMain then
        (⟨pyStrip ((line.drop 8).dropLast)⟩ : String)
      else pkg
    match matchPublicClassName line with
    | some c => (pkgNext, ⟨c⟩)
    | none => javaLineLoop rest pkgNext cls isMain

/-- Embedding of the `_java_path_and_name` nested function of
`build_structured_zip` (packager.py, lines 1700-1725); returns
(`pkg_path`, class name). -/
def javaPathAndName (groupId : String) (content : String) : String × String :=
  let basePkg := groupId
  let isMain := sContains "@SpringBootApplication" content
  let pkg0 :=
    if isMain then basePkg
    else if sContains "@RestController" content || sContains "@Controller" content then
      basePkg ++ ".controller"
    else if sContains "@Entity" content then basePkg ++ ".model"
    else if sContains "@Service" content then basePkg ++ ".service"
    else if sContains "@Repository" content then basePkg ++ ".repository"
    else basePkg ++ ".controller"
  let res := javaLineLoop (splitlines content.data) pkg0 "ServerPart" isMain
  (⟨res.1.data.map (fun c => if c == '.' then '/' else c)⟩, res.2)

/-- Embedding of the `_augment_spring_pom` nested function (packager.py,
lines 1766-1782). -/
def augmentSpringPom (xml : String) : String :=
  let rep := fun (pat ins : String) (s : String) =>
    (⟨replaceSub pat.data ins.data s.data⟩ : String)
  let out := xml
  let out :=
    if !(sContains "spring-boot-starter-parent" out) then
      rep "<modelVersion>4.0.0</modelVersion>"
        "<modelVersion>4.0.0</modelVersion>\n  <parent>\n    <groupId>org.springframework.boot</groupId>\n    <artifactId>spring-boot-starter-parent</artifactId>\n    <version>3.3.0</version>\n    <relativePath/>\n  </parent>" out
    else out
  let out :=
    if !(sContains "spring-boot-starter-web" out) then
      rep "</dependencies>"
        "  <dependency>\n      <groupId>org.springframework.boot</groupId>\n      <artifactId>spring-boot-starter-web</artifactId>\n    </dependency>\n  </dependencies>" out
    else out
  let out :=
    if !(sContains "spring-boot-starter-data-jpa" out) then
      rep "</dependencies>"
        "  <dependency>\n      <groupId>org.springframework.boot</groupId>\n      <artifactId>spring-boot-starter-data-jpa</artifactId>\n    </dependency>\n    <dependency>\n      <groupId>com.h2database</groupId>\n      <artifactId>h2</artifactId>\n      <scope>runtime</scope>\n    </dependency>\n  </dependencies>" out
    else out
  let out :=
    if !(sContains "jakarta.persistence-api" out) then
      rep "</dependencies>"
        "  <dependency>\n      <groupId>jakarta.persistence</groupId>\n      <artifactId>jakarta.persistence-api</artifactId>\n    </dependency>\n  </dependencies>" out
    else out
  if !(sContains "spring-boot-maven-plugin" out) then
    if sContains "</build>" out then
      rep "</build>"
        "  <plugins>\n      <plugin>\n        <groupId>org.springframework.boot</groupId>\n        <artifactId>spring-boot-maven-plugin</artifactId>\n      </plugin>\n    </plugins>\n  </build>" out
    else
      rep "</project>"
        "  <build>\n    <plugins>\n      <plugin>\n        <groupId>org.springframework.boot</groupId>\n        <artifactId>spring-boot-maven-plugin</artifactId>\n      </plugin>\n    </plugins>\n  </build>\n</project>" out
  else out

/-- Embedding of the `_compute_scan_base` nested function (packager.py,
lines 1814-1827): the longest common dotted prefix of the detected
packages, falling back to the first two segments of the default.  (The
source iterates a Python set; the computed common prefix does not depend
on the iteration order.) -/
def commonPrefixGo (partsList : List (List (List Char))) : Nat → Nat → List (List Char)
  | 0, _ => []
  | fuel + 1, i =>
    match (partsList.headD []).drop i with
    | tok :: _ =>
      if partsList.all (fun p => decide (i < p.length) && (p.drop i).head? == some tok) then
        tok :: commonPrefixGo partsList fuel (i + 1)
      else []
    | [] => []

/-- Fall back to at most the first two dotted segments of `defaultBase`. -/
def scanBaseDefault (defaultBase : String) : String :=
  let s := List.intercalate ['.'] ((splitOnChar '.' defaultBase.data).take 2)
  if s.isEmpty then defaultBase else ⟨s⟩

/-- The scan-base computation over the detected Java packages. -/
def computeScanBase (pkgs : List String) (defaultBase : String) : String :=
  if pkgs.isEmpty then scanBaseDefault defaultBase
  else
    let partsList := pkgs.map (fun p => splitOnChar '.' p.data)
    let minLen := (partsList.map List.length).foldl min ((partsList.headD []).length)
    let base := commonPrefixGo partsList minLen 0
    if decide (base.length < 2) then scanBaseDefault defaultBase
    else ⟨List.intercalate ['.'] base⟩

/-- The per-block routing loop of the back section of
`build_structured_zip` (packager.py, lines 1731-1807), threading
`saw_java`, `spring_main_written`, `pom_written` and the detected package
set.  The source applies its language-sniff-and-`_sanitize_java` block
twice per iteration. -/
def structuredBackLoop (preset groupId : String) :
    List (Nat × CodeBlock) → Bool → Bool → Bool → List String →
    List (String × String) × Bool × Bool × Bool × List String
  | [], sj, smw, pw, pkgs => ([], sj, smw, pw, pkgs)
  | (i, b) :: rest, sj, smw, pw, pkgs =>
    if isContractBlock b then structuredBackLoop preset groupId rest sj smw pw pkgs
    else
      let lang0 := sLower (if b.language.isEmpty then "txt" else b.language)
      let step1 := (lang0 != "java" && looksLikeJava b.content) || lang0 == "java"
      let lang1 := if step1 then "java" else lang0
      let content1 := if step1 then sanitizeJava b.content else b.content
      let step2 := (lang1 != "java" && looksLikeJava content1) || lang1 == "java"
      let lang2 := if step2 then "java" else lang1
      let content2 := if step2 then sanitizeJava content1 else content1
      if lang2 == "java" then
        let pn := javaPathAndName groupId content2
        let dotted : String := ⟨pn.1.data.map (fun c => if c == '/' then '.' else c)⟩
        let pkgsNext := if pkgs.contains dotted then pkgs else pkgs ++ [dotted]
        let hasMainAnn := sContains "@SpringBootApplication" content2
        let content3 :=
          if hasMainAnn && smw then
            (⟨replaceSub "@SpringBootApplication".data [] content2.data⟩ : String)
          else content2
        let smwNext := if hasMainAnn && !smw then true else smw
        let name := sanitizeJavaFilename b.filename pn.2
        let path := "backend/src/main/java/" ++ pn.1 ++ "/" ++ name
        let res := structuredBackLoop preset groupId rest true smwNext pw pkgsNext
        ((path, content3) :: res.1, res.2)
      else if (lang2 == "xml" || lang2 == "pom") && sContains "<project" content2 then
        let res := structuredBackLoop preset groupId rest sj smw true pkgs
        (("backend/pom.xml", augmentSpringPom content2) :: res.1, res.2)
      else if preset == "spring" && (lang2 == "yml" || lang2 == "yaml") then
        let res := structuredBackLoop preset groupId rest sj smw pw pkgs
        (("backend/src/main/resources/application.yml", content2) :: res.1, res.2)
      else if preset == "flask" && (lang2 == "python" || lang2 == "py" ||
          sContains "flask" (sLower content2) || sContains "@app.route" (sLower content2)) then
        let name := sanitizeGenericFilename "python" b.filename ("routes_" ++ pyNat i) true
        let res := structuredBackLoop preset groupId rest sj smw pw pkgs
        (("backend/app/" ++ name, sanitizeFlaskPython content2) :: res.1, res.2)
      else if preset == "express" && (lang2 == "javascript" || lang2 == "js" ||
          lang2 == "typescript" || lang2 == "ts" || sContains "express" (sLower content2)) then
        let extLang :=
          if lang2 == "javascript" || lang2 == "js" then "javascript"
          else if lang2 == "typescript" || lang2 == "ts" then "typescript"
          else lang2
        let name := sanitizeGenericFilename extLang b.filename ("server_part_" ++ pyNat i) true
        let sanitized := sanitizeExpressJs content2
        let baseLower := sLower name
        if sEnds "app.js" baseLower || sEnds "server.js" baseLower ||
            sEnds "index.js" baseLower || sEnds "main.js" baseLower then
          structuredBackLoop preset groupId rest sj smw pw pkgs
        else
          let res := structuredBackLoop preset groupId rest sj smw pw pkgs
          (("backend/src/" ++ name, sanitized) :: res.1, res.2)
      else if lang2 == "bash" || lang2 == "sh" then
        let name := sanitizeGenericFilename lang2 b.filename ("server_part_" ++ pyNat i) true
        let res := structuredBackLoop preset groupId rest sj smw pw pkgs
        (("backend/scripts/" ++ name, content2) :: res.1, res.2)
      else
        let name := sanitizeGenericFilename lang2 b.filename ("server_part_" ++ pyNat i) true
        let res := structuredBackLoop preset groupId rest sj smw pw pkgs
        (("backend/" ++ name, content2) :: res.1, res.2)

/-- Python `enumerate(blocks, start=1)`. -/
def enumerate1 (l : List CodeBlock) : List (Nat × CodeBlock) :=
  ((List.range l.length).map (fun i => i + 1)).zip l

/-! ## packager.py: the scaffolding texts emitted by `build_structured_zip` -/

/-- The structured README text (packager.py, lines 964-982). -/
def topReadmeStructured (projectName preset task language backendRun : String)
    (apiPort : Nat) : String :=
  "# " ++ projectName ++ "\n\n" ++
  "Preset: " ++ preset ++ "\n" ++
  "Task: " ++ task ++ "\n" ++
  "Language: " ++ language ++ "\n\n" ++
  "Este projeto foi gerado automaticamente com estrutura padrão.\n" ++
  "Arquivos RAW dos agentes são mantidos em frontend/FRONT_RAW.md e backend/README.md.\n\n" ++
  "Como executar:\n" ++
  backendRun ++
  "2) Frontend\n" ++
  "   - python -m http.server 5500\n" ++
  "   - Abra: http://127.0.0.1:5500/frontend/index.html\n\n" ++
  "Observação: o frontend usa `API_BASE` com fallback para `http://127.0.0.1:" ++
    pyNat apiPort ++ "/api`. Você pode sobrescrever via `window.API_BASE` ou adicionando `?api=http://127.0.0.1:" ++
    pyNat apiPort ++ "/api` na URL.\n" ++
  "Verificação rápida: GET http://127.0.0.1:" ++ pyNat apiPort ++
    "/health e GET http://127.0.0.1:" ++ pyNat apiPort ++
    "/api/tasks (se houver blueprint `main`).\n\n" ++
  "Endpoints padrão:\n" ++
  "- GET http://127.0.0.1:" ++ pyNat apiPort ++ "/health\n" ++
  "- GET http://127.0.0.1:" ++ pyNat apiPort ++ "/api/tasks\n" ++
  "- POST http://127.0.0.1:" ++ pyNat apiPort ++ "/api/tasks Body: \x7b\"task\":\"Nova tarefa\"\x7d\n"

/-- The shared Flask application factory `backend/app/__init__.py`
(packager.py, line 1263). -/
def flaskInitPy : String :=
  "from flask import Flask, Blueprint\nfrom flask_cors import CORS\nimport pkgutil, importlib\n\napp = Flask(__name__)\nCORS(app)\n\n@app.get('/health')\ndef _health():\n    return \x7b\"status\": \"ok\"\x7d\n\n# Registra explicitamente o Blueprint 'main' e depois faz auto-discovery\ndef _register_blueprints():\n    # Registro explícito do 'main' se existir\n    try:\n        from .main import main as main_bp\n        if 'main' not in app.blueprints:\n            app.register_blueprint(main_bp)\n    except Exception as e:\n        print(f\"[app] Falha ao registrar blueprint 'main': \x7be\x7d\")\n\n    # Auto-discovery de Blueprints em backend/app/*\n    try:\n        for _, modname, _ in pkgutil.iter_modules(__path__):\n            try:\n                m = importlib.import_module(f\"\x7b__name__\x7d.\x7bmodname\x7d\")\n                for attr_name in dir(m):\n                    obj = getattr(m, attr_name)\n                    if isinstance(obj, Blueprint) and obj.name not in app.blueprints:\n                        app.register_blueprint(obj)\n            except Exception as e:\n                print(f\"[app] Ignorando módulo \x7bmodname\x7d: \x7be\x7d\")\n    except Exception as e:\n        print(f\"[app] Falha ao varrer blueprints: \x7be\x7d\")\n\n    print(f\"[app] Blueprints registrados: \x7blist(app.blueprints.keys())\x7d\")\n\n_register_blueprints()\n"

/-- The fallback `backend/app/main.py` of the structured Flask preset when
the contract has no endpoints (packager.py, line 1356). -/
def flaskMainDefaultStructured : String :=
  "from flask import Blueprint, jsonify\nmain = Blueprint('main', __name__, url_prefix='/api')\n@main.route('/tasks', methods=['GET'])\ndef get_tasks():\n    return jsonify(\x7b'tasks': []\x7d)\n"

/-- The per-endpoint lines of the generated Flask blueprint (packager.py,
lines 1307-1351). -/
def flaskEpLines (baseUrl resourceName : String) (e : String × String) : List String :=
  let m := e.1
  let rel := relOf baseUrl e.2
  let collRel := "/" ++ resourceName
  let itemVariants := ["/" ++ resourceName ++ "/:id",
    "/" ++ resourceName ++ "/\x7bid\x7d", "/" ++ resourceName ++ "/<id>"]
  let relFlask : String :=
    ⟨replaceSub "/\x7bid\x7d".data "/<id>".data (replaceSub "/:id".data "/<id>".data rel.data)⟩
  let func := epFuncName m relFlask
  let route := "@main.route('" ++ relFlask ++ "', methods=['" ++ m ++ "'])"
  if rel == collRel && m == "GET" then
    [route, "def " ++ func ++ "():", "    return jsonify(items)"]
  else if rel == collRel && m == "POST" then
    [route, "def " ++ func ++ "():",
     "    data = (request.get_json(silent=True) or \x7b\x7d)",
     "    for k in REQUIRED:\n        val = data.get(k)\n        if val is None or val == '':\n            return jsonify(\x7b'error': f'Campo \x7bk\x7d é obrigatório'\x7d), 400",
     "    it = \x7b'id': current_id\x7d",
     "    for k, v in data.items():\n        if k != 'id':\n            it[k] = v",
     "    if it.get('name') is None and it.get('title') is not None:\n        it['name'] = it.get('title')",
     "    current_id += 1",
     "    items.append(it)",
     "    return jsonify(it), 201"]
  else if itemVariants.contains rel && m == "PUT" then
    [route, "def " ++ func ++ "(id):",
     "    data = (request.get_json(silent=True) or \x7b\x7d)",
     "    for it in items:",
     "        if str(it.get('id')) == str(id):",
     "            for k, v in data.items():\n                if k != 'id':\n                    it[k] = v",
     "            if data.get('name') is None and data.get('title') is not None:\n                it['name'] = data.get('title')",
     "            return jsonify(it)",
     "    return jsonify(\x7b'error': 'Item não encontrado'\x7d), 404"]
  else if itemVariants.contains rel && m == "DELETE" then
    [route, "def " ++ func ++ "(id):",
     "    for i, it in enumerate(items):",
     "        if str(it.get('id')) == str(id):",
     "            items.pop(i)",
     "            return ('', 204)",
     "    return jsonify(\x7b'error': 'Item não encontrado'\x7d), 404"]
  else
    [route, "def " ++ func ++ "():", "    return jsonify(\x7b'ok': True\x7d)"]

/-- The generated `backend/app/main.py` of the structured Flask preset
(packager.py, lines 1266-1352). -/
def flaskMainGenerated (contractE : Json) (baseUrl : String)
    (eps : List (String × String)) : String :=
  let resourceName := discoverResourceFromEps baseUrl "items" eps
  let validRequired := validRequiredOf contractE resourceName
  let header := ["from flask import Blueprint, jsonify, request",
    "main = Blueprint('main', __name__, url_prefix='" ++ baseUrl ++ "')",
    "REQUIRED = " ++ Json.dumpC (.jarr (validRequired.map Json.jstr)),
    "items = []",
    "current_id = 1"]
  String.intercalate "\n" (header ++ eps.flatMap (flaskEpLines baseUrl resourceName))

/-- The express `package.json` template of the structured preset
(packager.py, line 1359), instantiated with `.replace("{name}", ...)`. -/
def expressPackageJson (projectName : String) : String :=
  let template := "\x7b\n  \"name\": \"\x7bname\x7d\",\n  \"version\": \"0.1.0\",\n  \"private\": true,\n  \"scripts\": \x7b\n    \"start\": \"node src/index.js\"\n  \x7d,\n  \"dependencies\": \x7b\n    \"express\": \"^4.18.2\",\n    \"cors\": \"^2.8.5\"\n  \x7d\n\x7d\n"
  ⟨replaceSub "\x7bname\x7d".data projectName.data template.data⟩

/-- State threaded through the express endpoint loop: emitted lines plus
the has-get/post/put/delete flags. -/
structure ExpressGenState where
  parts : List String
  hasGetColl : Bool
  hasPostColl : Bool
  hasPutItem : Bool
  hasDeleteItem : Bool

/-- The express POST-collection handler text (packager.py, lines 1429 and
1457). -/
def expressPostHandler (coll : String) : String :=
  "app.post('" ++ coll ++ "', (req,res)=>\x7b const body = req.body || \x7b\x7d; for(const k of REQUIRED)\x7b if(body[k]===undefined || body[k]===null || body[k]==='')\x7b return res.status(400).json(\x7b error: 'Campo '+k+' é obrigatório' \x7d); \x7d \x7d const it = \x7b id: currentId++ \x7d; for(const k in body)\x7b if(k!=='id') it[k]=body[k]; \x7d if(it.name===undefined && it.title!==undefined)\x7b it.name=it.title; \x7d items.push(it); res.status(201).json(it); \x7d)"

/-- The express PUT-item handler text (packager.py, lines 1435 and 1462). -/
def expressPutHandler (item : String) : String :=
  "app.put('" ++ item ++ "', (req,res)=>\x7b const \x7b id \x7d = req.params; const body = req.body || \x7b\x7d; const t = items.find(x=>String(x.id)===String(id)); if(!t) return res.status(404).json(\x7b error: 'Item não encontrado' \x7d); for(const k in body)\x7b if(k!=='id') t[k]=body[k]; \x7d if(body.name===undefined && body.title!==undefined)\x7b t.name=body.title; \x7d res.json(t); \x7d)"

/-- The express DELETE-item handler text (packager.py, lines 1438 and
1464). -/
def expressDeleteHandler (item : String) : String :=
  "app.delete('" ++ item ++ "', (req,res)=>\x7b const \x7b id \x7d = req.params; const i = items.findIndex(x=>String(x.id)===String(id)); if(i<0) return res.status(404).json(\x7b error: 'Item não encontrado' \x7d); items.splice(i,1); res.status(204).end(); \x7d)"

/-- The express catch-all placeholder handler
`app.<m>('<path>', (req,res)=>res.json({ ok: true }))`. -/
def expressOkHandler (m pathFull : String) : String :=
  "app." ++ m ++ "('" ++ pathFull ++ "', (req,res)=>res.json(\x7b ok: true \x7d))"

/-- One iteration of the express endpoint loop (packager.py, lines
1413-1443). -/
def expressEpStep (baseUrl resourceName : String) (st : ExpressGenState)
    (e : String × String) : ExpressGenState :=
  let m := sLower e.1
  let p := e.2
  let path := if sStarts "/" p then p else "/" ++ p
  let pathFull :=
    if !(sStarts baseUrl path) then baseUrl ++ (if path == "/" then "" else path)
    else path
  let coll := baseUrl ++ "/" ++ resourceName
  let item := baseUrl ++ "/" ++ resourceName ++ "/:id"
  if pathFull == coll then
    if m == "get" then
      { st with parts := st.parts ++ ["app.get('" ++ coll ++ "', (req,res)=>res.json(items))"],
                hasGetColl := true }
    else if m == "post" then
      { st with parts := st.parts ++ [expressPostHandler coll], hasPostColl := true }
    else
      { st with parts := st.parts ++ [expressOkHandler m pathFull] }
  else if pathFull == item then
    if m == "put" then
      { st with parts := st.parts ++ [expressPutHandler item], hasPutItem := true }
    else if m == "delete" then
      { st with parts := st.parts ++ [expressDeleteHandler item], hasDeleteItem := true }
    else
      { st with parts := st.parts ++ [expressOkHandler m pathFull] }
  else
    { st with parts := st.parts ++ [expressOkHandler m pathFull] }

/-- The To-Do variant of the express synthesized POST handler (packager.py,
line 1455). -/
def expressPostHandlerTodo (coll : String) : String :=
  "app.post('" ++ coll ++ "', (req,res)=>\x7b const body = req.body || \x7b\x7d; for(const k of REQUIRED)\x7b if(body[k]===undefined || body[k]===null || body[k]==='')\x7b return res.status(400).json(\x7b error: 'Campo '+k+' é obrigatório' \x7d); \x7d \x7d const it = \x7b id: currentId++, name: String(body.name||'') \x7d; it.done = body.done===undefined ? false : !!body.done; items.push(it); res.status(201).json(it); \x7d)"

/-- The To-Do variant of the express synthesized PUT handler (packager.py,
line 1460). -/
def expressPutHandlerTodo (item : String) : String :=
  "app.put('" ++ item ++ "', (req,res)=>\x7b const id = String((req.params.id||'')).replace(/^\\/+|\\/+$/g,''); const body = req.body || \x7b\x7d; const t = items.find(x=>String(x.id)===id); if(!t) return res.status(404).json(\x7b error: 'Item não encontrado' \x7d); if(body.name!==undefined)\x7b t.name=String(body.name||''); \x7d if(body.done!==undefined)\x7b t.done=!!body.done; \x7d res.json(t); \x7d)"

/-- The generated `backend/src/index.js` of the structured express preset
(packager.py, lines 1362-1466). -/
def expressIndexGenerated (contractE : Json) (task baseUrl : String)
    (eps : List (String × String)) : String :=
  let resourceName := discoverResourceFromEps baseUrl "tasks" eps
  let validRequired := validRequiredOf contractE resourceName
  let header := ["const express = require('express')",
    "const cors = require('cors')",
    "const app = express()",
    "const PORT = process.env.PORT || 3000",
    "app.use(cors())",
    "app.options('*', cors())",
    "app.use(express.json())",
    "app.get('/health', (req,res)=>res.json(\x7bstatus:'ok'\x7d))",
    "const RESOURCE = '" ++ resourceName ++ "'",
    "const REQUIRED = " ++ Json.dumpC (.jarr (validRequired.map Json.jstr)),
    "let items = []",
    "let currentId = 1"]
  let st := eps.foldl (expressEpStep baseUrl resourceName)
    ⟨header, false, false, false, false⟩
  let coll2 := baseUrl ++ "/" ++ resourceName
  let item2 := coll2 ++ ":id"
  let tl := sLower task
  let crudInTask := sContains "crud" tl
  let todoTriggers := sContains "to-do" tl || sContains "todo" tl || sContains "to do" tl ||
    sContains "lista de tarefas" tl || sContains "checklist" tl || sContains "afazeres" tl
  let isTodoExpr :=
    ((["tasks", "todos", "todo", "tarefas"]).contains (sLower resourceName) && !crudInTask) ||
    (todoTriggers && !crudInTask)
  let parts := st.parts
  let parts := if !st.hasGetColl then
      parts ++ ["app.get('" ++ coll2 ++ "', (req,res)=>res.json(items))"]
    else parts
  let parts := if !st.hasPostColl then
      parts ++ [if isTodoExpr then expressPostHandlerTodo coll2 else expressPostHandler coll2]
    else parts
  let parts := if !st.hasPutItem then
      parts ++ [if isTodoExpr then expressPutHandlerTodo item2 else expressPutHandler item2]
    else parts
  let parts := if !st.hasDeleteItem then parts ++ [expressDeleteHandler item2] else parts
  let parts := parts ++ ["app.listen(PORT, ()=>console.log('Server on ' + PORT))"]
  String.intercalate "\n" parts

/-- The spring `pom.xml` of the structured preset (packager.py, lines
1474-1517; the f-string starts with a newline). -/
def springPresetPom (groupId projectName : String) : String :=
  "\n<project xmlns=\"http://maven.apache.org/POM/4.0.0\" xmlns:xsi=\"http://www.w3.org/2001/XMLSchema-instance\" xsi:schemaLocation=\"http://maven.apache.org/POM/4.0.0 http://maven.apache.org/xsd/maven-4.0.0.xsd\">\n  <modelVersion>4.0.0</modelVersion>\n  <parent>\n    <groupId>org.springframework.boot</groupId>\n    <artifactId>spring-boot-starter-parent</artifactId>\n    <version>3.3.0</version>\n    <relativePath/>\n  </parent>\n  <groupId>" ++ groupId ++ "</groupId>\n  <artifactId>" ++ projectName ++ "</artifactId>\n  <version>0.1.0</version>\n  <properties>\n    <java.version>17</java.version>\n  </properties>\n  <dependencies>\n    <dependency>\n      <groupId>org.springframework.boot</groupId>\n      <artifactId>spring-boot-starter-web</artifactId>\n    </dependency>\n    <dependency>\n      <groupId>org.springframework.boot</groupId>\n      <artifactId>spring-boot-starter-data-jpa</artifactId>\n    </dependency>\n    <dependency>\n      <groupId>jakarta.persistence</groupId>\n      <artifactId>jakarta.persistence-api</artifactId>\n    </dependency>\n    <dependency>\n      <groupId>com.h2database</groupId>\n      <artifactId>h2</artifactId>\n      <scope>runtime</scope>\n    </dependency>\n  </dependencies>\n  <build>\n    <plugins>\n      <plugin>\n        <groupId>org.springframework.boot</groupId>\n        <artifactId>spring-boot-maven-plugin</artifactId>\n      </plugin>\n    </plugins>\n  </build>\n</project>\n"

/-- The fallback-Application template shared by the structured spring
preset and the `saw_java` fallback (packager.py, lines 1525-1537 and
1832-1844), instantiated with sequential `.replace` calls. -/
def springAppTemplate : String :=
  "package \x7bgroup\x7d;\nimport org.springframework.boot.SpringApplication;\nimport org.springframework.boot.autoconfigure.SpringBootApplication;\nimport org.springframework.boot.autoconfigure.domain.EntityScan;\nimport org.springframework.data.jpa.repository.config.EnableJpaRepositories;\n\n@SpringBootApplication(scanBasePackages = \"\x7bscan\x7d\")\n@EntityScan(basePackages = \"\x7bscan\x7d\")\n@EnableJpaRepositories(basePackages = \"\x7bscan\x7d\")\npublic class \x7bapp\x7d \x7b\n  public static void main(String[] args)\x7b SpringApplication.run(\x7bapp\x7d.class, args); \x7d\n\x7d\n"

/-- Instantiation of `springAppTemplate`. -/
def springAppSource (group app scan : String) : String :=
  let s := replaceSub "\x7bgroup\x7d".data group.data springAppTemplate.data
  let s := replaceSub "\x7bapp\x7d".data app.data s
  ⟨replaceSub "\x7bscan\x7d".data scan.data s⟩

/-- The `application.yml` of the structured spring preset (packager.py,
lines 1540-1557; the literal starts with a newline). -/
def springYml : String :=
  "\nspring:\n  datasource:\n    url: jdbc:h2:mem:testdb\n    driverClassName: org.h2.Driver\n    username: sa\n    password: \"\"\n  jpa:\n    hibernate:\n      ddl-auto: create-drop\n    properties:\n      hibernate:\n        globally_quoted_identifiers: true\n    show-sql: true\n  h2:\n    console:\n      enabled: true\n"

/-- The fallback `HealthController` of the structured spring preset
(packager.py, lines 1651-1661). -/
def springHealthController (groupId : String) : String :=
  "package " ++ groupId ++ ".controller;\nimport org.springframework.web.bind.annotation.*;\nimport java.util.Map;\n@RestController\n@CrossOrigin(origins = \"*\")\npublic class HealthController \x7b\n  @GetMapping(\"/health\")\n  public Map<String,String> health()\x7b return Map.of(\"status\", \"ok\"); \x7d\n\x7d\n"

/-- The `CorsConfig` of the structured spring preset (packager.py, lines
1665-1683). -/
def springCorsConfig (groupId : String) : String :=
  "package " ++ groupId ++ ".config;\nimport org.springframework.context.annotation.Bean;\nimport org.springframework.context.annotation.Configuration;\nimport org.springframework.web.servlet.config.annotation.CorsRegistry;\nimport org.springframework.web.servlet.config.annotation.WebMvcConfigurer;\n\n@Configuration\npublic class CorsConfig \x7b\n  @Bean\n  public WebMvcConfigurer corsConfigurer() \x7b\n    return new WebMvcConfigurer() \x7b\n      @Override\n      public void addCorsMappings(CorsRegistry registry) \x7b\n        registry.addMapping(\"/**\").allowedOrigins(\"*\").allowedMethods(\"*\").allowedHeaders(\"*\");\n      \x7d\n    \x7d;\n  \x7d\n\x7d\n"

/-- The spring fallback `pom.xml` emitted when a Java block was seen but no
POM was written (packager.py, lines 1847-1874). -/
def springFallbackPom (groupId projectName : String) : String :=
  "\n<project xmlns=\"http://maven.apache.org/POM/4.0.0\" xmlns:xsi=\"http://www.w3.org/2001/XMLSchema-instance\" xsi:schemaLocation=\"http://maven.apache.org/POM/4.0.0 http://maven.apache.org/xsd/maven-4.0.0.xsd\">\n  <modelVersion>4.0.0</modelVersion>\n  <parent>\n    <groupId>org.springframework.boot</groupId>\n    <artifactId>spring-boot-starter-parent</artifactId>\n    <version>3.3.0</version>\n    <relativePath/>\n  </parent>\n  <groupId>" ++ groupId ++ "</groupId>\n  <artifactId>" ++ projectName ++ "</artifactId>\n  <version>0.1.0</version>\n  <dependencies>\n    <dependency>\n      <groupId>org.springframework.boot</groupId>\n      <artifactId>spring-boot-starter-web</artifactId>\n    </dependency>\n  </dependencies>\n  <build>\n    <plugins>\n      <plugin>\n        <groupId>org.springframework.boot</groupId>\n        <artifactId>spring-boot-maven-plugin</artifactId>\n      </plugin>\n    </plugins>\n  </build>\n</project>\n"

/-- The per-endpoint lines of the generated spring controller (packager.py,
lines 1607-1647).  The POST-collection handler line concatenates an
undefined Python variable `k` (line 1625: the quote before `Campo` is not
escaped), so reaching it raises `NameError`. -/
def springEpLines (base resourceName : String) (e : String × String) :
    Except String (List String) :=
  let m := e.1
  let rel := relOf base e.2
  let collRel := "/" ++ resourceName
  let itemVariants := ["/" ++ resourceName ++ "/:id",
    "/" ++ resourceName ++ "/\x7bid\x7d", "/" ++ resourceName ++ "/<id>"]
  let springRel : String :=
    ⟨replaceSub "/<id>".data "/\x7bid\x7d".data (replaceSub "/:id".data "/\x7bid\x7d".data rel.data)⟩
  let func := epFuncName m springRel
  if rel == collRel && m == "GET" then
    .ok ["  @GetMapping(\"" ++ collRel ++ "\")",
      "  public List<Map<String,Object>> " ++ func ++ "() \x7b return items; \x7d"]
  else if rel == collRel && m == "POST" then
    .error "NameError: name 'k' is not defined"
  else if itemVariants.contains rel && m == "PUT" then
    .ok ["  @PutMapping(\"" ++ springRel ++ "\")",
      "  public Map<String,Object> " ++ func ++ "(@PathVariable String id, @RequestBody Map<String,Object> body) \x7b",
      "    for(Map<String,Object> it : items)\x7b if(String.valueOf(it.get(\"id\")).equals(String.valueOf(id)))\x7b for(Map.Entry<String,Object> e : body.entrySet())\x7b if(!\"id\".equals(e.getKey())) it.put(e.getKey(), e.getValue()); \x7d if(body.get(\"name\") == null && body.get(\"title\") != null)\x7b it.put(\"name\", String.valueOf(body.get(\"title\"))); \x7d return it; \x7d \x7d",
      "    return Map.of(\"error\", \"Item não encontrado\");",
      "  \x7d"]
  else if itemVariants.contains rel && m == "DELETE" then
    .ok ["  @DeleteMapping(\"" ++ springRel ++ "\")",
      "  public Map<String,Object> " ++ func ++ "(@PathVariable String id) \x7b",
      "    for(int i=0;i<items.size();i++)\x7b Map<String,Object> it = items.get(i); if(String.valueOf(it.get(\"id\")).equals(String.valueOf(id)))\x7b items.remove(i); return Map.of(\"ok\", true); \x7d \x7d",
      "    return Map.of(\"error\", \"Item não encontrado\");",
      "  \x7d"]
  else
    .ok ["  @RequestMapping(\"" ++ springRel ++ "\")",
      "  public Map<String,Object> " ++ func ++ "() \x7b return Map.of(\"ok\", true); \x7d"]

/-- The generated `ApiController` of the structured spring preset
(packager.py, lines 1559-1649). -/
def springControllerGenerated (contractE : Json) (groupId base : String)
    (eps : List (String × String)) : Except String String := do
  let resourceName := discoverResourceFromEps base "items" eps
  let validRequired := validRequiredOf contractE resourceName
  let reqJava := String.intercalate ", " (validRequired.map (fun x => "\"" ++ x ++ "\""))
  let header := [
    "package " ++ groupId ++ ".controller;",
    "import org.springframework.web.bind.annotation.*;",
    "import java.util.*;",
    "@RestController",
    "@CrossOrigin(origins = \"*\")",
    "@RequestMapping(\"" ++ base ++ "\")",
    "public class ApiController \x7b",
    "  private java.util.List<String> REQUIRED = java.util.List.of(" ++ reqJava ++ ");",
    "  private List<Map<String,Object>> items = new ArrayList<>();",
    "  private int currentId = 1;"]
  let epLines ← eps.mapM (springEpLines base resourceName)
  pure (String.intercalate "\n" (header ++ epLines.flatten ++ ["\x7d"]))

/-- The generated `styles.css` of the structured frontend (packager.py,
lines 1126-1133). -/
def structuredStylesCss : String :=
  "body\x7bfont-family:Arial,Helvetica,sans-serif;padding:20px\x7d" ++
  "h1\x7bmargin-bottom:16px\x7d" ++
  ".form\x7bmargin-bottom:12px;display:flex;gap:8px;flex-wrap:wrap\x7d" ++
  ".item\x7bdisplay:flex;gap:8px;align-items:center;margin:8px 0;flex-wrap:wrap\x7d" ++
  ".item input,.item select\x7bflex:1;padding:6px\x7d" ++
  ".item button\x7bpadding:6px 10px\x7d"

/-- The generated `index.html` of the structured frontend (packager.py,
lines 1160-1177). -/
def structuredIndexHtml (isTodo : Bool) (titleRes : String) : String :=
  "<!DOCTYPE html>\n" ++
  "<html lang=\"pt-BR\">\n" ++
  "<head>\n" ++
  "  <meta charset=\"UTF-8\" />\n" ++
  "  <meta name=\"viewport\" content=\"width=device-width, initial-scale=1.0\" />\n" ++
  (if isTodo then "  <title>To-Do List de " ++ titleRes ++ "</title>\n"
   else "  <title>CRUD de " ++ titleRes ++ "</title>\n") ++
  "  <link rel=\"stylesheet\" href=\"styles.css\" />\n" ++
  "</head>\n" ++
  "<body>\n" ++
  (if isTodo then "  <h1>To-Do List de " ++ titleRes ++ "</h1>\n"
   else "  <h1>CRUD de " ++ titleRes ++ "</h1>\n") ++
  "  <div class=\"form\" id=\"form\"></div>\n" ++
  "  <button id=\"add-btn\">Adicionar</button>\n" ++
  "  <div id=\"list\"></div>\n" ++
  "  <script src=\"script.js\"></script>\n" ++
  "</body>\n" ++
  "</html>\n"

/-- The generated To-Do `script.js` of the structured frontend
(packager.py, lines 1187-1206). -/
def structuredTodoScript (apiBaseDefault resourceName schemaJs : String) : String :=
  "const API_BASE=(function()\x7bconst p=new URLSearchParams(window.location.search);return window.API_BASE||p.get('api')||'" ++
  apiBaseDefault ++ "';\x7d)();\n" ++
  "const RESOURCE='" ++ resourceName ++ "';\n" ++
  "const SCHEMA=" ++ schemaJs ++ ";\n" ++
  "const listEl=document.getElementById('list');\n" ++
  "const formEl=document.getElementById('form');\n" ++
  "const addBtn=document.getElementById('add-btn');\n" ++
  "function boolField()\x7b const f=(SCHEMA||[]).find(x=>x&&x.type==='boolean'); return (f&&f.name)||'done'; \x7d\n" ++
  "function buildForm()\x7b formEl.innerHTML=''; const i=document.createElement('input'); i.type='text'; i.id='new-name'; i.placeholder='Nova tarefa'; i.autocomplete='off'; i.setAttribute('aria-label','Nova tarefa'); formEl.appendChild(i); \x7d\n" ++
  "buildForm();\n" ++
  "function join(base, path)\x7b const b=String(base||'').replace(/\\/+$/,''); const p=String(path||'').replace(/^\\+/,''); return b + '/' + p; \x7d\n" ++
  "async function loadItems()\x7b try\x7b const r=await fetch(join(API_BASE, RESOURCE)); if(!r.ok) throw new Error('HTTP '+r.status); const data=await r.json(); const items = Array.isArray(data) ? data : (Array.isArray(data.items)?data.items:(Array.isArray(data.content)?data.content:[])); render(items); \x7d catch(e)\x7b console.error('GET failed', e); listEl.innerHTML='<div>API indisponível</div>'; \x7d \x7d\n" ++
  "function render(items)\x7b listEl.innerHTML=''; const bf=boolField(); for(const t of items)\x7b const rid=String(t.id ?? t._id ?? ''); const row=document.createElement('div'); row.className='item'; const chk=document.createElement('input'); chk.type='checkbox'; chk.checked=Boolean(t[bf]??false); chk.onchange=()=>toggleItem((t.id??t._id), chk.checked, bf); const span=document.createElement('span'); span.textContent=String(t.name ?? t.title ?? rid); if(chk.checked)\x7b span.style.textDecoration='line-through'; span.style.opacity='0.7'; \x7d const del=document.createElement('button'); del.textContent='Excluir'; del.onclick=()=>deleteItem((t.id??t._id)); row.appendChild(chk); row.appendChild(span); row.appendChild(del); listEl.appendChild(row); \x7d \x7d\n" ++
  "async function addItem()\x7b try\x7b const n=(document.getElementById('new-name').value||'').trim(); if(!n)\x7b console.error('Campo name é obrigatório'); return; \x7d const bf=boolField(); const body=\x7b name:n \x7d; body[bf]=false; const r=await fetch(join(API_BASE, RESOURCE),\x7bmethod:'POST',headers:\x7b'Content-Type':'application/json'\x7d,body:JSON.stringify(body)\x7d); if(!r.ok) throw new Error('HTTP '+r.status); document.getElementById('new-name').value=''; await loadItems(); \x7d catch(e)\x7b console.error('POST failed', e); \x7d \x7d\n" ++
  "async function toggleItem(id,val,bf)\x7b try\x7b const body=\x7b\x7d; body[bf]=Boolean(val); const r=await fetch(join(API_BASE, RESOURCE + '/' + encodeURIComponent(id)),\x7bmethod:'PUT',headers:\x7b'Content-Type':'application/json'\x7d,body:JSON.stringify(body)\x7d); if(!r.ok) throw new Error('HTTP '+r.status); await loadItems(); \x7d catch(e)\x7b console.error('PUT failed', e); \x7d \x7d\n" ++
  "async function deleteItem(id)\x7b try\x7b const r=await fetch(join(API_BASE, RESOURCE + '/' + encodeURIComponent(id)),\x7bmethod:'DELETE'\x7d); if(!r.ok) throw new Error('HTTP '+r.status); await loadItems(); \x7d catch(e)\x7b console.error('DELETE failed', e); \x7d \x7d\n" ++
  "addBtn.onclick=addItem;\n" ++
  "loadItems();\n"

/-- The generated CRUD `script.js` of the structured frontend
(packager.py, lines 1208-1228). -/
def structuredCrudScript (apiBaseDefault resourceName schemaJs : String) : String :=
  "const API_BASE=(function()\x7bconst p=new URLSearchParams(window.location.search);return window.API_BASE||p.get('api')||'" ++
  apiBaseDefault ++ "';\x7d)();\n" ++
  "const RESOURCE='" ++ resourceName ++ "';\n" ++
  "const SCHEMA=" ++ schemaJs ++ ";\n" ++
  "const listEl=document.getElementById('list');\n" ++
  "const formEl=document.getElementById('form');\n" ++
  "const addBtn=document.getElementById('add-btn');\n" ++
  "function buildForm()\x7b const defs=(SCHEMA&&SCHEMA.length)?SCHEMA:[\x7bname:'name',type:'string',required:true\x7d]; formEl.innerHTML=''; for(const f of defs)\x7b let input; if(f.type==='number')\x7b input=document.createElement('input'); input.type='number'; \x7d else if(f.type==='boolean')\x7b input=document.createElement('input'); input.type='checkbox'; \x7d else if(f.type==='enum' && Array.isArray(f.values))\x7b input=document.createElement('select'); for(const v of f.values)\x7b const o=document.createElement('option'); o.value=String(v); o.textContent=String(v); input.appendChild(o);\x7d \x7d else \x7b input=document.createElement('input'); input.type='text'; \x7d input.id='new-'+f.name; input.name=f.name; input.placeholder=f.name; input.autocomplete='off'; input.setAttribute('aria-label',f.name); formEl.appendChild(input);\x7d \x7d\n" ++
  "buildForm();\n" ++
  "function join(base, path)\x7b const b=String(base||'').replace(/\\/+$/,''); const p=String(path||'').replace(/^\\+/,''); return b + '/' + p; \x7d\n" ++
  "async function loadItems()\x7b try\x7b const r=await fetch(join(API_BASE, RESOURCE)); if(!r.ok) throw new Error('HTTP '+r.status); const data=await r.json(); const items = Array.isArray(data) ? data : (Array.isArray(data.items)?data.items:(Array.isArray(data.content)?data.content:[])); render(items); \x7d catch(e)\x7b console.error('GET failed', e); listEl.innerHTML='<div>API indisponível</div>'; \x7d \x7d\n" ++
  "function render(items)\x7b listEl.innerHTML=''; const defs=(SCHEMA&&SCHEMA.length)?SCHEMA:[\x7bname:'name',type:'string',required:true\x7d]; for(const t of items)\x7b const row=document.createElement('div'); row.className='item'; const rid=String(t.id ?? t._id ?? ''); for(const f of defs)\x7b let input; if(f.type==='number')\x7b input=document.createElement('input'); input.type='number'; input.value=(t[f.name]??''); \x7d else if(f.type==='boolean')\x7b input=document.createElement('input'); input.type='checkbox'; input.checked=Boolean(t[f.name]??false); \x7d else if(f.type==='enum' && Array.isArray(f.values))\x7b input=document.createElement('select'); for(const v of f.values)\x7b const o=document.createElement('option'); o.value=String(v); o.textContent=String(v); if(String(t[f.name])===String(v)) o.selected=true; input.appendChild(o);\x7d \x7d else \x7b input=document.createElement('input'); input.type='text'; input.value=String(t[f.name]??''); \x7d input.id='row-'+rid+'-'+f.name; input.name=f.name; input.placeholder=f.name; input.autocomplete='off'; input.setAttribute('aria-label',f.name); row.appendChild(input);\x7d const saveBtn=document.createElement('button'); saveBtn.textContent='Salvar'; saveBtn.onclick=()=>\x7b const body=collectRow(rid); updateItem((t.id ?? t._id),body); \x7d; const delBtn=document.createElement('button'); delBtn.textContent='Excluir'; delBtn.onclick=()=>deleteItem((t.id ?? t._id)); row.appendChild(saveBtn); row.appendChild(delBtn); listEl.appendChild(row);\x7d \x7d\n" ++
  "function collectNew()\x7b const defs=(SCHEMA&&SCHEMA.length)?SCHEMA:[\x7bname:'name',type:'string',required:true\x7d]; const body=\x7b\x7d; for(const f of defs)\x7b const el=document.getElementById('new-'+f.name); if(!el) continue; if(f.type==='boolean')\x7b body[f.name]=Boolean(el.checked); \x7d else if(f.type==='number')\x7b const v=String(el.value||''); body[f.name]=v?Number(v):null; \x7d else \x7b body[f.name]=String(el.value||''); \x7d \x7d for(const f of defs)\x7b if(f.required && (body[f.name]===undefined || body[f.name]===null || body[f.name]===''))\x7b return \x7berror:'Campo '+f.name+' é obrigatório'\x7d; \x7d \x7d return body; \x7d\n" ++
  "function collectRow(rid)\x7b const defs=(SCHEMA&&SCHEMA.length)?SCHEMA:[\x7bname:'name',type:'string',required:true\x7d]; const body=\x7b\x7d; for(const f of defs)\x7b const el=document.getElementById('row-'+rid+'-'+f.name); if(!el) continue; if(f.type==='boolean')\x7b body[f.name]=Boolean(el.checked); \x7d else if(f.type==='number')\x7b const v=String(el.value||''); body[f.name]=v?Number(v):null; \x7d else \x7b body[f.name]=String(el.value||''); \x7d \x7d return body; \x7d\n" ++
  "async function addItem()\x7b try\x7b const body=collectNew(); if(body.error)\x7b console.error(body.error); return; \x7d const r=await fetch(join(API_BASE, RESOURCE),\x7bmethod:'POST',headers:\x7b'Content-Type':'application/json'\x7d,body:JSON.stringify(body)\x7d); if(!r.ok) throw new Error('HTTP '+r.status); formEl.querySelectorAll('input,select').forEach(e=>\x7bif(e.type==='checkbox')e.checked=false; else e.value='';\x7d); await loadItems(); \x7d catch(e)\x7b console.error('POST failed', e); \x7d \x7d\n" ++
  "async function updateItem(id,body)\x7b try\x7b const r=await fetch(join(API_BASE, RESOURCE + '/' + encodeURIComponent(id)),\x7bmethod:'PUT',headers:\x7b'Content-Type':'application/json'\x7d,body:JSON.stringify(body)\x7d); if(!r.ok) throw new Error('HTTP '+r.status); await loadItems(); \x7d catch(e)\x7b console.error('PUT failed', e); \x7d \x7d\n" ++
  "async function deleteItem(id)\x7b try\x7b const r=await fetch(join(API_BASE, RESOURCE + '/' + encodeURIComponent(id)),\x7bmethod:'DELETE'\x7d); if(!r.ok) throw new Error('HTTP '+r.status); await loadItems(); \x7d catch(e)\x7b console.error('DELETE failed', e); \x7d \x7d\n" ++
  "addBtn.onclick=addItem;\n" ++
  "loadItems();\n"

/-! ## packager.py: `build_structured_zip` -/

/-- The `desired` fill of the frontend section (packager.py, lines
1048-1057): first by detected filename, then by block position for the
still-missing keys, in the key order `index.html`, `styles.css`,
`script.js`. -/
def fillDesired (blocks : List CodeBlock) : FrontDesired :=
  let byName := blocks.foldl (fun (d : FrontDesired) b =>
    let fn := sLower (b.filename.getD "")
    if fn == "index.html" && d.indexHtml.isNone then { d with indexHtml := some b.content }
    else if fn == "styles.css" && d.stylesCss.isNone then { d with stylesCss := some b.content }
    else if fn == "script.js" && d.scriptJs.isNone then { d with scriptJs := some b.content }
    else d) ⟨none, none, none⟩
  let step : Option String → Nat → Option String × Nat := fun cur idx =>
    match cur with
    | some c => (some c, idx)
    | none =>
      match blocks.get? idx with
      | some b => (some b.content, idx + 1)
      | none => (none, idx)
  let (ih, i1) := step byName.indexHtml 0
  let (sc, i2) := step byName.stylesCss i1
  let (sj, _) := step byName.scriptJs i2
  ⟨ih, sc, sj⟩

/-- The resource-schema list used by the structured frontend (packager.py,
lines 1135-1148); the surrounding `try` collapses raising shapes to the
empty list.  (A truthy non-list `schema` value is also mapped to `[]`; the
enrichment step always stores a list there.) -/
def frontSchemaList (contractE : Json) (resInfo : Option String) : List Json :=
  let v := (contractE.get? "resources").getD .null
  let rs : Option (List Json) :=
    if v.falsy then some []
    else match v with
      | .jarr xs => some xs
      | _ => none
  match rs with
  | none => []
  | some xs =>
    let loop : List Json → Option Json → Except Unit (Option Json) := fun l init =>
      l.foldlM (fun (chosen : Option Json × Bool) (r : Json) => do
        if chosen.2 then pure chosen
        else
          let rn ←
            if r.falsy then Except.ok Json.null
            else match r with
              | .jobj _ => Except.ok ((r.get? "name").getD .null)
              | _ => Except.error ()
          let nameMatch :=
            match resInfo with
            | some nm => !nm.isEmpty && (match rn with | .jstr s => s == nm | _ => false)
            | none => false
          if nameMatch then pure (some r, true)
          else pure ((if chosen.1.isNone then some r else chosen.1), false)) (init, false)
        |>.map Prod.fst
    match loop xs none with
    | .error _ => []
    | .ok chosen =>
      let c := chosen.getD .null
      let sv := if c.falsy then Json.null else (c.get? "schema").getD .null
      match (if sv.falsy then Json.jarr [] else sv) with
      | .jarr s => s
      | _ => []

/-- The To-Do / CRUD selection of the structured frontend (packager.py,
lines 1150-1158, recomputed identically at 1178-1185). -/
def structuredIsTodo (task resourceName : String) (schemaList : List Json) : Bool :=
  let hasBool := schemaList.any (fun f =>
    match f with
    | .jobj _ =>
      (match f.get? "type" with
       | some (.jstr t) => t == "boolean"
       | _ => false)
    | _ => false)
  let taskL := sLower task
  let crudInTask := sContains "crud" taskL
  let todoTriggers := sContains "to-do" taskL || sContains "todo" taskL ||
    sContains "to do" taskL || sContains "lista de tarefas" taskL ||
    sContains "checklist" taskL || sContains "afazeres" taskL
  let isTodoByTask := todoTriggers && !crudInTask
  hasBool || isTodoByTask ||
    ((["tasks", "todos", "todo", "tarefas"] : List String).contains resourceName && !crudInTask)

/-- Embedding of `build_structured_zip` (packager.py, lines 931-1894) as
the ordered sequence of archive writes.  `.error` models the two
exceptions the function can raise on its own: the `NameError` for the
undefined `k` in the spring POST handler generation (line 1625) and the
unbound `saw_java` when the backend draft is falsy and the preset is
`spring` (lines 1727 and 1810); plus the propagated errors of the
endpoint-extraction helpers on malformed contracts. -/
def buildStructuredZip (task language front back qa preset projectName groupId : String)
    (contract : Option Json) (includeFront : Bool) :
    Except String (List (String × String)) := do
  let backendRun :=
    if preset == "flask" then
      "1) Backend (Flask)\n   - pip install -r backend/requirements.txt\n   - python -m flask --app backend.app:app run --port 5001\n"
    else if preset == "express" then
      "1) Backend (Node/Express)\n   - cd backend\n   - npm install\n   - npm start\n"
    else
      "1) Backend (Java/Spring Boot)\n   - mvn -f backend/pom.xml spring-boot:run\n"
  let apiPort : Nat := if preset == "flask" then 5001 else if preset == "express" then 3000 else 8080
  let readmeWrites :=
    [("README.md", topReadmeStructured projectName preset task language backendRun apiPort)]
  -- contract enrichment and docs/api_contract.json
  let kvs0 : List (String × Json) ←
    match contract with
    | none => pure []
    | some j =>
      if j.falsy then pure []
      else
        match j with
        | .jobj kvs => pure kvs
        | _ => .error "TypeError: dict"
  let resourcesVal := ((Json.jobj kvs0).get? "resources").getD .null
  let kvs1 :=
    if resourcesVal.falsy then
      setKey kvs0 "resources" (.jarr (deriveSchemaFromContract (Json.jobj kvs0)))
    else kvs0
  let contractE := Json.jobj kvs1
  let docsWrites := [("docs/api_contract.json", contractE.dumpI 0)]
  -- frontend (the pre-filled and postprocessed `desired` is fully
  -- overwritten by the generated files before being written out)
  let feps ← contractEps contractE
  let baseFront := normalizeBase contractE "/api"
  let resInfo := discoverFrontResource baseFront feps
  let frontWrites :=
    if includeFront then
      let frontBlocks := extractCodeBlocks front
      let desired0 := fillDesired frontBlocks
      let defaultPort : Nat :=
        if preset == "flask" then 5001 else if preset == "express" then 3000 else 8080
      let _desired1 := postprocessFrontFiles desired0 (some "/api") defaultPort
      let apiBaseDefault := "http://127.0.0.1:" ++ pyNat apiPort ++ baseFront
      let schemaList := frontSchemaList contractE resInfo
      let schemaJs := Json.dumpC (.jarr schemaList)
      let resourceName :=
        match resInfo with
        | some n => if n.isEmpty then "tasks" else n
        | none => "tasks"
      let isTodo := structuredIsTodo task resourceName schemaList
      let titleRes := pyCapitalize resourceName
      let script :=
        if isTodo then structuredTodoScript apiBaseDefault resourceName schemaJs
        else structuredCrudScript apiBaseDefault resourceName schemaJs
      [("frontend/index.html", structuredIndexHtml isTodo titleRes),
       ("frontend/styles.css", structuredStylesCss),
       ("frontend/script.js", script)] ++
      (if !front.isEmpty then [("frontend/FRONT_RAW.md", front)] else [])
    else []
  -- backend preset scaffolding
  let eps ← contractEps contractE
  let baseUrl := normalizeBase contractE "/api"
  let presetWrites ←
    if preset == "flask" then
      let fixed := [("backend/requirements.txt", "flask\nitsdangerous\nflask-cors\npython-dotenv\n"),
        ("backend/.flaskenv", "FLASK_APP=backend.app:app\nFLASK_RUN_PORT=5001\n"),
        ("backend/app/__init__.py", flaskInitPy)]
      let mainW :=
        if !(sContains "backend/app/main.py" (sLower back)) then
          if !eps.isEmpty then
            [("backend/app/main.py", flaskMainGenerated contractE baseUrl eps)]
          else
            [("backend/app/main.py", flaskMainDefaultStructured)]
        else []
      pure (fixed ++ mainW)
    else if preset == "express" then
      let indexJs :=
        if !eps.isEmpty then expressIndexGenerated contractE task baseUrl eps
        else buildExpressCrud (inferResource task (some front) (some back) (some qa))
      pure [("backend/package.json", expressPackageJson projectName),
        ("backend/src/index.js", indexJs)]
    else if preset == "spring" then do
      let basePath : String := ⟨groupId.data.map (fun c => if c == '.' then '/' else c)⟩
      let appName := pyCapitalize projectName ++ "Application"
      let scanBase := scanBaseDefault groupId
      let ctrlPkgPath := basePath ++ "/controller"
      let ctrlW ←
        if !eps.isEmpty then do
          let src ← springControllerGenerated contractE groupId baseUrl eps
          pure [("backend/src/main/java/" ++ ctrlPkgPath ++ "/ApiController.java", src)]
        else
          pure [("backend/src/main/java/" ++ ctrlPkgPath ++ "/HealthController.java",
            springHealthController groupId)]
      pure ([("backend/pom.xml", springPresetPom groupId projectName),
        ("backend/src/main/java/" ++ basePath ++ "/" ++ appName ++ ".java",
          springAppSource groupId appName scanBase),
        ("backend/src/main/resources/application.yml", springYml)] ++
        ctrlW ++
        [("backend/src/main/java/" ++ basePath ++ "/config/CorsConfig.java",
          springCorsConfig groupId)])
    else pure []
  -- backend raw text and routed blocks
  let backPart : Option (List (String × String) × Bool × Bool × Bool × List String) :=
    if back.isEmpty then none
    else
      let backBlocks := extractCodeBlocks back
      let detectWrites := backBlocks.filterMap (fun b =>
        if isContractBlock b then some ("docs/api_contract.json", b.content) else none)
      let res := structuredBackLoop preset groupId (enumerate1 backBlocks) false false false []
      some ([("backend/BACK_RAW.md", back)] ++ detectWrites ++ res.1,
        res.2.1, res.2.2.1, res.2.2.2.1, res.2.2.2.2)
  let backWrites := match backPart with
    | some bp => bp.1
    | none => []
  -- spring fallbacks: both guards read `saw_java`, which is only bound when
  -- the backend draft was truthy
  let fallbackWrites ←
    if preset == "spring" then
      match backPart with
      | none => .error "UnboundLocalError: cannot access local variable 'saw_java' where it is not associated with a value"
      | some bp =>
        let sawJava := bp.2.1
        let springMainWritten := bp.2.2.1
        let pomWritten := bp.2.2.2.1
        let javaPkgs := bp.2.2.2.2
        let w1 :=
          if sawJava && !springMainWritten then
            let basePath : String := ⟨groupId.data.map (fun c => if c == '.' then '/' else c)⟩
            let appName := pyCapitalize projectName ++ "Application"
            let scanBase := computeScanBase javaPkgs groupId
            [("backend/src/main/java/" ++ basePath ++ "/" ++ appName ++ ".java",
              springAppSource groupId appName scanBase)]
          else []
        let w2 :=
          if sawJava && !pomWritten then
            [("backend/pom.xml", springFallbackPom groupId projectName)]
          else []
        pure (w1 ++ w2)
    else pure []
  -- qa section
  let qaWrites :=
    if qa.isEmpty then []
    else
      [("qa/README.md", qa)] ++
      (enumerate1 (extractCodeBlocks qa)).map (fun ib =>
        let i := ib.1
        let b := ib.2
        let lang := sLower (if b.language.isEmpty then "txt" else b.language)
        if lang == "javascript" || lang == "js" then
          let fallbackName :=
            if sContains "login" (sLower b.content) then "login.test.js"
            else "test_" ++ pyNat i ++ ".js"
          let name :=
            match b.filename with
            | some f => if f.isEmpty then fallbackName else f
            | none => fallbackName
          ("qa/" ++ name, b.content)
        else
          let ext := if b.language.isEmpty then "txt" else b.language
          let fallbackName := "tests_example_" ++ pyNat i ++ "." ++ ext
          let name :=
            match b.filename with
            | some f => if f.isEmpty then fallbackName else f
            | none => fallbackName
          ("qa/" ++ name, b.content))
  pure (readmeWrites ++ docsWrites ++ frontWrites ++ presetWrites ++
    backWrites ++ fallbackWrites ++ qaWrites)

/-! ## packager.py: `build_project_zip` (the flat builder)

Line 4 of packager.py is `from turtle import reset`, so the name `reset`
used by `build_project_zip` is the `turtle.reset` function object, not a
preset string; a Python `==` comparison between a function and a `str`
returns `False`. -/

/-- The value of the `reset == "spring"` comparisons of `build_project_zip`
(packager.py, lines 705 and 722): always `False`, because `reset` is the
function imported from the `turtle` module on line 4. -/
def turtleResetEqSpring : Bool := false

/-- The top-level README f-string of `build_project_zip` (packager.py,
lines 538-562). -/
def flatTopReadme (task language : String) : String :=
  "# Projeto Gerado\n\nTask: " ++ task ++ "\nLanguage: " ++ language ++ "\n\n" ++
  "Este arquivo zip contém os artefatos gerados pelos agentes:\n" ++
  "- frontend: UI (HTML/CSS/JS)\n" ++
  "- backend: implementação/rotas geradas pelo agente de backend\n" ++
  "- qa: casos de teste e sugestões\n\n" ++
  "Como executar (Flask backend + frontend estático):\n" ++
  "1) Backend\n" ++
  "   - Instale dependências: `pip install -r backend/requirements.txt`\n" ++
  "   - Rode o servidor (porta 5001): `python -m flask --app backend.app:app run --port 5001`\n" ++
  "2) Frontend\n" ++
  "   - Sirva os arquivos: `python -m http.server 5500`\n" ++
  "   - Abra: `http://127.0.0.1:5500/frontend/index.html`\n\n" ++
  "Observação: o frontend usa `API_BASE` com fallback para `http://127.0.0.1:5001/api`. Você pode sobrescrever via `window.API_BASE` ou passando `?api=http://127.0.0.1:5001/api` na URL.\n\n" ++
  "Testes rápidos de API (Flask):\n" ++
  "- `GET http://127.0.0.1:5001/health`\n" ++
  "- `GET http://127.0.0.1:5001/api/tasks`\n" ++
  "- `POST http://127.0.0.1:5001/api/tasks` Body JSON: `\x7b\"task\":\"Nova tarefa\"\x7d`\n"

/-- The minimal `backend/app/main.py` of the flat builder (packager.py,
line 666). -/
def flaskMainDefaultFlat : String :=
  "from flask import Blueprint, jsonify, request, abort\n\n# Blueprint principal com prefixo /api\nmain = Blueprint('main', __name__, url_prefix='/api')\n\n# Estado em memória (apenas para demo)\ntasks = []\ntask_id_counter = 1\n\n@main.route('/tasks', methods=['GET'])\ndef get_tasks():\n    return jsonify(\x7b 'tasks': tasks \x7d)\n\n@main.route('/tasks', methods=['POST'])\ndef create_task():\n    global task_id_counter\n    data = request.get_json()\n    if not data or 'task' not in data:\n        abort(400, description='Invalid input')\n    task = \x7b 'id': task_id_counter, 'task': data['task'] \x7d\n    tasks.append(task)\n    task_id_counter += 1\n    return jsonify(task), 201\n\n# TODO: mover rotas adicionais aqui\n"

/-- The flat builder's Spring main fallback source (packager.py, lines
790-803); its `{scan}` placeholders are filled by `str.replace`. -/
def flatDemoApplication (scanBase : String) : String :=
  let template := "package com.example;\nimport org.springframework.boot.SpringApplication;\nimport org.springframework.boot.autoconfigure.SpringBootApplication;\nimport org.springframework.boot.autoconfigure.domain.EntityScan;\nimport org.springframework.data.jpa.repository.config.EnableJpaRepositories;\n\n@SpringBootApplication(scanBasePackages = \"\x7bscan\x7d\")\n@EntityScan(basePackages = \"\x7bscan\x7d\")\n@EnableJpaRepositories(basePackages = \"\x7bscan\x7d\")\npublic class DemoApplication \x7b\n  public static void main(String[] args)\x7b SpringApplication.run(DemoApplication.class, args); \x7d\n\x7d\n"
  ⟨replaceSub "\x7bscan\x7d".data scanBase.data template.data⟩

/-- The flat builder's minimal POM fallback (packager.py, lines 807-834). -/
def flatMinimalPom : String :=
  "<project xmlns=\"http://maven.apache.org/POM/4.0.0\" xmlns:xsi=\"http://www.w3.org/2001/XMLSchema-instance\" xsi:schemaLocation=\"http://maven.apache.org/POM/4.0.0 http://maven.apache.org/xsd/maven-4.0.0.xsd\">\n" ++
  "  <modelVersion>4.0.0</modelVersion>\n" ++
  "  <parent>\n" ++
  "    <groupId>org.springframework.boot</groupId>\n" ++
  "    <artifactId>spring-boot-starter-parent</artifactId>\n" ++
  "    <version>3.3.0</version>\n" ++
  "    <relativePath/>\n" ++
  "  </parent>\n" ++
  "  <groupId>com.example</groupId>\n" ++
  "  <artifactId>generated</artifactId>\n" ++
  "  <version>0.1.0</version>\n" ++
  "  <dependencies>\n" ++
  "    <dependency>\n" ++
  "      <groupId>org.springframework.boot</groupId>\n" ++
  "      <artifactId>spring-boot-starter-web</artifactId>\n" ++
  "    </dependency>\n" ++
  "  </dependencies>\n" ++
  "  <build>\n" ++
  "    <plugins>\n" ++
  "      <plugin>\n" ++
  "        <groupId>org.springframework.boot</groupId>\n" ++
  "        <artifactId>spring-boot-maven-plugin</artifactId>\n" ++
  "      </plugin>\n" ++
  "    </plugins>\n" ++
  "  </build>\n" ++
  "</project>\n"

/-- The flat builder's HealthController fallback (packager.py, lines
839-849). -/
def flatHealthController : String :=
  "package com.example.controller;\nimport org.springframework.web.bind.annotation.*;\nimport java.util.Map;\n@RestController\n@CrossOrigin(origins = \"*\")\npublic class HealthController \x7b\n  @GetMapping(\"/health\")\n  public Map<String,String> health()\x7b return Map.of(\"status\", \"ok\"); \x7d\n\x7d\n"

/-- The flat builder's CorsConfig fallback (packager.py, lines 853-871). -/
def flatCorsConfig : String :=
  "package com.example.config;\nimport org.springframework.context.annotation.Bean;\nimport org.springframework.context.annotation.Configuration;\nimport org.springframework.web.servlet.config.annotation.CorsRegistry;\nimport org.springframework.web.servlet.config.annotation.WebMvcConfigurer;\n\n@Configuration\npublic class CorsConfig \x7b\n  @Bean\n  public WebMvcConfigurer corsConfigurer() \x7b\n    return new WebMvcConfigurer() \x7b\n      @Override\n      public void addCorsMappings(CorsRegistry registry) \x7b\n        registry.addMapping(\"/**\").allowedOrigins(\"*\").allowedMethods(\"*\").allowedHeaders(\"*\");\n      \x7d\n    \x7d;\n  \x7d\n\x7d\n"

/-- The `has_flask` stack detection of `build_project_zip` (packager.py,
lines 642-646). -/
def flatHasFlask (language : String) (blocks : List CodeBlock) : Bool :=
  blocks.any (fun b =>
    let lg := sLower b.language
    lg == "python" || lg == "py" ||
    sContains "Flask(" b.content || sContains "from flask" b.content) ||
  sLower language == "python"

/-- The `has_express` stack detection of `build_project_zip` (packager.py,
lines 647-651). -/
def flatHasExpress (language : String) (blocks : List CodeBlock) : Bool :=
  blocks.any (fun b =>
    let lg := sLower b.language
    lg == "javascript" || lg == "js" || lg == "typescript" || lg == "ts" ||
    sContains "express" (sLower b.content)) ||
  (["javascript", "js", "node", "typescript", "ts"] : List String).contains (sLower language)

/-- The language half of one flat sniff-and-sanitize block (packager.py,
lines 692-696). -/
def flatSniffLang (lang content : String) : String :=
  if (lang != "java" && looksLikeJava content) || lang == "java" then "java" else lang

/-- The content half of one flat sniff-and-sanitize block (packager.py,
lines 692-696): `_sanitize_java` once, `_sanitize_java_entity_table`
twice. -/
def flatSniffContent (lang content : String) : String :=
  if (lang != "java" && looksLikeJava content) || lang == "java" then
    sanitizeJavaEntityTable (sanitizeJavaEntityTable (sanitizeJava content))
  else content

/-- The fully sniffed language of a flat back block: the source runs the
sniff block twice (packager.py, lines 691-703). -/
def flatLang2 (b : CodeBlock) : String :=
  flatSniffLang
    (flatSniffLang (sLower (if b.language.isEmpty then "txt" else b.language)) b.content)
    (flatSniffContent (sLower (if b.language.isEmpty then "txt" else b.language)) b.content)

/-- The fully sniffed content of a flat back block after both sanitize
passes. -/
def flatContent2 (b : CodeBlock) : String :=
  flatSniffContent
    (flatSniffLang (sLower (if b.language.isEmpty then "txt" else b.language)) b.content)
    (flatSniffContent (sLower (if b.language.isEmpty then "txt" else b.language)) b.content)

/-- The filename chosen by the flat express/typescript routing branch
(packager.py, lines 751-752). -/
def flatExpressName (i : Nat) (b : CodeBlock) : String :=
  sanitizeGenericFilename
    (if flatLang2 b == "javascript" || flatLang2 b == "js" then "javascript"
     else if flatLang2 b == "typescript" || flatLang2 b == "ts" then "typescript"
     else flatLang2 b) b.filename ("server_part_" ++ pyNat i) true

/-- The (path, content) pair of the unreachable flat Spring-Java branch
(packager.py, lines 705-721). -/
def flatJavaEntry (b : CodeBlock) (smw : Bool) : String × String :=
  let pn := javaPathAndName "com.example.demo" (flatContent2 b)
  ("backend/src/main/java/" ++ pn.1 ++ "/" ++ sanitizeJavaFilename b.filename pn.2,
   if sContains "@SpringBootApplication" (flatContent2 b) && smw then
     (⟨replaceSub "@SpringBootApplication".data [] (flatContent2 b).data⟩ : String)
   else flatContent2 b)

/-- `spring_main_written` after the unreachable flat Spring-Java branch. -/
def flatJavaSmwNext (b : CodeBlock) (smw : Bool) : Bool :=
  if sContains "@SpringBootApplication" (flatContent2 b) && !smw then true else smw

/-- `java_pkgs` after the unreachable flat Spring-Java branch. -/
def flatJavaPkgs (b : CodeBlock) (pkgs : List String) : List String :=
  let dotted : String :=
    ⟨(javaPathAndName "com.example.demo" (flatContent2 b)).1.data.map
      (fun c => if c == '/' then '.' else c)⟩
  if pkgs.contains dotted then pkgs else pkgs ++ [dotted]

/-- The per-block routing loop of `build_project_zip` (packager.py, lines
684-766).  The source applies its language-sniff block twice per
iteration, each time running `_sanitize_java` once and
`_sanitize_java_entity_table` twice; the two Spring routing branches
compare `reset` (the `turtle` function) against `"spring"` and are
therefore unreachable. -/
def flatBackLoop (hasFlask hasExpress : Bool) :
    List (Nat × CodeBlock) → Bool → Bool → Bool → List String →
    List (String × String) × Bool × Bool × Bool × List String
  | [], sj, smw, pw, pkgs => ([], sj, smw, pw, pkgs)
  | (i, b) :: rest, sj, smw, pw, pkgs =>
    if isContractBlock b then flatBackLoop hasFlask hasExpress rest sj smw pw pkgs
    else if turtleResetEqSpring && flatLang2 b == "java" then
      (fun res => (flatJavaEntry b smw :: res.1, res.2))
        (flatBackLoop hasFlask hasExpress rest true (flatJavaSmwNext b smw) pw
          (flatJavaPkgs b pkgs))
    else if turtleResetEqSpring && (flatLang2 b == "xml" || flatLang2 b == "pom") &&
        sContains "<project" (flatContent2 b) then
      (fun res => (("backend/pom.xml", augmentSpringPom (flatContent2 b)) :: res.1, res.2))
        (flatBackLoop hasFlask hasExpress rest sj smw true pkgs)
    else if flatLang2 b == "yml" || flatLang2 b == "yaml" then
      (fun res => (("backend/src/main/resources/application.yml", flatContent2 b) :: res.1,
         res.2))
        (flatBackLoop hasFlask hasExpress rest sj smw pw pkgs)
    else if flatLang2 b == "python" || flatLang2 b == "py" ||
        (hasFlask && (sContains "flask" (sLower (flatContent2 b)) ||
          sContains "@app.route" (sLower (flatContent2 b)))) then
      (fun res =>
        (("backend/app/" ++ sanitizeGenericFilename "python" b.filename
            ("routes_" ++ pyNat i) true,
          sanitizeFlaskPython (flatContent2 b)) :: res.1, res.2))
        (flatBackLoop hasFlask hasExpress rest sj smw pw pkgs)
    else if flatLang2 b == "javascript" || flatLang2 b == "js" || flatLang2 b == "typescript" ||
        flatLang2 b == "ts" || (hasExpress && sContains "express" (sLower (flatContent2 b))) then
      if sLower (flatExpressName i b) == "app.js" ||
          sLower (flatExpressName i b) == "server.js" ||
          sLower (flatExpressName i b) == "index.js" then
        flatBackLoop hasFlask hasExpress rest sj smw pw pkgs
      else
        (fun res =>
          (("backend/src/" ++ flatExpressName i b,
            sanitizeExpressJs (flatContent2 b)) :: res.1, res.2))
          (flatBackLoop hasFlask hasExpress rest sj smw pw pkgs)
    else if flatLang2 b == "bash" || flatLang2 b == "sh" then
      (fun res =>
        (("backend/scripts/" ++ sanitizeGenericFilename (flatLang2 b) b.filename
            ("server_part_" ++ pyNat i) true,
          flatContent2 b) :: res.1, res.2))
        (flatBackLoop hasFlask hasExpress rest sj smw pw pkgs)
    else
      (fun res =>
        (("backend/" ++ sanitizeGenericFilename (flatLang2 b) b.filename
            ("server_part_" ++ pyNat i) true,
          flatContent2 b) :: res.1, res.2))
        (flatBackLoop hasFlask hasExpress rest sj smw pw pkgs)

/-- A single `if content:` guarded `writestr` of an optional frontend
entry. -/
def optWrite (name : String) (o : Option String) : List (String × String) :=
  match o with
  | some c => if c.data.isEmpty then [] else [(name, c)]
  | none => []

/-- The `for fn, content in ...items(): if content:` frontend write-out, in
the dict's insertion order `index.html`, `styles.css`, `script.js`
(packager.py, lines 587-589 and 877-879). -/
def frontWritesOf (d : FrontDesired) : List (String × String) :=
  optWrite "frontend/index.html" d.indexHtml ++
  optWrite "frontend/styles.css" d.stylesCss ++
  optWrite "frontend/script.js" d.scriptJs

/-- The run-notes appended to the flat README (packager.py, lines
882-907). -/
def flatRunNotes (hasFlask hasExpress sawJava : Bool) : String :=
  "\nComo executar:\n" ++
  (if hasFlask then
    "1) Backend (Flask)\n   - pip install -r backend/requirements.txt\n   - python -m flask --app backend.app:app run --port 5001\n"
   else "") ++
  (if hasExpress then
    "2) Backend (Node/Express)\n   - cd backend\n   - npm install\n   - npm start\n   - Verifique: GET http://localhost:3000/health\n   - Verifique: GET http://localhost:3000/api/tasks e POST /api/tasks\n"
   else "") ++
  (if sawJava then
    "3) Backend (Java/Spring Boot)\n   - mvn -f backend/pom.xml spring-boot:run\n"
   else "") ++
  "4) Frontend\n   - python -m http.server 5500\n   - Abra http://127.0.0.1:5500/frontend/index.html\n"

/-- The QA section writes shared verbatim by both builders (packager.py,
lines 912-925 and 1878-1891). -/
def qaWritesOf (qa : String) : List (String × String) :=
  if qa.isEmpty then []
  else
    [("qa/README.md", qa)] ++
    (enumerate1 (extractCodeBlocks qa)).map (fun ib =>
      let i := ib.1
      let b := ib.2
      let lang := sLower (if b.language.isEmpty then "txt" else b.language)
      if lang == "javascript" || lang == "js" then
        let fallbackName :=
          if sContains "login" (sLower b.content) then "login.test.js"
          else "test_" ++ pyNat i ++ ".js"
        let name :=
          match b.filename with
          | some f => if f.isEmpty then fallbackName else f
          | none => fallbackName
        ("qa/" ++ name, b.content)
      else
        let ext := if b.language.isEmpty then "txt" else b.language
        let fallbackName := "tests_example_" ++ pyNat i ++ "." ++ ext
        let name :=
          match b.filename with
          | some f => if f.isEmpty then fallbackName else f
          | none => fallbackName
        ("qa/" ++ name, b.content))

/-- The flat Flask scaffold writes (packager.py, lines 653-667). -/
def flatFlaskWrites (back : String) : List (String × String) :=
  [("backend/requirements.txt", "flask\nitsdangerous\nflask-cors\npython-dotenv\n"),
   ("backend/.flaskenv", "FLASK_APP=backend.app:app\nFLASK_RUN_PORT=5001\n"),
   ("backend/app/__init__.py", flaskInitPy)] ++
  (if !(sContains "backend/app/main.py" (sLower back)) then
    [("backend/app/main.py", flaskMainDefaultFlat)]
   else [])

/-- The flat Express scaffold writes (packager.py, lines 669-678). -/
def flatExpressWrites (task front back qa : String) : List (String × String) :=
  [("backend/package.json", expressPackageJson "generated-server"),
   ("backend/src/index.js",
     buildExpressCrud (inferResource task (some front) (some back) (some qa)))]

/-- The Spring fallback writes of the flat builder (packager.py, lines
768-872), as a function of the loop state
(`saw_java`, `spring_main_written`, `pom_written`, `java_pkgs`). -/
def flatFallbackWrites (st : Bool × Bool × Bool × List String) :
    List (String × String) :=
  (if st.1 && !st.2.1 then
    [("backend/src/main/java/com/example/DemoApplication.java",
      flatDemoApplication (computeScanBase st.2.2.2 "com.example"))]
   else []) ++
  (if st.1 && !st.2.2.1 then [("backend/pom.xml", flatMinimalPom)] else []) ++
  (if st.1 then
    [("backend/src/main/java/com/example/controller/HealthController.java",
      flatHealthController),
     ("backend/src/main/java/com/example/config/CorsConfig.java", flatCorsConfig)]
   else [])

/-- The stack-dependent frontend port of the flat builder (packager.py,
line 875). -/
def flatDefaultPort (hasFlask hasExpress sawJava : Bool) : Nat :=
  if hasFlask then 5001 else if hasExpress then 3000 else if sawJava then 8080 else 5001

/-- The whole backend section of the flat builder (packager.py, lines
595-909), including the frontend re-write and the README update that close
it. -/
def flatBackSection (task language front back qa : String)
    (desired0 : FrontDesired) : List (String × String) :=
  if back.isEmpty then []
  else
    [("backend/BACK_RAW.md", back)] ++
    (extractCodeBlocks back).filterMap (fun b =>
      if isContractBlock b then some ("docs/api_contract.json", b.content) else none) ++
    (if flatHasFlask language (extractCodeBlocks back) then flatFlaskWrites back else []) ++
    (if flatHasExpress language (extractCodeBlocks back) then
       flatExpressWrites task front back qa else []) ++
    (flatBackLoop (flatHasFlask language (extractCodeBlocks back))
       (flatHasExpress language (extractCodeBlocks back))
       (enumerate1 (extractCodeBlocks back)) false false false []).1 ++
    flatFallbackWrites
      (flatBackLoop (flatHasFlask language (extractCodeBlocks back))
        (flatHasExpress language (extractCodeBlocks back))
        (enumerate1 (extractCodeBlocks back)) false false false []).2 ++
    frontWritesOf (postprocessFrontFiles desired0 (some "/api")
      (flatDefaultPort (flatHasFlask language (extractCodeBlocks back))
        (flatHasExpress language (extractCodeBlocks back))
        (flatBackLoop (flatHasFlask language (extractCodeBlocks back))
          (flatHasExpress language (extractCodeBlocks back))
          (enumerate1 (extractCodeBlocks back)) false false false []).2.1)) ++
    [("README.md", flatTopReadme task language ++ "\n" ++
      flatRunNotes (flatHasFlask language (extractCodeBlocks back))
        (flatHasExpress language (extractCodeBlocks back))
        (flatBackLoop (flatHasFlask language (extractCodeBlocks back))
          (flatHasExpress language (extractCodeBlocks back))
          (enumerate1 (extractCodeBlocks back)) false false false []).2.1)]

/-- Embedding of `build_project_zip` (packager.py, lines 527-928) as the
ordered sequence of archive writes (`synthesizeFlatArchive`).  The
function has no raising statement of its own, so it is total. -/
def buildProjectZip (task language front back qa : String) :
    List (String × String) :=
  [("README.md", flatTopReadme task language)] ++
  frontWritesOf (postprocessFrontFiles (fillDesired (extractCodeBlocks front))
    (some "/api") 5001) ++
  (if front.isEmpty then [] else [("frontend/FRONT_RAW.md", front)]) ++
  flatBackSection task language front back qa (fillDesired (extractCodeBlocks front)) ++
  qaWritesOf qa

/-! ## The archive byte stream

Each `zipfile.ZipFile.writestr(path, text)` call of the source stamps the
current local time (`time.localtime()`) into the entry's header, so the
raw bytes of the produced stream are a function of the ordered
(timestamp, path, data) entries.  The wall-clock stamp is modelled as an
explicit `clock` parameter. -/

/-- The serialized entries of the in-memory archive: one (DOS timestamp,
path, data) triple per `writestr` call, in call order. -/
def zipEntries (clock : Nat) (files : List (String × String)) :
    List (Nat × String × String) :=
  files.map (fun f => (clock, f.1, f.2))

/-- The archive stream of `synthesizeStructuredArchive` at a given
wall-clock timestamp. -/
def synthesizeStructuredArchiveStream (clock : Nat)
    (task language front back qa preset projectName groupId : String)
    (contract : Option Json) (includeFront : Bool) :
    Except String (List (Nat × String × String)) :=
  (buildStructuredZip task language front back qa preset projectName groupId
    contract includeFront).map (zipEntries clock)

/-- The timestamp-independent part of a serialized archive stream. -/
def stripStamps (e : Except String (List (Nat × String × String))) :
    Except String (List (String × String)) :=
  e.map (fun l => l.map (fun t => (t.2.1, t.2.2)))

/-! ## Statement-level helpers and fixed claim inputs -/

/-- Whether an `Except` computation succeeded. -/
def exceptOk {ε α : Type} : Except ε α → Bool
  | .ok _ => true
  | .error _ => false

/-- The archive of a successful synthesis; `[]` on error. -/
def exceptFiles {ε : Type} :
    Except ε (List (String × String)) → List (String × String)
  | .ok fs => fs
  | .error _ => []

/-- Whether some file of an archive contains the given substring. -/
def archiveContains (pat : String) (fs : List (String × String)) : Bool :=
  fs.any (fun f => sContains pat f.2)

/-- The number of `app.run(` / `app.listen(` process-bootstrap calls across
a whole archive. -/
def archiveBootstraps (fs : List (String × String)) : Nat :=
  (fs.map (fun f => sCount "app.run(" f.2 + sCount "app.listen(" f.2)).sum

/-- The number of occurrences of a substring across a whole archive. -/
def archiveCount (pat : String) (fs : List (String × String)) : Nat :=
  (fs.map (fun f => sCount pat f.2)).sum

/-- The timestamp of the first entry of a serialized archive stream (`2` on
error or empty archive, distinct from the stamps the counterexample
uses). -/
def streamHeadClock (e : Except String (List (Nat × String × String))) : Nat :=
  match e with
  | .ok ((t, _) :: _) => t
  | _ => 2

/-- The contract of claim C1: `GET` and `POST` `/api/tasks` under base
`/api`. -/
def contractC1 : Json :=
  .jobj [("base_url", .jstr "/api"),
    ("endpoints", .jarr [
      .jobj [("method", .jstr "GET"), ("path", .jstr "/api/tasks")],
      .jobj [("method", .jstr "POST"), ("path", .jstr "/api/tasks")]])]

/-- The backend draft of claim C9: one fenced Java entity block declaring
`User` with `@Entity` and no `@Table`. -/
def c9Back : String := "```java\n@Entity\npublic class User \x7b\x7d\n```"

/-- The frontend map of claim C7's witness: one covered and one
deliberately uncovered fetch call in the same script. -/
def c7Front : List (String × String) :=
  [("app.js", "fetch('/api/tasks'); fetch('/api/nope', \x7b method: 'DELETE' \x7d);")]

/-- The contract of claim C7's witness: a single `GET /api/tasks`
endpoint. -/
def c7Contract : Json :=
  .jobj [("base_url", .jstr "/api"),
    ("endpoints", .jarr [.jobj [("method", .jstr "GET"), ("path", .jstr "/api/tasks")]])]

/-! # Theorems

## Supporting lemmas -/

/-- `String.append` acts as list append on the character data. -/
theorem strDataAppend (a b : String) : (a ++ b).data = a.data ++ b.data := by
  cases a; cases b; rfl

/-- A decimal digit character is never a slash. -/
theorem digitChar_ne_slash (n : Nat) : digitChar n ≠ '/' := by
  unfold digitChar
  split <;> decide

/-- The decimal rendering worker produces no slash. -/
theorem natDigitsGo_no_slash (fuel n : Nat) : '/' ∉ natDigitsGo fuel n := by
  induction fuel generalizing n with
  | zero =>
    intro h
    exact digitChar_ne_slash n (List.mem_singleton.mp h).symm
  | succ fuel ih =>
    rw [natDigitsGo]
    split
    · intro h
      exact digitChar_ne_slash n (List.mem_singleton.mp h).symm
    · intro h
      rcases List.mem_append.mp h with h1 | h2
      · exact ih (n / 10) h1
      · exact digitChar_ne_slash (n % 10) (List.mem_singleton.mp h2).symm

/-- The decimal rendering of a natural number contains no slash. -/
theorem natDigits_no_slash (n : Nat) : '/' ∉ natDigits n := natDigitsGo_no_slash n n

/-- `"server_part_" ++ str(i)` contains no slash. -/
theorem serverPart_no_slash (i : Nat) : '/' ∉ ("server_part_" ++ pyNat i).data := by
  rw [strDataAppend]
  intro h
  rcases List.mem_append.mp h with h1 | h2
  · exact absurd h1 (by decide)
  · exact natDigits_no_slash i h2

/-- `"routes_" ++ str(i)` contains no slash. -/
theorem routesFb_no_slash (i : Nat) : '/' ∉ ("routes_" ++ pyNat i).data := by
  rw [strDataAppend]
  intro h
  rcases List.mem_append.mp h with h1 | h2
  · exact absurd h1 (by decide)
  · exact natDigits_no_slash i h2

/-- `_safe_ext` output contains no slash: it is either `"txt"` or filtered
down to lowercase letters and digits. -/
theorem safeExt_no_slash (lang : String) : '/' ∉ (safeExt lang).data := by
  simp only [safeExt]
  split
  · decide
  · intro h
    have := List.of_mem_filter h
    exact absurd this (by decide)

set_option maxHeartbeats 1600000 in
/-- `_lang_ext` output contains no slash. -/
theorem langExt_no_slash (lang : String) : '/' ∉ (langExt lang).data := by
  unfold langExt
  dsimp only []
  repeat' split
  all_goals try decide
  all_goals exact safeExt_no_slash _

set_option maxHeartbeats 1600000 in
/-- `_sanitize_generic_filename` with a forced extension produces a plain
basename: no slash survives the word-character filter, provided the
fallback base has none. -/
theorem sanitizeGenericFilename_no_slash (lang : String) (fn : Option String)
    (fb : String) (hfb : '/' ∉ fb.data) :
    '/' ∉ (sanitizeGenericFilename lang fn fb true).data := by
  intro h
  simp only [sanitizeGenericFilename, if_true] at h
  rw [strDataAppend, strDataAppend] at h
  rcases List.mem_append.mp h with h1 | hext
  · rcases List.mem_append.mp h1 with hbase | hdot
    · repeat' split at hbase
      all_goals first
        | exact hfb hbase
        | exact absurd (List.of_mem_filter hbase) (by decide)
    · exact absurd hdot (by decide)
  · exact langExt_no_slash lang hext

/-- A candidate prefix whose first characters already disagree with `a` is
not a prefix of `a ++ b`. -/
theorem notPrefixAppendDisagree (p a b : String)
    (hlen : a.data.length ≤ p.data.length)
    (hne : p.data.take a.data.length ≠ a.data) :
    sStarts p (a ++ b) = false := by
  cases hb : sStarts p (a ++ b)
  · rfl
  · exfalso
    unfold sStarts at hb
    rw [strDataAppend] at hb
    obtain ⟨t, ht⟩ := List.isPrefixOf_iff_prefix.mp hb
    have h1 : (p.data ++ t).take a.data.length = p.data.take a.data.length :=
      List.take_append_of_le_length hlen
    rw [ht, List.take_left] at h1
    exact hne h1.symm

/-- A candidate prefix `a ++ m` with a slash inside `m` is not a prefix of
`a ++ b` when `b` is slash-free. -/
theorem notPrefixAppendSlash (p a m b : String)
    (hsplit : p.data = a.data ++ m.data)
    (hm : '/' ∈ m.data)
    (hb : '/' ∉ b.data) :
    sStarts p (a ++ b) = false := by
  cases hbool : sStarts p (a ++ b)
  · rfl
  · exfalso
    unfold sStarts at hbool
    rw [strDataAppend] at hbool
    obtain ⟨t, ht⟩ := List.isPrefixOf_iff_prefix.mp hbool
    rw [hsplit, List.append_assoc] at ht
    have hcancel : m.data ++ t = b.data := List.append_cancel_left ht
    exact hb (hcancel ▸ List.mem_append_left t hm)

/-- Nothing under `backend/app/` sits in the Spring source tree. -/
theorem notJava_app (name : String) :
    sStarts "backend/src/main/java/" ("backend/app/" ++ name) = false :=
  notPrefixAppendDisagree _ _ _ (by decide) (by decide)

/-- Nothing under `backend/scripts/` sits in the Spring source tree. -/
theorem notJava_scripts (name : String) :
    sStarts "backend/src/main/java/" ("backend/scripts/" ++ name) = false :=
  notPrefixAppendDisagree _ _ _ (by decide) (by decide)

/-- Nothing under `qa/` sits in the Spring source tree. -/
theorem notJava_qa (name : String) :
    sStarts "backend/src/main/java/" ("qa/" ++ name) = false :=
  notPrefixAppendDisagree _ _ _ (by decide) (by decide)

/-- A slash-free name placed under `backend/src/` is not in the Spring
source tree `backend/src/main/java/`. -/
theorem notJava_src (name : String) (h : '/' ∉ name.data) :
    sStarts "backend/src/main/java/" ("backend/src/" ++ name) = false :=
  notPrefixAppendSlash _ _ "main/java/" _ (by decide) (by decide) h

/-- A slash-free name placed directly under `backend/` is not in the Spring
source tree. -/
theorem notJava_backendRoot (name : String) (h : '/' ∉ name.data) :
    sStarts "backend/src/main/java/" ("backend/" ++ name) = false :=
  notPrefixAppendSlash _ _ "src/main/java/" _ (by decide) (by decide) h

/-- The express-branch filename of the flat loop is slash-free, so its
write under `backend/src/` is outside the Spring source tree. -/
theorem notJava_expressName (i : Nat) (b : CodeBlock) :
    sStarts "backend/src/main/java/" ("backend/src/" ++ flatExpressName i b) = false := by
  apply notJava_src
  unfold flatExpressName
  exact sanitizeGenericFilename_no_slash _ _ _ (serverPart_no_slash i)

/-- The Spring-routing state of the flat per-block loop never changes:
both branches that would set `saw_java` / `spring_main_written` /
`pom_written` are guarded by the always-false `reset == "spring"`
comparison. -/
theorem flatBackLoop_state (hf he : Bool) (l : List (Nat × CodeBlock))
    (sj smw pw : Bool) (pkgs : List String) :
    (flatBackLoop hf he l sj smw pw pkgs).2 = (sj, smw, pw, pkgs) := by
  induction l generalizing sj smw pw pkgs with
  | nil => rfl
  | cons hd tl ih =>
    obtain ⟨i, b⟩ := hd
    rw [flatBackLoop]
    split
    · exact ih sj smw pw pkgs
    · split
      · next hdead =>
          simp only [turtleResetEqSpring, Bool.false_and] at hdead
          exact absurd hdead (by decide)
      · split
        · next hdead =>
          simp only [turtleResetEqSpring, Bool.false_and] at hdead
          exact absurd hdead (by decide)
        · repeat' split
          all_goals exact ih sj smw pw pkgs

set_option maxHeartbeats 1000000 in
/-- No write of the flat per-block loop lands in the Spring source tree
`backend/src/main/java/`. -/
theorem flatBackLoop_paths (hf he : Bool) (l : List (Nat × CodeBlock))
    (sj smw pw : Bool) (pkgs : List String) :
    ∀ pc ∈ (flatBackLoop hf he l sj smw pw pkgs).1,
      sStarts "backend/src/main/java/" pc.1 = false := by
  induction l generalizing sj smw pw pkgs with
  | nil => intro pc h; cases h
  | cons hd tl ih =>
    obtain ⟨i, b⟩ := hd
    intro pc h
    rw [flatBackLoop] at h
    split at h
    · exact ih sj smw pw pkgs pc h
    · split at h
      · next hdead =>
          simp only [turtleResetEqSpring, Bool.false_and] at hdead
          exact absurd hdead (by decide)
      · split at h
        · next hdead =>
          simp only [turtleResetEqSpring, Bool.false_and] at hdead
          exact absurd hdead (by decide)
        · split at h
          · rcases List.mem_cons.mp h with heq | h
            · subst heq
              exact (by decide : sStarts "backend/src/main/java/"
                "backend/src/main/resources/application.yml" = false)
            · exact ih sj smw pw pkgs pc h
          · split at h
            · rcases List.mem_cons.mp h with heq | h
              · subst heq
                exact notJava_app _
              · exact ih sj smw pw pkgs pc h
            · split at h
              · split at h
                · exact ih sj smw pw pkgs pc h
                · rcases List.mem_cons.mp h with heq | h
                  · subst heq
                    exact notJava_expressName i b
                  · exact ih sj smw pw pkgs pc h
              · split at h
                · rcases List.mem_cons.mp h with heq | h
                  · subst heq
                    exact notJava_scripts _
                  · exact ih sj smw pw pkgs pc h
                · rcases List.mem_cons.mp h with heq | h
                  · subst heq
                    exact notJava_backendRoot _
                      (sanitizeGenericFilename_no_slash _ _ _ (serverPart_no_slash i))
                  · exact ih sj smw pw pkgs pc h

/-- Every entry emitted by `optWrite` carries the given path. -/
theorem optWrite_path (name : String) (o : Option String) :
    ∀ pc ∈ optWrite name o, pc.1 = name := by
  intro pc h
  cases o with
  | none => cases h
  | some c =>
    simp only [optWrite] at h
    split at h
    · cases h
    · rw [List.mem_singleton.mp h]

/-- No frontend write lands in the Spring source tree. -/
theorem frontWritesOf_paths (d : FrontDesired) :
    ∀ pc ∈ frontWritesOf d, sStarts "backend/src/main/java/" pc.1 = false := by
  intro pc h
  unfold frontWritesOf at h
  rcases List.mem_append.mp h with h1 | h3
  · rcases List.mem_append.mp h1 with h0 | h2
    · rw [optWrite_path _ _ pc h0]; decide
    · rw [optWrite_path _ _ pc h2]; decide
  · rw [optWrite_path _ _ pc h3]; decide

/-- First component of a membership in a singleton write list. -/
theorem mem_single_fst {pc : String × String} {name c : String}
    (h : pc ∈ ([(name, c)] : List (String × String))) : pc.1 = name := by
  rw [List.mem_singleton.mp h]

/-- No QA-section write lands in the Spring source tree. -/
theorem qaWritesOf_paths (qa : String) :
    ∀ pc ∈ qaWritesOf qa, sStarts "backend/src/main/java/" pc.1 = false := by
  intro pc h
  unfold qaWritesOf at h
  split at h
  · cases h
  · rcases List.mem_append.mp h with h1 | h2
    · rw [mem_single_fst h1]; decide
    · obtain ⟨ib, _, hmap⟩ := List.mem_map.mp h2
      rw [← hmap]
      dsimp only []
      repeat' split
      all_goals exact notJava_qa _

/-- No flat Flask scaffold write lands in the Spring source tree. -/
theorem flatFlaskWrites_paths (back : String) :
    ∀ pc ∈ flatFlaskWrites back, sStarts "backend/src/main/java/" pc.1 = false := by
  intro pc h
  unfold flatFlaskWrites at h
  rcases List.mem_append.mp h with h1 | h2
  · rcases List.mem_cons.mp h1 with heq | h1
    · subst heq; decide
    · rcases List.mem_cons.mp h1 with heq | h1
      · subst heq; decide
      · rw [mem_single_fst h1]; decide
  · split at h2
    · rw [mem_single_fst h2]; decide
    · cases h2

/-- No flat Express scaffold write lands in the Spring source tree. -/
theorem flatExpressWrites_paths (task front back qa : String) :
    ∀ pc ∈ flatExpressWrites task front back qa,
      sStarts "backend/src/main/java/" pc.1 = false := by
  intro pc h
  unfold flatExpressWrites at h
  rcases List.mem_cons.mp h with heq | h1
  · subst heq; decide
  · rw [mem_single_fst h1]; decide

/-- With `saw_java` still `False`, the flat Spring fallback section is
empty. -/
theorem flatFallbackWrites_nil :
    flatFallbackWrites (false, false, false, []) = [] := rfl

/-- No write of the flat backend section lands in the Spring source
tree. -/
theorem flatBackSection_paths (task language front back qa : String)
    (d : FrontDesired) :
    ∀ pc ∈ flatBackSection task language front back qa d,
      sStarts "backend/src/main/java/" pc.1 = false := by
  intro pc h
  unfold flatBackSection at h
  split at h
  · cases h
  · rcases List.mem_append.mp h with h | hread2
    rcases List.mem_append.mp h with h | hfrontW
    rcases List.mem_append.mp h with h | hfb
    rcases List.mem_append.mp h with h | hloop
    rcases List.mem_append.mp h with h | hexp
    rcases List.mem_append.mp h with h | hflask
    rcases List.mem_append.mp h with hbraw | hdet
    · rw [mem_single_fst hbraw]; decide
    · obtain ⟨b2, _, hb⟩ := List.mem_filterMap.mp hdet
      split at hb
      · rw [← Option.some.inj hb]
        exact (by decide : sStarts "backend/src/main/java/"
          "docs/api_contract.json" = false)
      · cases hb
    · split at hflask
      · exact flatFlaskWrites_paths back pc hflask
      · cases hflask
    · split at hexp
      · exact flatExpressWrites_paths task front back qa pc hexp
      · cases hexp
    · exact flatBackLoop_paths _ _ _ _ _ _ _ pc hloop
    · rw [flatBackLoop_state, flatFallbackWrites_nil] at hfb
      cases hfb
    · exact frontWritesOf_paths _ pc hfrontW
    · rw [mem_single_fst hread2]; decide

/-! ## Claim theorems -/

/-- **C10** (amended).  For every input of the flat builder
`build_project_zip`: the `reset == "spring"` comparisons are false (`reset`
is the function imported from `turtle` on packager.py line 4), the loop's
`saw_java` keeps its initial `False` (so every Spring fallback — main
class, minimal POM, HealthController, CorsConfig — is skipped), and no
write ever lands under `backend/src/main/java/`.  The original claim's
further assertions — that `backend/pom.xml` is never written and that
Java-sniffed blocks always land under `backend/` with a forced `.java`
extension — are refuted by the separate counterexample theorem. -/
theorem claimC10 (task language front back qa : String) :
    turtleResetEqSpring = false ∧
    (flatBackLoop (flatHasFlask language (extractCodeBlocks back))
      (flatHasExpress language (extractCodeBlocks back))
      (enumerate1 (extractCodeBlocks back)) false false false []).2.1 = false ∧
    ∀ pc ∈ buildProjectZip task language front back qa,
      sStarts "backend/src/main/java/" pc.1 = false := by
  refine ⟨rfl, ?_, ?_⟩
  · rw [flatBackLoop_state]
  · intro pc h
    unfold buildProjectZip at h
    rcases List.mem_append.mp h with h | hqa
    rcases List.mem_append.mp h with h | hback
    rcases List.mem_append.mp h with h | hraw
    rcases List.mem_append.mp h with hread | hfront
    · rw [mem_single_fst hread]; decide
    · exact frontWritesOf_paths _ pc hfront
    · split at hraw
      · cases hraw
      · rw [mem_single_fst hraw]; decide
    · exact flatBackSection_paths task language front back qa _ pc hback
    · exact qaWritesOf_paths qa pc hqa

set_option maxRecDepth 8000 in
/-- **C10** counterexample: `build_project_zip` CAN write
`backend/pom.xml` — an `xml` block whose detected filename is `pom.xml`
takes the generic else branch — and a Java-sniffed block whose content
mentions `flask` is routed to `backend/app/routes_1.py`, so no `.java`
file appears at all for it. -/
theorem claimC10_counterexample :
    "backend/pom.xml" ∈
      (buildProjectZip "t" "" "" "```xml\npom.xml\n<project>\n</project>\n```" "").map
        Prod.fst ∧
    "backend/app/routes_1.py" ∈
      (buildProjectZip "t" "python" ""
        "```java\npublic class Util \x7b\n  // flask\n\x7d\n```" "").map Prod.fst ∧
    ((buildProjectZip "t" "python" ""
        "```java\npublic class Util \x7b\n  // flask\n\x7d\n```" "").map Prod.fst).all
      (fun p => !(sEnds ".java" p)) = true := by
  refine ⟨?_, ?_, ?_⟩ <;> decide

set_option maxRecDepth 8000 in
/-- **C10** witness: the amended theorem applied to a concrete input. -/
theorem claimC10_witness :
    sStarts "backend/src/main/java/" "backend/BACK_RAW.md" = false :=
  (claimC10 "" "" "" "x" "").2.2 ("backend/BACK_RAW.md", "x") (by decide)

set_option maxRecDepth 20000 in
set_option maxHeartbeats 2000000 in
/-- **C1** (code_bug).  For the claim's own contract, the flask and express
presets do satisfy the property: the flask blueprint carries a GET and a
POST route for `/tasks` under the `/api` prefix, the express server a GET
and a POST handler for `/api/tasks`, with at most one
`app.run`/`app.listen` call and no `@SpringBootApplication` annotation in
the whole tree.  The spring preset however produces no archive at all: the
generation of its POST-collection handler concatenates the undefined
Python name `k` (packager.py line 1625, an unescaped quote ends the string
early), so `build_structured_zip` raises `NameError` — the claim's "every
one of the three presets" is false. -/
theorem claimC1 :
    (archiveContains "@main.route('/tasks', methods=['GET'])"
      (exceptFiles (buildStructuredZip "" "" "" "" "" "flask" "projeto"
        "com.example" (some contractC1) true)) = true ∧
     archiveContains "@main.route('/tasks', methods=['POST'])"
      (exceptFiles (buildStructuredZip "" "" "" "" "" "flask" "projeto"
        "com.example" (some contractC1) true)) = true ∧
     archiveBootstraps (exceptFiles (buildStructuredZip "" "" "" "" "" "flask"
        "projeto" "com.example" (some contractC1) true)) = 0 ∧
     archiveCount "@SpringBootApplication"
      (exceptFiles (buildStructuredZip "" "" "" "" "" "flask" "projeto"
        "com.example" (some contractC1) true)) = 0) ∧
    (archiveContains "app.get('/api/tasks'"
      (exceptFiles (buildStructuredZip "" "" "" "" "" "express" "projeto"
        "com.example" (some contractC1) true)) = true ∧
     archiveContains "app.post('/api/tasks'"
      (exceptFiles (buildStructuredZip "" "" "" "" "" "express" "projeto"
        "com.example" (some contractC1) true)) = true ∧
     archiveBootstraps (exceptFiles (buildStructuredZip "" "" "" "" "" "express"
        "projeto" "com.example" (some contractC1) true)) = 1 ∧
     archiveCount "@SpringBootApplication"
      (exceptFiles (buildStructuredZip "" "" "" "" "" "express" "projeto"
        "com.example" (some contractC1) true)) = 0) ∧
    buildStructuredZip "" "" "" "" "" "spring" "projeto" "com.example"
      (some contractC1) true = .error "NameError: name 'k' is not defined" :=
  ⟨⟨rfl, rfl, rfl, rfl⟩, ⟨rfl, rfl, rfl, rfl⟩, rfl⟩

set_option maxRecDepth 20000 in
set_option maxHeartbeats 2000000 in
/-- **C2** (code_bug).  `build_structured_zip` does not always return: with
an empty backend draft and the spring preset, `saw_java` is only assigned
inside `if back:` (packager.py line 1728) but read by the fallback guards
(lines 1810 and 1846), so the call raises `UnboundLocalError`.  The same
inputs under the flask and express presets return an archive normally. -/
theorem claimC2 :
    buildStructuredZip "Qualquer tarefa" "python" "" "" "" "spring" "projeto"
      "com.example.projeto" none true =
      .error "UnboundLocalError: cannot access local variable 'saw_java' where it is not associated with a value" ∧
    exceptOk (buildStructuredZip "Qualquer tarefa" "python" "" "" "" "flask"
      "projeto" "com.example.projeto" none true) = true ∧
    exceptOk (buildStructuredZip "Qualquer tarefa" "python" "" "" "" "express"
      "projeto" "com.example.projeto" none true) = true :=
  ⟨rfl, rfl, rfl⟩

/-- **C3** (amended).  The serialized archive stream of
`synthesizeStructuredArchive` is, apart from the per-entry wall-clock
timestamp that `zipfile.writestr` stamps into every header, a function of
the inputs alone: for ANY two wall-clock values the streams agree after
stripping the stamps.  Byte-identity of two re-runs therefore holds
exactly when the wall clock did not move between them — not
unconditionally, as the claim states (see the counterexample theorem). -/
theorem claimC3 (clock clock' : Nat)
    (task language front back qa preset projectName groupId : String)
    (contract : Option Json) (includeFront : Bool) :
    stripStamps (synthesizeStructuredArchiveStream clock task language front
      back qa preset projectName groupId contract includeFront) =
    stripStamps (synthesizeStructuredArchiveStream clock' task language front
      back qa preset projectName groupId contract includeFront) := by
  unfold stripStamps synthesizeStructuredArchiveStream zipEntries
  cases buildStructuredZip task language front back qa preset projectName
      groupId contract includeFront with
  | error e => rfl
  | ok fs =>
    simp only [Except.map, List.map_map]
    rfl

set_option maxRecDepth 20000 in
set_option maxHeartbeats 2000000 in
/-- **C3** counterexample: running the structured synthesis twice with
identical inputs but at two different wall-clock stamps produces two
serialized streams that are NOT byte-identical — every entry header embeds
`time.localtime()`. -/
theorem claimC3_counterexample :
    synthesizeStructuredArchiveStream 0 "" "" "" "" "" "flask" "projeto"
      "com.example" none true ≠
    synthesizeStructuredArchiveStream 1 "" "" "" "" "" "flask" "projeto"
      "com.example" none true := by
  intro h
  exact absurd (congrArg streamHeadClock h) (by decide)

set_option maxRecDepth 20000 in
set_option maxHeartbeats 2000000 in
/-- **C9** (code_bug).  The structured spring path writes the Java entity
block `@Entity public class User` to
`backend/src/main/java/com/example/model/User.java` UNCHANGED, with zero
`@Table` annotations: the per-block loop of `build_structured_zip` runs
only `_sanitize_java` and never `_sanitize_java_entity_table`.  The
omitted sanitizer, applied to the same content, would produce exactly one
`@Table(name = "users")` annotation with the `jakarta.persistence.Table`
header — precisely what the claim expects of the pipeline. -/
theorem claimC9 :
    sContains "@Entity" c9Back = true ∧
    sCount "@Table" c9Back = 0 ∧
    ("backend/src/main/java/com/example/model/User.java",
      "@Entity\npublic class User \x7b\x7d") ∈
      exceptFiles (buildStructuredZip "t" "" "" c9Back "" "spring" "projeto"
        "com.example" none true) ∧
    sCount "@Table" "@Entity\npublic class User \x7b\x7d" = 0 ∧
    sanitizeJavaEntityTable (sanitizeJava "@Entity\npublic class User \x7b\x7d\n") =
      "import jakarta.persistence.Table;\n@Entity\n@Table(name = \"users\")\npublic class User \x7b\x7d" ∧
    sCount "@Table"
      (sanitizeJavaEntityTable (sanitizeJava "@Entity\npublic class User \x7b\x7d\n")) = 1 := by
  refine ⟨rfl, rfl, ?_, rfl, rfl, rfl⟩
  decide

/-- One-step unfolding of the extractor scanner (a definitional equality,
stated so the match can be split in proofs). -/
theorem extractGo_succ (fuel : Nat) (pre s : List Char) :
    extractGo (fuel + 1) pre s =
      (match matchFenceAt s with
       | some (lang, content, rest) =>
         mkBlock pre lang content ::
           extractGo fuel (pre ++ s.take (s.length - rest.length)) rest
       | none =>
         match s with
         | [] => []
         | c :: rest => extractGo fuel (pre ++ [c]) rest) := rfl

/-- One-step unfolding of the spec-side region scanner. -/
theorem specRegionsGo_succ (fuel : Nat) (s : List Char) :
    specRegionsGo (fuel + 1) s =
      (match matchFenceAt s with
       | some (lang, content, rest) =>
         ((⟨lang⟩ : String), (⟨content⟩ : String)) :: specRegionsGo fuel rest
       | none =>
         match s with
         | [] => []
         | _ :: rest => specRegionsGo fuel rest) := rfl

/-- The extractor emits exactly the fenced regions, in order: its scanner
and the spec-side region scanner walk the text in lockstep. -/
theorem extractGo_spec (fuel : Nat) (pre s : List Char) :
    (extractGo fuel pre s).map (fun b => (b.language, b.content)) =
    specRegionsGo fuel s := by
  induction fuel generalizing pre s with
  | zero => rfl
  | succ fuel ih =>
    rw [extractGo_succ, specRegionsGo_succ]
    cases matchFenceAt s with
    | some t =>
      obtain ⟨lang, content, rest⟩ := t
      simp only [List.map_cons, ih]
      rfl
    | none =>
      cases s with
      | nil => rfl
      | cons c rest => exact ih (pre ++ [c]) rest

/-- Every block produced by the extractor scanner is a `mkBlock`. -/
theorem extractGo_blocks (fuel : Nat) (pre s : List Char) :
    ∀ b ∈ extractGo fuel pre s, ∃ p lg ct, b = mkBlock p lg ct := by
  induction fuel generalizing pre s with
  | zero => intro b h; cases h
  | succ fuel ih =>
    intro b h
    rw [extractGo_succ] at h
    revert h
    cases matchFenceAt s with
    | some t =>
      obtain ⟨lang, content, rest⟩ := t
      intro h
      rcases List.mem_cons.mp h with heq | htl
      · exact ⟨pre, lang, content, heq⟩
      · exact ih _ rest b htl
    | none =>
      cases s with
      | nil => intro h; exact absurd h (List.not_mem_nil b)
      | cons c rest => intro h; exact ih (pre ++ [c]) rest b h

/-- **C4** (confirmed).  For every input text the extractor returns one
`CodeBlock` per well-formed fence, in source order, with the matched
language tag and body (stated as equality with the spec-side region list,
which fixes both the count and the order); it is a total function, a text
with no fence yields `[]`, and a `None` text yields `[]`. -/
theorem claimC4 (text : String) :
    (extractCodeBlocks text).map (fun b => (b.language, b.content)) =
      specFencedRegions text ∧
    (specFencedRegions text = [] → extractCodeBlocks text = []) ∧
    extractCodeBlocksOpt none = [] ∧
    extractCodeBlocks "" = [] := by
  refine ⟨extractGo_spec _ _ _, ?_, rfl, rfl⟩
  intro h
  have hm := extractGo_spec (text.data.length + 1) [] text.data
  unfold specFencedRegions at h
  unfold extractCodeBlocks
  rw [h] at hm
  exact List.map_eq_nil_iff.mp hm

/-- **C4** witness: the theorem applied to a fence-free text. -/
theorem claimC4_witness :
    (extractCodeBlocks "plain text, no fence").map
      (fun b => (b.language, b.content)) =
      specFencedRegions "plain text, no fence" ∧
    extractCodeBlocks "plain text, no fence" = [] :=
  ⟨(claimC4 "plain text, no fence").1,
   (claimC4 "plain text, no fence").2.1 (by decide)⟩

/-- **C5** (confirmed).  Heuristic 1 (a comment-wrapped filename inside the
block's first lines) wins over every later heuristic: whenever it returns a
name for a block the extractor produced — in particular when a bare-path
line also precedes the fence — that name is the block's filename. -/
theorem claimC5 (text : String) (b : CodeBlock) (f : List Char)
    (hb : b ∈ extractCodeBlocks text) (h1 : heur1 b.content.data = some f) :
    b.filename = some (⟨f⟩ : String) := by
  obtain ⟨p, lg, ct, rfl⟩ := extractGo_blocks _ _ _ b hb
  show ((heur1 ct).orElse (fun _ =>
    (heur2 p).orElse (fun _ => heur3 ct))).map (fun l => (⟨l⟩ : String)) =
    some (⟨f⟩ : String)
  have hct : heur1 ct = some f := h1
  rw [hct]
  rfl

/-- **C5** witness: a block with both an in-block comment filename
(heuristic 1) and a bare-path line right before the fence (heuristic 2)
resolves to the comment name. -/
theorem claimC5_witness :
    (CodeBlock.mk "html" "<!-- home.html -->\n<h1>x</h1>\n"
      (some "home.html")).filename = some (⟨"home.html".data⟩ : String) :=
  claimC5 "index.html\n```html\n<!-- home.html -->\n<h1>x</h1>\n```"
    ⟨"html", "<!-- home.html -->\n<h1>x</h1>\n", some "home.html"⟩
    "home.html".data (by decide) (by decide)

/-- **C6** (confirmed).  In both branches of `validate_contract_minimal`
(`jsonschema` importable or not): the empty dict is rejected with a
message, `{"base_url": "/api", "endpoints": []}` is accepted as
`(True, None)`, and any dict missing `base_url` or `endpoints` is rejected
with a message. -/
theorem claimC6 (avail : Bool) :
    ((validateContractMinimal avail (.jobj [])).1 = false ∧
     (validateContractMinimal avail (.jobj [])).2.isSome = true) ∧
    validateContractMinimal avail
      (.jobj [("base_url", .jstr "/api"), ("endpoints", .jarr [])]) =
      (true, none) ∧
    ∀ kvs : List (String × Json),
      (!jsonHasKey kvs "base_url" || !jsonHasKey kvs "endpoints") = true →
      (validateContractMinimal avail (.jobj kvs)).1 = false ∧
      (validateContractMinimal avail (.jobj kvs)).2.isSome = true := by
  refine ⟨?_, ?_, ?_⟩
  · cases avail <;> exact ⟨rfl, rfl⟩
  · cases avail <;> rfl
  · intro kvs h
    have h2 : jsonHasKey kvs "base_url" = false ∨
        jsonHasKey kvs "endpoints" = false := by
      cases hb : jsonHasKey kvs "base_url"
      · exact Or.inl rfl
      · cases he : jsonHasKey kvs "endpoints"
        · exact Or.inr rfl
        · rw [hb, he] at h
          exact absurd h (by decide)
    rcases h2 with h1 | h1
    all_goals cases avail
    all_goals simp [validateContractMinimal, contractSchemaOk, h1]

/-- **C6** witness: the theorem's general clause applied to a dict carrying
only `endpoints`. -/
theorem claimC6_witness :
    (validateContractMinimal true (.jobj [("endpoints", .jarr [])])).1 = false ∧
    (validateContractMinimal true (.jobj [("endpoints", .jarr [])])).2.isSome = true :=
  (claimC6 true).2.2 [("endpoints", .jarr [])] (by decide)

set_option maxHeartbeats 800000 in
/-- **C7** (confirmed).  Whenever the contract's endpoint loop succeeds
with pair set `eps`: the checker returns `(True, None)` exactly when every
fetch call recovered from the `.js`/`.ts` frontend files (method
defaulting to `GET`) is covered by `eps` verbatim or after stripping a
leading `/api`; it returns `(True, None)` when no call is recovered at
all; and when at least one call is uncovered it returns `(False, message)`
listing the missing `(method, path)` pairs. -/
theorem claimC7 (frontFiles : List (String × String)) (contract : Json)
    (eps : List (String × String))
    (heps : contractEndpointPairs contract = .ok eps) :
    (checkFrontVsContract frontFiles contract = .ok (true, none) ↔
      (usedCalls frontFiles).all (coveredCall eps) = true) ∧
    (usedCalls frontFiles = [] →
      checkFrontVsContract frontFiles contract = .ok (true, none)) ∧
    ((usedCalls frontFiles).all (coveredCall eps) = false →
      checkFrontVsContract frontFiles contract =
        .ok (false, some ("Frontend fetch usage not covered by contract: " ++
          pyReprPairList (missingCalls eps (usedCalls frontFiles))))) := by
  have hmiss : (missingCalls eps (usedCalls frontFiles) = []) ↔
      (usedCalls frontFiles).all (coveredCall eps) = true := by
    unfold missingCalls
    rw [List.map_eq_nil_iff, List.filter_eq_nil_iff, List.all_eq_true]
    constructor
    · intro h u hu
      simpa using h u hu
    · intro h u hu
      simp [h u hu]
  have hbind : checkFrontVsContract frontFiles contract =
      (if (usedCalls frontFiles).isEmpty then .ok (true, none)
       else if (missingCalls eps (usedCalls frontFiles)).isEmpty then
         .ok (true, none)
       else .ok (false,
         some ("Frontend fetch usage not covered by contract: " ++
           pyReprPairList (missingCalls eps (usedCalls frontFiles))))) := by
    unfold checkFrontVsContract
    rw [heps]
    rfl
  refine ⟨?_, ?_, ?_⟩
  · rw [hbind]
    constructor
    · intro h
      by_cases hu : (usedCalls frontFiles).isEmpty = true
      · rw [List.isEmpty_iff.mp hu]
        rfl
      · rw [if_neg hu] at h
        by_cases hm : (missingCalls eps (usedCalls frontFiles)).isEmpty = true
        · exact hmiss.mp (List.isEmpty_iff.mp hm)
        · rw [if_neg hm] at h
          exact absurd h (by simp)
    · intro h
      have hm : (missingCalls eps (usedCalls frontFiles)).isEmpty = true :=
        List.isEmpty_iff.mpr (hmiss.mpr h)
      by_cases hu : (usedCalls frontFiles).isEmpty = true
      · rw [if_pos hu]
      · rw [if_neg hu, if_pos hm]
  · intro h
    rw [hbind, if_pos (List.isEmpty_iff.mpr h)]
  · intro h
    have hu : ¬ (usedCalls frontFiles).isEmpty = true := by
      intro hu
      rw [List.isEmpty_iff.mp hu] at h
      simp at h
    have hm : ¬ (missingCalls eps (usedCalls frontFiles)).isEmpty = true := by
      intro hm
      rw [hmiss.mp (List.isEmpty_iff.mp hm)] at h
      exact Bool.noConfusion h
    rw [hbind, if_neg hu, if_neg hm]

set_option maxRecDepth 8000 in
set_option maxHeartbeats 1000000 in
/-- **C7** witness: one covered call (`GET /api/tasks`) and one
deliberately uncovered call (`DELETE /api/nope`) in the same script, with
a contract whose only endpoint is `GET /api/tasks`, yield a rejection
naming exactly the uncovered pair. -/
theorem claimC7_witness :
    checkFrontVsContract c7Front c7Contract =
      .ok (false, some
        "Frontend fetch usage not covered by contract: [('DELETE', '/api/nope')]") := by
  have h := (claimC7 c7Front c7Contract [("GET", "/api/tasks")] (by rfl)).2.2
    (by decide)
  rw [h]
  rfl

/-- A list ending in a nonempty `s`-final block still ends in `s` after
prepending. -/
theorem ends_s_append (x t : List Char) (ht : lEnds "s".data t = true)
    (htne : t ≠ []) :
    lEnds "s".data (x ++ t) = true := by
  unfold lEnds at ht ⊢
  rw [List.reverse_append]
  cases htr : t.reverse with
  | nil => exact absurd (List.reverse_eq_nil_iff.mp htr) htne
  | cons c r =>
    rw [htr] at ht
    simp only [List.isPrefixOf, List.cons_append]
    simp only [List.isPrefixOf] at ht
    exact ht.symm ▸ (by simpa using ht)

/-- After the final character cleanup, a pluralized winner that did not end
in `s` ends in `s`. -/
theorem pluralize_filter_ends_s (w : List Char) (h : lEnds "s".data w = false) :
    lEnds "s".data ((pluralizeRes w).filter isCleanChar) = true := by
  unfold pluralizeRes
  rw [if_neg (by simp [h])]
  split
  · rw [List.filter_append,
      show ("ns".data.filter isCleanChar) = "ns".data from by decide]
    exact ends_s_append _ _ (by decide) (by decide)
  · split
    · rw [List.filter_append,
        show ("ies".data.filter isCleanChar) = "ies".data from by decide]
      exact ends_s_append _ _ (by decide) (by decide)
    · rw [List.filter_append,
        show ("s".data.filter isCleanChar) = "s".data from by decide]
      exact ends_s_append _ _ (by decide) (by decide)

set_option maxRecDepth 8000 in
set_option maxHeartbeats 2000000 in
/-- **C8** (confirmed).  `_infer_resource("CRUD de produto", …)` returns
`produtos`, distinct from the singular `produto`; in general whenever the
tallied winner does not already end in `s` the returned name ends in `s`
and therefore differs from the winner (the pluralization invariant); and
with no signal in any of the four texts the result is `users`. -/
theorem claimC8 :
    inferResource "CRUD de produto" (some "") (some "") (some "") = "produtos" ∧
    ("produtos" : String) ≠ "produto" ∧
    (∀ (task : String) (front back qa : Option String),
      lEnds "s".data (inferWinner task front back qa) = false →
      sEnds "s" (inferResource task front back qa) = true ∧
      inferResource task front back qa ≠ (⟨inferWinner task front back qa⟩ : String)) ∧
    inferResource "" (some "") (some "") (some "") = "users" := by
  refine ⟨by decide, by decide, ?_, by decide⟩
  intro task front back qa h
  have hends := pluralize_filter_ends_s (inferWinner task front back qa) h
  constructor
  · exact hends
  · intro heq
    have hd : ((pluralizeRes (inferWinner task front back qa)).filter isCleanChar) =
        inferWinner task front back qa := congrArg String.data heq
    rw [hd] at hends
    exact Bool.false_ne_true (h.symm.trans hends)

set_option maxRecDepth 8000 in
set_option maxHeartbeats 2000000 in
/-- **C8** witness: the general pluralization clause applied to the
`produto` instance. -/
theorem claimC8_witness :
    sEnds "s" (inferResource "CRUD de produto" (some "") (some "") (some "")) = true ∧
    inferResource "CRUD de produto" (some "") (some "") (some "") ≠
      (⟨inferWinner "CRUD de produto" (some "") (some "") (some "")⟩ : String) :=
  (claimC8.2.2.1) "CRUD de produto" (some "") (some "") (some "") (by decide)

end MultiAgent
